import Mathlib

/-! The PI GCS2 DLL headers as data.

`PI_GCS2_DLL.h` declares the prototypes of the vendor library and
`PI_GCS2_DLL_PF.h` declares a function-pointer alias `PFPI_<name>` for dynamic
symbol resolution.  Both headers consist of preprocessor directives, numeric
`#define` constants and a flat list of declarations.  This file embeds

* the numeric constants as natural numbers (all of them are unsigned literals
  far below `2^32`, so `|` and `&` on them are the bitwise operations on `Nat`);
* every prototype and every alias as a `Proto` (return type, name, parameter
  list), grouped by the sections of the headers and kept under the `#ifndef
  WIN32` guard where the header has one;
* the directive block that defines `PI_FUNC_DECL` as a small directive tree run
  over a table of macro definitions.
-/

namespace GCS2

/-! ## C types and declarations -/

/-- The declared C types of the two headers: the seven base type names that
occur, `const` qualification and pointers.  `const char*` is
`ptr (const char)`, `double**` is `ptr (ptr double)`. -/
inductive CType where
  | int
  | unsigned_int
  | BOOL
  | double
  | char
  | __int64
  | void
  | const (t : CType)
  | ptr (t : CType)
  deriving DecidableEq, Repr

/-- One declared parameter: its type and its name. -/
structure Param where
  type : CType
  name : String
  deriving DecidableEq, Repr

/-- One declaration `ret PI_FUNC_DECL name(params);` of PI_GCS2_DLL.h, or one
alias `typedef ret (PI_FUNC_DECL * name)(params);` of PI_GCS2_DLL_PF.h. -/
structure Proto where
  ret : CType
  name : String
  params : List Param
  deriving DecidableEq, Repr

/-- A line of the declaration part of a header: a declaration, or a block of
declarations between `#ifndef WIN32` and `#endif`. -/
inductive Item where
  | decl (p : Proto)
  | ifndefWIN32 (ps : List Proto)
  deriving Repr

/-- The declarations an item contributes when WIN32 is defined (`win32 = true`)
or undefined (`win32 = false`). -/
def Item.declared (win32 : Bool) : Item → List Proto
  | .decl p => [p]
  | .ifndefWIN32 ps => if win32 then [] else ps

/-- The declarations a list of items contributes, in source order. -/
def declaredOf (win32 : Bool) : List Item → List Proto
  | [] => []
  | i :: rest => i.declared win32 ++ declaredOf win32 rest

/-- The parameter types of a declaration, in order, parameter names dropped. -/
def Proto.paramTypes (p : Proto) : List CType :=
  p.params.map Param.type

/-- The first declaration of the list with the given name, if any. -/
def lookup (name : String) : List Proto → Option Proto
  | [] => none
  | p :: rest => if p.name = name then some p else lookup name rest

/-- The declarations from the first one named `first` through the next one
named `last`, in source order. -/
def between (first last : String) (l : List Proto) : List Proto :=
  takeThrough (dropUntil l)
where
  /-- Drop the declarations before the one named `first`. -/
  dropUntil : List Proto → List Proto
    | [] => []
    | p :: rest => if p.name = first then p :: rest else dropUntil rest
  /-- Keep the declarations up to and including the one named `last`. -/
  takeThrough : List Proto → List Proto
    | [] => []
    | p :: rest => if p.name = last then [p] else p :: takeThrough rest

/-! ## Names -/

/-- Whether the name `s` starts with `pre`. -/
def startsWith (pre s : String) : Bool :=
  pre.toList.isPrefixOf s.toList

/-- Whether the name `s` contains `sub` as a contiguous part. -/
def containsSub (sub s : String) : Bool :=
  s.toList.tails.any (fun t => sub.toList.isPrefixOf t)

/-- The connection-opening functions by name: the name starts with
`PI_Connect` or `PI_TryConnect`, or starts with `PI_Open` and contains
`DaisyChain`. -/
def isConnectionOpening (name : String) : Bool :=
  startsWith "PI_Connect" name || startsWith "PI_TryConnect" name ||
    (startsWith "PI_Open" name && containsSub "DaisyChain" name)

/-- The function name `PI_<name>` an alias name `PFPI_<name>` stands for; `none`
for a name that does not start with `PFPI_`. -/
def aliasTarget (name : String) : Option String :=
  if startsWith "PFPI_" name then some (String.mk ("PI_".toList ++ name.toList.drop 5))
  else none

/-- Whether the alias `a` has its function among `protos`, with the same return
type and the same parameter types in the same order. -/
def hasMatchingPrototype (protos : List Proto) (a : Proto) : Bool :=
  match aliasTarget a.name with
  | none => false
  | some n =>
    match lookup n protos with
    | none => false
    | some f => decide (f.ret = a.ret) && decide (f.paramTypes = a.paramTypes)

/-- Scan `ps` for the first function named `n` with the return type and the
parameter types of the alias `a`; the declarations after it, if it is found. -/
def scanFor (n : String) (a : Proto) : List Proto → Option (List Proto)
  | [] => none
  | f :: rest =>
    if f.name = n ∧ f.ret = a.ret ∧ f.paramTypes = a.paramTypes then some rest
    else scanFor n a rest

/-- Check every alias of `aliases` other than the one named `skip` against the
functions `all`: the function of an alias is looked for first among the
declarations `ps` that follow the previous match (the two headers list their
declarations in nearly the same order), then in the whole list. -/
def matchForward (skip : String) (all : List Proto) : List Proto → List Proto → Bool
  | [], _ => true
  | a :: aliases, ps =>
    if a.name = skip then matchForward skip all aliases ps
    else
      match (aliasTarget a.name).bind (fun n => scanFor n a ps) with
      | some ps2 => matchForward skip all aliases ps2
      | none => hasMatchingPrototype all a && matchForward skip all aliases ps

/-! ## Classification of declared types -/

/-- The six scalar type names. -/
def CType.isScalar : CType → Bool
  | .int | .unsigned_int | .BOOL | .double | .char | .__int64 => true
  | _ => false

/-- The return types `int`, `BOOL` and `void`. -/
def CType.isIntBoolVoid : CType → Bool
  | .int | .BOOL | .void => true
  | _ => false

/-- A pointer to a scalar or to a `const` scalar (`T*` or `const T*`), or
`double**`. -/
def CType.isScalarPointer : CType → Bool
  | .ptr (.ptr .double) => true
  | .ptr (.const t) => t.isScalar
  | .ptr t => t.isScalar
  | _ => false

/-- The parameter types of the three stated forms: a scalar, a pointer to a
possibly-const scalar, or `double**`. -/
def CType.isStatedParamType (t : CType) : Bool :=
  t.isScalar || t.isScalarPointer

/-- The type a parameter has in the type of the function: a top-level `const`
on a parameter passed by value is not part of the function type, so
`const int iiBufferSize` is a parameter of type `int`.  A `const` behind a
pointer (`const char*`) qualifies the pointee and stays. -/
def CType.unqualified : CType → CType
  | .const t => t.unqualified
  | t => t

/-- The parameter types of a declaration as they stand in its function type, in
order. -/
def Proto.signatureParamTypes (p : Proto) : List CType :=
  p.params.map (fun q => q.type.unqualified)

/-! ## Preprocessor directives -/

/-- Preprocessing tokens of a macro replacement list. -/
inductive Tok where
  | ident (s : String)
  | lparen
  | rparen
  | strLit (s : String)
  deriving DecidableEq, Repr

/-- The table of macro definitions: a name is either undefined (`none`) or
defined with a replacement list. -/
abbrev MacroEnv := String → Option (List Tok)

/-- Whether `#ifdef name` holds in the table. -/
def MacroEnv.isDefined (env : MacroEnv) (name : String) : Bool :=
  (env name).isSome

/-- The directives used by the `PI_FUNC_DECL` block, as a tree: `#define`,
`#undef`, `#ifdef … #else … #endif`, `#ifndef … #else … #endif`, sequencing
and the empty branch. -/
inductive Directive where
  | define (name : String) (body : List Tok)
  | undefine (name : String)
  | ifDefined (name : String) (thenPart elsePart : Directive)
  | ifNotDefined (name : String) (thenPart elsePart : Directive)
  | seq (first second : Directive)
  | skip
  deriving Repr

/-- Run a directive tree over a macro table. -/
def Directive.run : Directive → MacroEnv → MacroEnv
  | .define name body, env => fun n => if n = name then some body else env n
  | .undefine name, env => fun n => if n = name then none else env n
  | .ifDefined name t e, env => if env.isDefined name then t.run env else e.run env
  | .ifNotDefined name t e, env => if env.isDefined name then e.run env else t.run env
  | .seq a b, env => b.run (a.run env)
  | .skip, env => env

/-- Two macro tables agree on which of the build flags WIN32, PI_DLL_EXPORTS
and UNKNOWN_GCS_DLL are defined. -/
def SameBuildFlags (env1 env2 : MacroEnv) : Prop :=
  env1.isDefined "WIN32" = env2.isDefined "WIN32" ∧
  env1.isDefined "PI_DLL_EXPORTS" = env2.isDefined "PI_DLL_EXPORTS" ∧
  env1.isDefined "UNKNOWN_GCS_DLL" = env2.isDefined "UNKNOWN_GCS_DLL"

/-! ## Bit flags -/

/-- The bitwise OR of a list of flag values. -/
def orAll : List Nat → Nat
  | [] => 0
  | v :: rest => v ||| orAll rest

/-- A list of bit flags: the values are pairwise different, each is a single
bit below `2^32`, two different members have bitwise AND 0, and for any two
sub-lists `S`, `T` of the list, equal ORs mean `S` and `T` have the same
members. -/
def BitFlagList (l : List Nat) : Prop :=
  l.Nodup ∧
  (∀ c ∈ l, (∃ k, k < 32 ∧ c = 2 ^ k) ∧ c < 2 ^ 32) ∧
  (∀ a ∈ l, ∀ b ∈ l, a ≠ b → a &&& b = 0) ∧
  (∀ S T : List Nat, S ⊆ l → T ⊆ l → orAll S = orAll T → ∀ c, c ∈ S ↔ c ∈ T)

end GCS2

/-! ## PI_GCS2_DLL.h -/

namespace PI_GCS2_DLL

open GCS2 GCS2.CType GCS2.Item

/-- Lines 14 to 31: the block that defines `PI_FUNC_DECL`. -/
def funcDeclBlock : Directive :=
  .ifDefined "WIN32"
    (.seq (.undefine "PI_FUNC_DECL")
      (.ifDefined "PI_DLL_EXPORTS"
        (.ifNotDefined "UNKNOWN_GCS_DLL"
          (.define "PI_FUNC_DECL"
            [.ident "__declspec", .lparen, .ident "dllexport", .rparen, .ident "WINAPI"])
          (.define "PI_FUNC_DECL" [.ident "WINAPI"]))
        (.define "PI_FUNC_DECL"
          [.ident "__declspec", .lparen, .ident "dllimport", .rparen, .ident "WINAPI"])))
    (.ifDefined "PI_DLL_EXPORTS"
      (.define "PI_FUNC_DECL"
        [.ident "__attribute__", .lparen, .lparen, .ident "visibility", .lparen,
          .strLit "default", .rparen, .rparen, .rparen])
      (.define "PI_FUNC_DECL" []))

/-- The replacement list of `PI_FUNC_DECL` after the block has been read in the
macro table `env`; `none` would mean the macro is left undefined. -/
def PI_FUNC_DECL (env : MacroEnv) : Option (List Tok) :=
  funcDeclBlock.run env "PI_FUNC_DECL"

/-! Curve Controll PI_BIT_WGO_XXX -/

def PI_BIT_WGO_START_DEFAULT : Nat := 0x00000001
def PI_BIT_WGO_START_EXTERN_TRIGGER : Nat := 0x00000002
def PI_BIT_WGO_WITH_DDL_INITIALISATION : Nat := 0x00000040
def PI_BIT_WGO_WITH_DDL : Nat := 0x00000080
def PI_BIT_WGO_START_AT_ENDPOSITION : Nat := 0x00000100
def PI_BIT_WGO_SINGLE_RUN_DDL_TEST : Nat := 0x00000200
def PI_BIT_WGO_EXTERN_WAVE_GENERATOR : Nat := 0x00000400
def PI_BIT_WGO_SAVE_BIT_1 : Nat := 0x00100000
def PI_BIT_WGO_SAVE_BIT_2 : Nat := 0x00200000
def PI_BIT_WGO_SAVE_BIT_3 : Nat := 0x00400000

/-! Wave-Trigger PI_BIT_TRG_XXX -/

def PI_BIT_TRG_LINE_1 : Nat := 0x0001
def PI_BIT_TRG_LINE_2 : Nat := 0x0002
def PI_BIT_TRG_LINE_3 : Nat := 0x0003
def PI_BIT_TRG_LINE_4 : Nat := 0x0008
def PI_BIT_TRG_ALL_CURVE_POINTS : Nat := 0x0100

/-! Data Record Configuration PI_DRC_XXX -/

def PI_DRC_DEFAULT : Nat := 0
def PI_DRC_AXIS_TARGET_POS : Nat := 1
def PI_DRC_AXIS_ACTUAL_POS : Nat := 2
def PI_DRC_AXIS_POS_ERROR : Nat := 3
def PI_DRC_AXIS_DDL_DATA : Nat := 4
def PI_DRC_AXIS_DRIVING_VOL : Nat := 5
def PI_DRC_PIEZO_MODEL_VOL : Nat := 6
def PI_DRC_PIEZO_VOL : Nat := 7
def PI_DRC_SENSOR_POS : Nat := 8

/-! P(arameter)I(nfo)F(lag)_M(emory)T(ype)_XX -/

def PI_PIF_MT_RAM : Nat := 0x00000001
def PI_PIF_MT_EPROM : Nat := 0x00000002
def PI_PIF_MT_ALL : Nat := PI_PIF_MT_RAM ||| PI_PIF_MT_EPROM

/-! P(arameter)I(nfo)F(lag)_D(ata)T(ype)_XX -/

def PI_PIF_DT_INT : Nat := 1
def PI_PIF_DT_FLOAT : Nat := 2
def PI_PIF_DT_CHAR : Nat := 3

/-- The `PI_BIT_*`, `PI_DRC_*` and `PI_PIF_*` macros the header defines, in
source order, each with its value. -/
def constants : List (String × Nat) := [
  ("PI_BIT_WGO_START_DEFAULT", PI_BIT_WGO_START_DEFAULT),
  ("PI_BIT_WGO_START_EXTERN_TRIGGER", PI_BIT_WGO_START_EXTERN_TRIGGER),
  ("PI_BIT_WGO_WITH_DDL_INITIALISATION", PI_BIT_WGO_WITH_DDL_INITIALISATION),
  ("PI_BIT_WGO_WITH_DDL", PI_BIT_WGO_WITH_DDL),
  ("PI_BIT_WGO_START_AT_ENDPOSITION", PI_BIT_WGO_START_AT_ENDPOSITION),
  ("PI_BIT_WGO_SINGLE_RUN_DDL_TEST", PI_BIT_WGO_SINGLE_RUN_DDL_TEST),
  ("PI_BIT_WGO_EXTERN_WAVE_GENERATOR", PI_BIT_WGO_EXTERN_WAVE_GENERATOR),
  ("PI_BIT_WGO_SAVE_BIT_1", PI_BIT_WGO_SAVE_BIT_1),
  ("PI_BIT_WGO_SAVE_BIT_2", PI_BIT_WGO_SAVE_BIT_2),
  ("PI_BIT_WGO_SAVE_BIT_3", PI_BIT_WGO_SAVE_BIT_3),
  ("PI_BIT_TRG_LINE_1", PI_BIT_TRG_LINE_1),
  ("PI_BIT_TRG_LINE_2", PI_BIT_TRG_LINE_2),
  ("PI_BIT_TRG_LINE_3", PI_BIT_TRG_LINE_3),
  ("PI_BIT_TRG_LINE_4", PI_BIT_TRG_LINE_4),
  ("PI_BIT_TRG_ALL_CURVE_POINTS", PI_BIT_TRG_ALL_CURVE_POINTS),
  ("PI_DRC_DEFAULT", PI_DRC_DEFAULT),
  ("PI_DRC_AXIS_TARGET_POS", PI_DRC_AXIS_TARGET_POS),
  ("PI_DRC_AXIS_ACTUAL_POS", PI_DRC_AXIS_ACTUAL_POS),
  ("PI_DRC_AXIS_POS_ERROR", PI_DRC_AXIS_POS_ERROR),
  ("PI_DRC_AXIS_DDL_DATA", PI_DRC_AXIS_DDL_DATA),
  ("PI_DRC_AXIS_DRIVING_VOL", PI_DRC_AXIS_DRIVING_VOL),
  ("PI_DRC_PIEZO_MODEL_VOL", PI_DRC_PIEZO_MODEL_VOL),
  ("PI_DRC_PIEZO_VOL", PI_DRC_PIEZO_VOL),
  ("PI_DRC_SENSOR_POS", PI_DRC_SENSOR_POS),
  ("PI_PIF_MT_RAM", PI_PIF_MT_RAM),
  ("PI_PIF_MT_EPROM", PI_PIF_MT_EPROM),
  ("PI_PIF_MT_ALL", PI_PIF_MT_ALL),
  ("PI_PIF_DT_INT", PI_PIF_DT_INT),
  ("PI_PIF_DT_FLOAT", PI_PIF_DT_FLOAT),
  ("PI_PIF_DT_CHAR", PI_PIF_DT_CHAR)]

/-- Section "DLL initialization and comm functions" of PI_GCS2_DLL.h: the prototypes of lines 107 to 148. -/
def commFunctions : List Item := [
  decl (Proto.mk int "PI_InterfaceSetupDlg" [.mk (ptr (const char)) "szRegKeyName"]),
  decl (Proto.mk int "PI_ConnectRS232" [.mk int "nPortNr", .mk int "iBaudRate"]),
  decl (Proto.mk int "PI_TryConnectRS232" [.mk int "port", .mk int "baudrate"]),
  decl (Proto.mk int "PI_TryConnectUSB" [.mk (ptr (const char)) "szDescription"]),
  decl (Proto.mk BOOL "PI_IsConnecting" [.mk int "threadID", .mk (ptr BOOL) "bCOnnecting"]),
  decl (Proto.mk int "PI_GetControllerID" [.mk int "threadID"]),
  decl (Proto.mk BOOL "PI_CancelConnect" [.mk int "threadID"]),
  decl (Proto.mk int "PI_OpenRS232DaisyChain" [.mk int "iPortNumber", .mk int "iBaudRate", .mk (ptr int) "pNumberOfConnectedDaisyChainDevices", .mk (ptr char) "szDeviceIDNs", .mk int "iBufferSize"]),
  decl (Proto.mk int "PI_ConnectDaisyChainDevice" [.mk int "iPortId", .mk int "iDeviceNumber"]),
  decl (Proto.mk void "PI_CloseDaisyChain" [.mk int "iPortId"]),
  ifndefWIN32 [
    Proto.mk int "PI_ConnectRS232ByDevName" [.mk (ptr (const char)) "szDevName", .mk int "BaudRate"],
    Proto.mk int "PI_OpenRS232DaisyChainByDevName" [.mk (ptr (const char)) "szDevName", .mk int "iBaudRate", .mk (ptr int) "pNumberOfConnectedDaisyChainDevices", .mk (ptr char) "szDeviceIDNs", .mk int "iBufferSize"]],
  decl (Proto.mk int "PI_ConnectNIgpib" [.mk int "nBoard", .mk int "nDevAddr"]),
  decl (Proto.mk int "PI_ConnectTCPIP" [.mk (ptr (const char)) "szHostname", .mk int "port"]),
  decl (Proto.mk int "PI_EnableTCPIPScan" [.mk int "iMask"]),
  decl (Proto.mk int "PI_EnumerateTCPIPDevices" [.mk (ptr char) "szBuffer", .mk int "iBufferSize", .mk (ptr (const char)) "szFilter"]),
  decl (Proto.mk int "PI_ConnectTCPIPByDescription" [.mk (ptr (const char)) "szDescription"]),
  decl (Proto.mk int "PI_OpenTCPIPDaisyChain" [.mk (ptr (const char)) "szHostname", .mk int "port", .mk (ptr int) "pNumberOfConnectedDaisyChainDevices", .mk (ptr char) "szDeviceIDNs", .mk int "iBufferSize"]),
  decl (Proto.mk int "PI_EnumerateUSB" [.mk (ptr char) "szBuffer", .mk int "iBufferSize", .mk (ptr (const char)) "szFilter"]),
  decl (Proto.mk int "PI_ConnectUSB" [.mk (ptr (const char)) "szDescription"]),
  decl (Proto.mk int "PI_ConnectUSBWithBaudRate" [.mk (ptr (const char)) "szDescription", .mk int "iBaudRate"]),
  decl (Proto.mk int "PI_OpenUSBDaisyChain" [.mk (ptr (const char)) "szDescription", .mk (ptr int) "pNumberOfConnectedDaisyChainDevices", .mk (ptr char) "szDeviceIDNs", .mk int "iBufferSize"]),
  decl (Proto.mk BOOL "PI_IsConnected" [.mk int "ID"]),
  decl (Proto.mk void "PI_CloseConnection" [.mk int "ID"]),
  decl (Proto.mk int "PI_GetError" [.mk int "ID"]),
  decl (Proto.mk BOOL "PI_SetErrorCheck" [.mk int "ID", .mk BOOL "bErrorCheck"]),
  decl (Proto.mk BOOL "PI_TranslateError" [.mk int "errNr", .mk (ptr char) "szBuffer", .mk int "iBufferSize"]),
  decl (Proto.mk int "PI_SetTimeout" [.mk int "ID", .mk int "timeoutInMS"]),
  decl (Proto.mk int "PI_SetDaisyChainScanMaxDeviceID" [.mk int "maxID"]),
  decl (Proto.mk BOOL "PI_EnableReconnect" [.mk int "ID", .mk BOOL "bEnable"]),
  decl (Proto.mk int "PI_SetNrTimeoutsBeforeClose" [.mk int "ID", .mk int "nrTimeoutsBeforeClose"]),
  decl (Proto.mk BOOL "PI_GetInterfaceDescription" [.mk int "ID", .mk (ptr char) "szBuffer", .mk int "iBufferSize"])]

/-- Section "general" of PI_GCS2_DLL.h: the prototypes of lines 153 to 316. -/
def general : List Item := [
  decl (Proto.mk BOOL "PI_qERR" [.mk int "ID", .mk (ptr int) "pnError"]),
  decl (Proto.mk BOOL "PI_qIDN" [.mk int "ID", .mk (ptr char) "szBuffer", .mk int "iBufferSize"]),
  decl (Proto.mk BOOL "PI_INI" [.mk int "ID", .mk (ptr (const char)) "szAxes"]),
  decl (Proto.mk BOOL "PI_qHLP" [.mk int "ID", .mk (ptr char) "szBuffer", .mk int "iBufferSize"]),
  decl (Proto.mk BOOL "PI_qHPA" [.mk int "ID", .mk (ptr char) "szBuffer", .mk int "iBufferSize"]),
  decl (Proto.mk BOOL "PI_qHPV" [.mk int "ID", .mk (ptr char) "szBuffer", .mk int "iBufferSize"]),
  decl (Proto.mk BOOL "PI_qCSV" [.mk int "ID", .mk (ptr double) "pdCommandSyntaxVersion"]),
  decl (Proto.mk BOOL "PI_qOVF" [.mk int "ID", .mk (ptr (const char)) "szAxes", .mk (ptr BOOL) "piValueArray"]),
  decl (Proto.mk BOOL "PI_RBT" [.mk int "ID"]),
  decl (Proto.mk BOOL "PI_REP" [.mk int "ID"]),
  decl (Proto.mk BOOL "PI_BDR" [.mk int "ID", .mk int "iBaudRate"]),
  decl (Proto.mk BOOL "PI_qBDR" [.mk int "ID", .mk (ptr int) "iBaudRate"]),
  decl (Proto.mk BOOL "PI_DBR" [.mk int "ID", .mk int "iBaudRate"]),
  decl (Proto.mk BOOL "PI_qDBR" [.mk int "ID", .mk (ptr int) "iBaudRate"]),
  decl (Proto.mk BOOL "PI_qVER" [.mk int "ID", .mk (ptr char) "szBuffer", .mk int "iBufferSize"]),
  decl (Proto.mk BOOL "PI_qSSN" [.mk int "ID", .mk (ptr char) "szSerialNumber", .mk int "iBufferSize"]),
  decl (Proto.mk BOOL "PI_CCT" [.mk int "ID", .mk int "iCommandType"]),
  decl (Proto.mk BOOL "PI_qCCT" [.mk int "ID", .mk (ptr int) "iCommandType"]),
  decl (Proto.mk BOOL "PI_qTVI" [.mk int "ID", .mk (ptr char) "szBuffer", .mk int "iBufferSize"]),
  decl (Proto.mk BOOL "PI_IFC" [.mk int "ID", .mk (ptr (const char)) "szParameters", .mk (ptr (const char)) "szValues"]),
  decl (Proto.mk BOOL "PI_qIFC" [.mk int "ID", .mk (ptr (const char)) "szParameters", .mk (ptr char) "szBuffer", .mk int "iBufferSize"]),
  decl (Proto.mk BOOL "PI_IFS" [.mk int "ID", .mk (ptr (const char)) "szPassword", .mk (ptr (const char)) "szParameters", .mk (ptr (const char)) "szValues"]),
  decl (Proto.mk BOOL "PI_qIFS" [.mk int "ID", .mk (ptr (const char)) "szParameters", .mk (ptr char) "szBuffer", .mk int "iBufferSize"]),
  decl (Proto.mk BOOL "PI_qECO" [.mk int "ID", .mk (ptr (const char)) "szSendString", .mk (ptr char) "szValues", .mk int "iBufferSize"]),
  decl (Proto.mk BOOL "PI_MOV" [.mk int "ID", .mk (ptr (const char)) "szAxes", .mk (ptr (const double)) "pdValueArray"]),
  decl (Proto.mk BOOL "PI_qMOV" [.mk int "ID", .mk (ptr (const char)) "szAxes", .mk (ptr double) "pdValueArray"]),
  decl (Proto.mk BOOL "PI_MVR" [.mk int "ID", .mk (ptr (const char)) "szAxes", .mk (ptr (const double)) "pdValueArray"]),
  decl (Proto.mk BOOL "PI_MVE" [.mk int "ID", .mk (ptr (const char)) "szAxes", .mk (ptr (const double)) "pdValueArray"]),
  decl (Proto.mk BOOL "PI_POS" [.mk int "ID", .mk (ptr (const char)) "szAxes", .mk (ptr (const double)) "pdValueArray"]),
  decl (Proto.mk BOOL "PI_qPOS" [.mk int "ID", .mk (ptr (const char)) "szAxes", .mk (ptr double) "pdValueArray"]),
  decl (Proto.mk BOOL "PI_IsMoving" [.mk int "ID", .mk (ptr (const char)) "szAxes", .mk (ptr BOOL) "pbValueArray"]),
  decl (Proto.mk BOOL "PI_HLT" [.mk int "ID", .mk (ptr (const char)) "szAxes"]),
  decl (Proto.mk BOOL "PI_STP" [.mk int "ID"]),
  decl (Proto.mk BOOL "PI_StopAll" [.mk int "ID"]),
  decl (Proto.mk BOOL "PI_qONT" [.mk int "ID", .mk (ptr (const char)) "szAxes", .mk (ptr BOOL) "pbValueArray"]),
  decl (Proto.mk BOOL "PI_RTO" [.mk int "ID", .mk (ptr (const char)) "szAxes"]),
  decl (Proto.mk BOOL "PI_qRTO" [.mk int "ID", .mk (ptr (const char)) "szAxes", .mk (ptr int) "piValueArray"]),
  decl (Proto.mk BOOL "PI_ATZ" [.mk int "ID", .mk (ptr (const char)) "szAxes", .mk (ptr (const double)) "pdLowvoltageArray", .mk (ptr (const BOOL)) "pfUseDefaultArray"]),
  decl (Proto.mk BOOL "PI_qATZ" [.mk int "ID", .mk (ptr (const char)) "szAxes", .mk (ptr int) "piAtzResultArray"]),
  decl (Proto.mk BOOL "PI_AOS" [.mk int "ID", .mk (ptr (const char)) "szAxes", .mk (ptr (const double)) "pdValueArray"]),
  decl (Proto.mk BOOL "PI_qAOS" [.mk int "ID", .mk (ptr (const char)) "szAxes", .mk (ptr double) "pdValueArray"]),
  decl (Proto.mk BOOL "PI_HasPosChanged" [.mk int "ID", .mk (ptr (const char)) "szAxes", .mk (ptr BOOL) "pbValueArray"]),
  decl (Proto.mk BOOL "PI_GetErrorStatus" [.mk int "ID", .mk (ptr BOOL) "pbIsReferencedArray", .mk (ptr BOOL) "pbIsReferencing", .mk (ptr BOOL) "pbIsMovingArray", .mk (ptr BOOL) "pbIsMotionErrorArray"]),
  decl (Proto.mk BOOL "PI_SVA" [.mk int "ID", .mk (ptr (const char)) "szAxes", .mk (ptr (const double)) "pdValueArray"]),
  decl (Proto.mk BOOL "PI_qSVA" [.mk int "ID", .mk (ptr (const char)) "szAxes", .mk (ptr double) "pdValueArray"]),
  decl (Proto.mk BOOL "PI_SVR" [.mk int "ID", .mk (ptr (const char)) "szAxes", .mk (ptr (const double)) "pdValueArray"]),
  decl (Proto.mk BOOL "PI_DFH" [.mk int "ID", .mk (ptr (const char)) "szAxes"]),
  decl (Proto.mk BOOL "PI_qDFH" [.mk int "ID", .mk (ptr (const char)) "szAxes", .mk (ptr double) "pdValueArray"]),
  decl (Proto.mk BOOL "PI_GOH" [.mk int "ID", .mk (ptr (const char)) "szAxes"]),
  decl (Proto.mk BOOL "PI_qCST" [.mk int "ID", .mk (ptr (const char)) "szAxes", .mk (ptr char) "szNames", .mk int "iBufferSize"]),
  decl (Proto.mk BOOL "PI_CST" [.mk int "ID", .mk (ptr (const char)) "szAxes", .mk (ptr (const char)) "szNames"]),
  decl (Proto.mk BOOL "PI_qVST" [.mk int "ID", .mk (ptr char) "szBuffer", .mk int "iBufferSize"]),
  decl (Proto.mk BOOL "PI_qPUN" [.mk int "ID", .mk (ptr (const char)) "szAxes", .mk (ptr char) "szUnit", .mk int "iBufferSize"]),
  decl (Proto.mk BOOL "PI_EAX" [.mk int "ID", .mk (ptr (const char)) "szAxes", .mk (ptr (const BOOL)) "pbValueArray"]),
  decl (Proto.mk BOOL "PI_qEAX" [.mk int "ID", .mk (ptr (const char)) "szAxes", .mk (ptr BOOL) "pbValueArray"]),
  decl (Proto.mk BOOL "PI_SVO" [.mk int "ID", .mk (ptr (const char)) "szAxes", .mk (ptr (const BOOL)) "pbValueArray"]),
  decl (Proto.mk BOOL "PI_qSVO" [.mk int "ID", .mk (ptr (const char)) "szAxes", .mk (ptr BOOL) "pbValueArray"]),
  decl (Proto.mk BOOL "PI_SMO" [.mk int "ID", .mk (ptr (const char)) "szAxes", .mk (ptr (const int)) "piValueArray"]),
  decl (Proto.mk BOOL "PI_qSMO" [.mk int "ID", .mk (ptr (const char)) "szAxes", .mk (ptr int) "piValueArray"]),
  decl (Proto.mk BOOL "PI_DCO" [.mk int "ID", .mk (ptr (const char)) "szAxes", .mk (ptr (const BOOL)) "pbValueArray"]),
  decl (Proto.mk BOOL "PI_qDCO" [.mk int "ID", .mk (ptr (const char)) "szAxes", .mk (ptr BOOL) "pbValueArray"]),
  decl (Proto.mk BOOL "PI_BRA" [.mk int "ID", .mk (ptr (const char)) "szAxes", .mk (ptr (const BOOL)) "pbValueArray"]),
  decl (Proto.mk BOOL "PI_qBRA" [.mk int "ID", .mk (ptr (const char)) "szAxes", .mk (ptr BOOL) "pbValueArray"]),
  decl (Proto.mk BOOL "PI_RON" [.mk int "ID", .mk (ptr (const char)) "szAxes", .mk (ptr (const BOOL)) "pbValueArray"]),
  decl (Proto.mk BOOL "PI_qRON" [.mk int "ID", .mk (ptr (const char)) "szAxes", .mk (ptr BOOL) "pbValueArray"]),
  decl (Proto.mk BOOL "PI_VEL" [.mk int "ID", .mk (ptr (const char)) "szAxes", .mk (ptr (const double)) "pdValueArray"]),
  decl (Proto.mk BOOL "PI_qVEL" [.mk int "ID", .mk (ptr (const char)) "szAxes", .mk (ptr double) "pdValueArray"]),
  decl (Proto.mk BOOL "PI_JOG" [.mk int "ID", .mk (ptr (const char)) "szAxes", .mk (ptr (const double)) "pdValueArray"]),
  decl (Proto.mk BOOL "PI_qJOG" [.mk int "ID", .mk (ptr (const char)) "szAxes", .mk (ptr double) "pdValueArray"]),
  decl (Proto.mk BOOL "PI_qTCV" [.mk int "ID", .mk (ptr (const char)) "szAxes", .mk (ptr double) "pdValueArray"]),
  decl (Proto.mk BOOL "PI_VLS" [.mk int "ID", .mk double "dSystemVelocity"]),
  decl (Proto.mk BOOL "PI_qVLS" [.mk int "ID", .mk (ptr double) "pdSystemVelocity"]),
  decl (Proto.mk BOOL "PI_ACC" [.mk int "ID", .mk (ptr (const char)) "szAxes", .mk (ptr (const double)) "pdValueArray"]),
  decl (Proto.mk BOOL "PI_qACC" [.mk int "ID", .mk (ptr (const char)) "szAxes", .mk (ptr double) "pdValueArray"]),
  decl (Proto.mk BOOL "PI_DEC" [.mk int "ID", .mk (ptr (const char)) "szAxes", .mk (ptr (const double)) "pdValueArray"]),
  decl (Proto.mk BOOL "PI_qDEC" [.mk int "ID", .mk (ptr (const char)) "szAxes", .mk (ptr double) "pdValueArray"]),
  decl (Proto.mk BOOL "PI_VCO" [.mk int "ID", .mk (ptr (const char)) "szAxes", .mk (ptr (const BOOL)) "pbValueArray"]),
  decl (Proto.mk BOOL "PI_qVCO" [.mk int "ID", .mk (ptr (const char)) "szAxes", .mk (ptr BOOL) "pbValueArray"]),
  decl (Proto.mk BOOL "PI_SPA" [.mk int "ID", .mk (ptr (const char)) "szItems", .mk (ptr (const unsigned_int)) "iParameterArray", .mk (ptr (const double)) "pdValueArray", .mk (ptr (const char)) "szStrings"]),
  decl (Proto.mk BOOL "PI_qSPA" [.mk int "ID", .mk (ptr (const char)) "szItems", .mk (ptr unsigned_int) "iParameterArray", .mk (ptr double) "pdValueArray", .mk (ptr char) "szStrings", .mk int "iMaxNameSize"]),
  decl (Proto.mk BOOL "PI_SEP" [.mk int "ID", .mk (ptr (const char)) "szPassword", .mk (ptr (const char)) "szItems", .mk (ptr (const unsigned_int)) "iParameterArray", .mk (ptr (const double)) "pdValueArray", .mk (ptr (const char)) "szStrings"]),
  decl (Proto.mk BOOL "PI_qSEP" [.mk int "ID", .mk (ptr (const char)) "szItems", .mk (ptr unsigned_int) "iParameterArray", .mk (ptr double) "pdValueArray", .mk (ptr char) "szStrings", .mk int "iMaxNameSize"]),
  decl (Proto.mk BOOL "PI_WPA" [.mk int "ID", .mk (ptr (const char)) "szPassword", .mk (ptr (const char)) "szItems", .mk (ptr (const unsigned_int)) "iParameterArray"]),
  decl (Proto.mk BOOL "PI_DPA" [.mk int "ID", .mk (ptr (const char)) "szPassword", .mk (ptr (const char)) "szItems", .mk (ptr (const unsigned_int)) "iParameterArray"]),
  decl (Proto.mk BOOL "PI_TIM" [.mk int "ID", .mk double "dTimer"]),
  decl (Proto.mk BOOL "PI_qTIM" [.mk int "ID", .mk (ptr double) "pdTimer"]),
  decl (Proto.mk BOOL "PI_RPA" [.mk int "ID", .mk (ptr (const char)) "szItems", .mk (ptr (const unsigned_int)) "iParameterArray"]),
  decl (Proto.mk BOOL "PI_SPA_String" [.mk int "ID", .mk (ptr (const char)) "szItems", .mk (ptr (const unsigned_int)) "iParameterArray", .mk (ptr (const char)) "szStrings"]),
  decl (Proto.mk BOOL "PI_qSPA_String" [.mk int "ID", .mk (ptr (const char)) "szItems", .mk (ptr (const unsigned_int)) "iParameterArray", .mk (ptr char) "szStrings", .mk int "iMaxNameSize"]),
  decl (Proto.mk BOOL "PI_SEP_String" [.mk int "ID", .mk (ptr (const char)) "szPassword", .mk (ptr (const char)) "szItems", .mk (ptr (const unsigned_int)) "iParameterArray", .mk (ptr (const char)) "szStrings"]),
  decl (Proto.mk BOOL "PI_qSEP_String" [.mk int "ID", .mk (ptr (const char)) "szItems", .mk (ptr unsigned_int) "iParameterArray", .mk (ptr char) "szStrings", .mk int "iMaxNameSize"]),
  decl (Proto.mk BOOL "PI_SPA_int64" [.mk int "ID", .mk (ptr (const char)) "szItems", .mk (ptr (const unsigned_int)) "iParameterArray", .mk (ptr (const __int64)) "piValueArray"]),
  decl (Proto.mk BOOL "PI_qSPA_int64" [.mk int "ID", .mk (ptr (const char)) "szItems", .mk (ptr unsigned_int) "iParameterArray", .mk (ptr __int64) "piValueArray"]),
  decl (Proto.mk BOOL "PI_SEP_int64" [.mk int "ID", .mk (ptr (const char)) "szPassword", .mk (ptr (const char)) "szItems", .mk (ptr (const unsigned_int)) "iParameterArray", .mk (ptr (const __int64)) "piValueArray"]),
  decl (Proto.mk BOOL "PI_qSEP_int64" [.mk int "ID", .mk (ptr (const char)) "szItems", .mk (ptr unsigned_int) "iParameterArray", .mk (ptr __int64) "piValueArray"]),
  decl (Proto.mk BOOL "PI_STE" [.mk int "ID", .mk (ptr (const char)) "szAxes", .mk (ptr (const double)) "dOffsetArray"]),
  decl (Proto.mk BOOL "PI_qSTE" [.mk int "ID", .mk (ptr (const char)) "szAxes", .mk (ptr double) "pdValueArray"]),
  decl (Proto.mk BOOL "PI_IMP" [.mk int "ID", .mk (ptr (const char)) "szAxes", .mk (ptr (const double)) "pdImpulseSize"]),
  decl (Proto.mk BOOL "PI_IMP_PulseWidth" [.mk int "ID", .mk char "cAxis", .mk double "dOffset", .mk int "iPulseWidth"]),
  decl (Proto.mk BOOL "PI_qIMP" [.mk int "ID", .mk (ptr (const char)) "szAxes", .mk (ptr double) "pdValueArray"]),
  decl (Proto.mk BOOL "PI_SAI" [.mk int "ID", .mk (ptr (const char)) "szOldAxes", .mk (ptr (const char)) "szNewAxes"]),
  decl (Proto.mk BOOL "PI_qSAI" [.mk int "ID", .mk (ptr char) "szAxes", .mk int "iBufferSize"]),
  decl (Proto.mk BOOL "PI_qSAI_ALL" [.mk int "ID", .mk (ptr char) "szAxes", .mk int "iBufferSize"]),
  decl (Proto.mk BOOL "PI_CCL" [.mk int "ID", .mk int "iComandLevel", .mk (ptr (const char)) "szPassWord"]),
  decl (Proto.mk BOOL "PI_qCCL" [.mk int "ID", .mk (ptr int) "piComandLevel"]),
  decl (Proto.mk BOOL "PI_AVG" [.mk int "ID", .mk int "iAverrageTime"]),
  decl (Proto.mk BOOL "PI_qAVG" [.mk int "ID", .mk (ptr int) "iAverrageTime"]),
  decl (Proto.mk BOOL "PI_qHAR" [.mk int "ID", .mk (ptr (const char)) "szAxes", .mk (ptr BOOL) "pbValueArray"]),
  decl (Proto.mk BOOL "PI_qLIM" [.mk int "ID", .mk (ptr (const char)) "szAxes", .mk (ptr BOOL) "pbValueArray"]),
  decl (Proto.mk BOOL "PI_qTRS" [.mk int "ID", .mk (ptr (const char)) "szAxes", .mk (ptr BOOL) "pbValueArray"]),
  decl (Proto.mk BOOL "PI_FNL" [.mk int "ID", .mk (ptr (const char)) "szAxes"]),
  decl (Proto.mk BOOL "PI_qFPH" [.mk int "ID", .mk (ptr (const char)) "szAxes", .mk (ptr double) "pdValueArray"]),
  decl (Proto.mk BOOL "PI_FPH" [.mk int "ID", .mk (ptr (const char)) "szAxes"]),
  decl (Proto.mk BOOL "PI_FPL" [.mk int "ID", .mk (ptr (const char)) "szAxes"]),
  decl (Proto.mk BOOL "PI_FRF" [.mk int "ID", .mk (ptr (const char)) "szAxes"]),
  decl (Proto.mk BOOL "PI_FED" [.mk int "ID", .mk (ptr (const char)) "szAxes", .mk (ptr (const int)) "piEdgeArray", .mk (ptr (const int)) "piParamArray"]),
  decl (Proto.mk BOOL "PI_qFRF" [.mk int "ID", .mk (ptr (const char)) "szAxes", .mk (ptr BOOL) "pbValueArray"]),
  decl (Proto.mk BOOL "PI_DIO" [.mk int "ID", .mk (ptr (const int)) "piChannelsArray", .mk (ptr (const BOOL)) "pbValueArray", .mk int "iArraySize"]),
  decl (Proto.mk BOOL "PI_qDIO" [.mk int "ID", .mk (ptr (const int)) "piChannelsArray", .mk (ptr BOOL) "pbValueArray", .mk int "iArraySize"]),
  decl (Proto.mk BOOL "PI_qTIO" [.mk int "ID", .mk (ptr int) "piInputNr", .mk (ptr int) "piOutputNr"]),
  decl (Proto.mk BOOL "PI_IsControllerReady" [.mk int "ID", .mk (ptr int) "piControllerReady"]),
  decl (Proto.mk BOOL "PI_qSRG" [.mk int "ID", .mk (ptr (const char)) "szAxes", .mk (ptr (const int)) "iRegisterArray", .mk (ptr int) "iValArray"]),
  decl (Proto.mk BOOL "PI_ATC" [.mk int "ID", .mk (ptr (const int)) "piChannels", .mk (ptr (const int)) "piValueArray", .mk int "iArraySize"]),
  decl (Proto.mk BOOL "PI_qATC" [.mk int "ID", .mk (ptr (const int)) "piChannels", .mk (ptr int) "piValueArray", .mk int "iArraySize"]),
  decl (Proto.mk BOOL "PI_qATS" [.mk int "ID", .mk (ptr (const int)) "piChannels", .mk (ptr (const int)) "piOptions", .mk (ptr int) "piValueArray", .mk int "iArraySize"]),
  decl (Proto.mk BOOL "PI_SPI" [.mk int "ID", .mk (ptr (const char)) "szAxes", .mk (ptr (const double)) "pdValueArray"]),
  decl (Proto.mk BOOL "PI_qSPI" [.mk int "ID", .mk (ptr (const char)) "szAxes", .mk (ptr double) "pdValueArray"]),
  decl (Proto.mk BOOL "PI_SCT" [.mk int "ID", .mk double "dCycleTime"]),
  decl (Proto.mk BOOL "PI_qSCT" [.mk int "ID", .mk (ptr double) "pdCycleTime"]),
  decl (Proto.mk BOOL "PI_SST" [.mk int "ID", .mk (ptr (const char)) "szAxes", .mk (ptr (const double)) "pdValueArray"]),
  decl (Proto.mk BOOL "PI_qSST" [.mk int "ID", .mk (ptr (const char)) "szAxes", .mk (ptr double) "pdValueArray"]),
  decl (Proto.mk BOOL "PI_qCTV" [.mk int "ID", .mk (ptr (const char)) "szAxes", .mk (ptr double) "pdValarray"]),
  decl (Proto.mk BOOL "PI_CTV" [.mk int "ID", .mk (ptr (const char)) "szAxes", .mk (ptr (const double)) "pdValarray"]),
  decl (Proto.mk BOOL "PI_CTR" [.mk int "ID", .mk (ptr (const char)) "szAxes", .mk (ptr (const double)) "pdValarray"]),
  decl (Proto.mk BOOL "PI_qCAV" [.mk int "ID", .mk (ptr (const char)) "szAxes", .mk (ptr double) "pdValarray"]),
  decl (Proto.mk BOOL "PI_qCCV" [.mk int "ID", .mk (ptr (const char)) "szAxes", .mk (ptr double) "pdValarray"]),
  decl (Proto.mk BOOL "PI_qCMO" [.mk int "ID", .mk (ptr (const char)) "szAxes", .mk (ptr int) "piValArray"]),
  decl (Proto.mk BOOL "PI_CMO" [.mk int "ID", .mk (ptr (const char)) "szAxes", .mk (ptr (const int)) "piValArray"])]

/-- Section "Macro commands" of PI_GCS2_DLL.h: the prototypes of lines 320 to 343. -/
def macroCommands : List Item := [
  decl (Proto.mk BOOL "PI_IsRunningMacro" [.mk int "ID", .mk (ptr BOOL) "pbRunningMacro"]),
  decl (Proto.mk BOOL "PI_MAC_BEG" [.mk int "ID", .mk (ptr (const char)) "szMacroName"]),
  decl (Proto.mk BOOL "PI_MAC_START" [.mk int "ID", .mk (ptr (const char)) "szMacroName"]),
  decl (Proto.mk BOOL "PI_MAC_NSTART" [.mk int "ID", .mk (ptr (const char)) "szMacroName", .mk int "nrRuns"]),
  decl (Proto.mk BOOL "PI_MAC_START_Args" [.mk int "ID", .mk (ptr (const char)) "szMacroName", .mk (ptr (const char)) "szArgs"]),
  decl (Proto.mk BOOL "PI_MAC_NSTART_Args" [.mk int "ID", .mk (ptr (const char)) "szMacroName", .mk int "nrRuns", .mk (ptr (const char)) "szArgs"]),
  decl (Proto.mk BOOL "PI_MAC_END" [.mk int "ID"]),
  decl (Proto.mk BOOL "PI_MAC_DEL" [.mk int "ID", .mk (ptr (const char)) "szMacroName"]),
  decl (Proto.mk BOOL "PI_MAC_DEF" [.mk int "ID", .mk (ptr (const char)) "szMacroName"]),
  decl (Proto.mk BOOL "PI_MAC_qDEF" [.mk int "ID", .mk (ptr char) "szBuffer", .mk int "iBufferSize"]),
  decl (Proto.mk BOOL "PI_MAC_qERR" [.mk int "ID", .mk (ptr char) "szBuffer", .mk int "iBufferSize"]),
  decl (Proto.mk BOOL "PI_MAC_qFREE" [.mk int "ID", .mk (ptr int) "iFreeSpace"]),
  decl (Proto.mk BOOL "PI_qMAC" [.mk int "ID", .mk (ptr (const char)) "szMacroName", .mk (ptr char) "szBuffer", .mk int "iBufferSize"]),
  decl (Proto.mk BOOL "PI_qRMC" [.mk int "ID", .mk (ptr char) "szBuffer", .mk int "iBufferSize"]),
  decl (Proto.mk BOOL "PI_DEL" [.mk int "ID", .mk int "nMilliSeconds"]),
  decl (Proto.mk BOOL "PI_WAC" [.mk int "ID", .mk (ptr (const char)) "szCondition"]),
  decl (Proto.mk BOOL "PI_MEX" [.mk int "ID", .mk (ptr (const char)) "szCondition"]),
  decl (Proto.mk BOOL "PI_VAR" [.mk int "ID", .mk (ptr (const char)) "szVariable", .mk (ptr (const char)) "szValue"]),
  decl (Proto.mk BOOL "PI_qVAR" [.mk int "ID", .mk (ptr (const char)) "szVariables", .mk (ptr char) "szValues", .mk int "iBufferSize"]),
  decl (Proto.mk BOOL "PI_ADD" [.mk int "ID", .mk (ptr (const char)) "szVariable", .mk double "value1", .mk double "value2"]),
  decl (Proto.mk BOOL "PI_CPY" [.mk int "ID", .mk (ptr (const char)) "szVariable", .mk (ptr (const char)) "szCommand"])]

/-- Section "String commands." of PI_GCS2_DLL.h: the prototypes of lines 347 to 349. -/
def stringCommands : List Item := [
  decl (Proto.mk BOOL "PI_GcsCommandset" [.mk int "ID", .mk (ptr (const char)) "szCommand"]),
  decl (Proto.mk BOOL "PI_GcsGetAnswer" [.mk int "ID", .mk (ptr char) "szAnswer", .mk int "iBufferSize"]),
  decl (Proto.mk BOOL "PI_GcsGetAnswerSize" [.mk int "ID", .mk (ptr int) "iAnswerSize"])]

/-- Section "limits" of PI_GCS2_DLL.h: the prototypes of lines 354 to 364. -/
def limits : List Item := [
  decl (Proto.mk BOOL "PI_qTMN" [.mk int "ID", .mk (ptr (const char)) "szAxes", .mk (ptr double) "pdValueArray"]),
  decl (Proto.mk BOOL "PI_qTMX" [.mk int "ID", .mk (ptr (const char)) "szAxes", .mk (ptr double) "pdValueArray"]),
  decl (Proto.mk BOOL "PI_NLM" [.mk int "ID", .mk (ptr (const char)) "szAxes", .mk (ptr (const double)) "pdValueArray"]),
  decl (Proto.mk BOOL "PI_qNLM" [.mk int "ID", .mk (ptr (const char)) "szAxes", .mk (ptr double) "pdValueArray"]),
  decl (Proto.mk BOOL "PI_PLM" [.mk int "ID", .mk (ptr (const char)) "szAxes", .mk (ptr (const double)) "pdValueArray"]),
  decl (Proto.mk BOOL "PI_qPLM" [.mk int "ID", .mk (ptr (const char)) "szAxes", .mk (ptr double) "pdValueArray"]),
  decl (Proto.mk BOOL "PI_SSL" [.mk int "ID", .mk (ptr (const char)) "szAxes", .mk (ptr (const BOOL)) "pbValueArray"]),
  decl (Proto.mk BOOL "PI_qSSL" [.mk int "ID", .mk (ptr (const char)) "szAxes", .mk (ptr BOOL) "pbValueArray"]),
  decl (Proto.mk BOOL "PI_qVMO" [.mk int "ID", .mk (ptr (const char)) "szAxes", .mk (ptr (const double)) "pdValarray", .mk (ptr BOOL) "pbMovePossible"]),
  decl (Proto.mk BOOL "PI_qCMN" [.mk int "ID", .mk (ptr (const char)) "szAxes", .mk (ptr double) "pdValueArray"]),
  decl (Proto.mk BOOL "PI_qCMX" [.mk int "ID", .mk (ptr (const char)) "szAxes", .mk (ptr double) "pdValueArray"])]

/-- Section "Wave commands." of PI_GCS2_DLL.h: the prototypes of lines 369 to 403. -/
def waveCommands : List Item := [
  decl (Proto.mk BOOL "PI_IsGeneratorRunning" [.mk int "ID", .mk (ptr (const int)) "piWaveGeneratorIds", .mk (ptr BOOL) "pbValueArray", .mk int "iArraySize"]),
  decl (Proto.mk BOOL "PI_qTWG" [.mk int "ID", .mk (ptr int) "piWaveGenerators"]),
  decl (Proto.mk BOOL "PI_WAV_SIN_P" [.mk int "ID", .mk int "iWaveTableId", .mk int "iOffsetOfFirstPointInWaveTable", .mk int "iNumberOfPoints", .mk int "iAddAppendWave", .mk int "iCenterPointOfWave", .mk double "dAmplitudeOfWave", .mk double "dOffsetOfWave", .mk int "iSegmentLength"]),
  decl (Proto.mk BOOL "PI_WAV_LIN" [.mk int "ID", .mk int "iWaveTableId", .mk int "iOffsetOfFirstPointInWaveTable", .mk int "iNumberOfPoints", .mk int "iAddAppendWave", .mk int "iNumberOfSpeedUpDownPointsInWave", .mk double "dAmplitudeOfWave", .mk double "dOffsetOfWave", .mk int "iSegmentLength"]),
  decl (Proto.mk BOOL "PI_WAV_NOISE" [.mk int "ID", .mk int "iWaveTableId", .mk int "iAddAppendWave", .mk double "dAmplitudeOfWave", .mk double "dOffsetOfWave", .mk int "iSegmentLength"]),
  decl (Proto.mk BOOL "PI_WAV_SWEEP" [.mk int "ID", .mk int "iWaveTableId", .mk int "iAddAppendWave", .mk unsigned_int "iStarFequencytValueInPoints", .mk unsigned_int "iStopFrequencyValueInPoints", .mk unsigned_int "nLengthOfWave", .mk double "dAmplitudeOfWave", .mk double "dOffsetOfWave"]),
  decl (Proto.mk BOOL "PI_WAV_RAMP" [.mk int "ID", .mk int "iWaveTableId", .mk int "iOffsetOfFirstPointInWaveTable", .mk int "iNumberOfPoints", .mk int "iAddAppendWave", .mk int "iCenterPointOfWave", .mk int "iNumberOfSpeedUpDownPointsInWave", .mk double "dAmplitudeOfWave", .mk double "dOffsetOfWave", .mk int "iSegmentLength"]),
  decl (Proto.mk BOOL "PI_WAV_PNT" [.mk int "ID", .mk int "iWaveTableId", .mk int "iOffsetOfFirstPointInWaveTable", .mk int "iNumberOfPoints", .mk int "iAddAppendWave", .mk (ptr (const double)) "pdWavePoints"]),
  decl (Proto.mk BOOL "PI_qWAV" [.mk int "ID", .mk (ptr (const int)) "piWaveTableIdsArray", .mk (ptr (const int)) "piParamereIdsArray", .mk (ptr double) "pdValueArray", .mk int "iArraySize"]),
  decl (Proto.mk BOOL "PI_WGO" [.mk int "ID", .mk (ptr (const int)) "piWaveGeneratorIdsArray", .mk (ptr (const int)) "iStartModArray", .mk int "iArraySize"]),
  decl (Proto.mk BOOL "PI_qWGO" [.mk int "ID", .mk (ptr (const int)) "piWaveGeneratorIdsArray", .mk (ptr int) "piValueArray", .mk int "iArraySize"]),
  decl (Proto.mk BOOL "PI_WGC" [.mk int "ID", .mk (ptr (const int)) "piWaveGeneratorIdsArray", .mk (ptr (const int)) "piNumberOfCyclesArray", .mk int "iArraySize"]),
  decl (Proto.mk BOOL "PI_qWGC" [.mk int "ID", .mk (ptr (const int)) "piWaveGeneratorIdsArray", .mk (ptr int) "piValueArray", .mk int "iArraySize"]),
  decl (Proto.mk BOOL "PI_qWGI" [.mk int "ID", .mk (ptr (const int)) "piWaveGeneratorIdsArray", .mk (ptr int) "piValueArray", .mk int "iArraySize"]),
  decl (Proto.mk BOOL "PI_qWGN" [.mk int "ID", .mk (ptr (const int)) "piWaveGeneratorIdsArray", .mk (ptr int) "piValueArray", .mk int "iArraySize"]),
  decl (Proto.mk BOOL "PI_qWGS" [.mk int "ID", .mk int "iWaveGeneratorId", .mk (ptr (const char)) "szItem", .mk (ptr char) "buffer", .mk int "bufferSize"]),
  decl (Proto.mk BOOL "PI_WSL" [.mk int "ID", .mk (ptr (const int)) "piWaveGeneratorIdsArray", .mk (ptr (const int)) "piWaveTableIdsArray", .mk int "iArraySize"]),
  decl (Proto.mk BOOL "PI_qWSL" [.mk int "ID", .mk (ptr (const int)) "piWaveGeneratorIdsArray", .mk (ptr int) "piWaveTableIdsArray", .mk int "iArraySize"]),
  decl (Proto.mk BOOL "PI_DTC" [.mk int "ID", .mk (ptr (const int)) "piDdlTableIdsArray", .mk int "iArraySize"]),
  decl (Proto.mk BOOL "PI_qDTL" [.mk int "ID", .mk (ptr (const int)) "piDdlTableIdsArray", .mk (ptr int) "piValueArray", .mk int "iArraySize"]),
  decl (Proto.mk BOOL "PI_WCL" [.mk int "ID", .mk (ptr (const int)) "piWaveTableIdsArray", .mk int "iArraySize"]),
  decl (Proto.mk BOOL "PI_qTLT" [.mk int "ID", .mk (ptr int) "piNumberOfDdlTables"]),
  decl (Proto.mk BOOL "PI_qGWD_SYNC" [.mk int "ID", .mk int "iWaveTableId", .mk int "iOffsetOfFirstPointInWaveTable", .mk int "iNumberOfValues", .mk (ptr double) "pdValueArray"]),
  decl (Proto.mk BOOL "PI_qGWD" [.mk int "ID", .mk (ptr (const int)) "iWaveTableIdsArray", .mk int "iNumberOfWaveTables", .mk int "iOffset", .mk int "nrValues", .mk (ptr (ptr double)) "pdValarray", .mk (ptr char) "szGcsArrayHeader", .mk int "iGcsArrayHeaderMaxSize"]),
  decl (Proto.mk BOOL "PI_WOS" [.mk int "ID", .mk (ptr (const int)) "iWaveTableIdsArray", .mk (ptr (const double)) "pdValueArray", .mk int "iArraySize"]),
  decl (Proto.mk BOOL "PI_qWOS" [.mk int "ID", .mk (ptr (const int)) "iWaveTableIdsArray", .mk (ptr double) "pdValueArray", .mk int "iArraySize"]),
  decl (Proto.mk BOOL "PI_WTR" [.mk int "ID", .mk (ptr (const int)) "piWaveGeneratorIdsArray", .mk (ptr (const int)) "piTableRateArray", .mk (ptr (const int)) "piInterpolationTypeArray", .mk int "iArraySize"]),
  decl (Proto.mk BOOL "PI_qWTR" [.mk int "ID", .mk (ptr (const int)) "piWaveGeneratorIdsArray", .mk (ptr int) "piTableRateArray", .mk (ptr int) "piInterpolationTypeArray", .mk int "iArraySize"]),
  decl (Proto.mk BOOL "PI_DDL" [.mk int "ID", .mk int "iDdlTableId", .mk int "iOffsetOfFirstPointInDdlTable", .mk int "iNumberOfValues", .mk (ptr (const double)) "pdValueArray"]),
  decl (Proto.mk BOOL "PI_qDDL_SYNC" [.mk int "ID", .mk int "iDdlTableId", .mk int "iOffsetOfFirstPointInDdlTable", .mk int "iNumberOfValues", .mk (ptr double) "pdValueArray"]),
  decl (Proto.mk BOOL "PI_qDDL" [.mk int "ID", .mk (ptr (const int)) "iDdlTableIdsArray", .mk int "iNumberOfDdlTables", .mk int "iOffset", .mk int "nrValues", .mk (ptr (ptr double)) "pdValarray", .mk (ptr char) "szGcsArrayHeader", .mk int "iGcsArrayHeaderMaxSize"]),
  decl (Proto.mk BOOL "PI_DPO" [.mk int "ID", .mk (ptr (const char)) "szAxes"]),
  decl (Proto.mk BOOL "PI_qWMS" [.mk int "ID", .mk (ptr (const int)) "piWaveTableIds", .mk (ptr int) "iWaveTableMaximumSize", .mk int "iArraySize"]),
  decl (Proto.mk BOOL "PI_TWE" [.mk int "ID", .mk (ptr (const int)) "piWaveTableIdsArray", .mk (ptr (const int)) "piWaveTableStartIndexArray", .mk (ptr (const int)) "piWaveTableEndIndexArray", .mk int "iArraySize"]),
  decl (Proto.mk BOOL "PI_qTWE" [.mk int "ID", .mk (ptr (const int)) "piWaveTableIdsArray", .mk (ptr int) "piWaveTableStartIndexArray", .mk (ptr int) "piWaveTableEndIndexArray", .mk int "iArraySize"])]

/-- Section "Trigger commands." of PI_GCS2_DLL.h: the prototypes of lines 409 to 421. -/
def triggerCommands : List Item := [
  decl (Proto.mk BOOL "PI_TWC" [.mk int "ID"]),
  decl (Proto.mk BOOL "PI_TWS" [.mk int "ID", .mk (ptr (const int)) "piTriggerChannelIdsArray", .mk (ptr (const int)) "piPointNumberArray", .mk (ptr (const int)) "piSwitchArray", .mk int "iArraySize"]),
  decl (Proto.mk BOOL "PI_qTWS" [.mk int "ID", .mk (ptr (const int)) "iTriggerChannelIdsArray", .mk int "iNumberOfTriggerChannels", .mk int "iOffset", .mk int "nrValues", .mk (ptr (ptr double)) "pdValarray", .mk (ptr char) "szGcsArrayHeader", .mk int "iGcsArrayHeaderMaxSize"]),
  decl (Proto.mk BOOL "PI_CTO" [.mk int "ID", .mk (ptr (const int)) "piTriggerOutputIds", .mk (ptr (const int)) "piTriggerParameterArray", .mk (ptr (const double)) "pdValueArray", .mk int "iArraySize"]),
  decl (Proto.mk BOOL "PI_CTOString" [.mk int "ID", .mk (ptr (const int)) "piTriggerOutputIds", .mk (ptr (const int)) "piTriggerParameterArray", .mk (ptr (const char)) "szValueArray", .mk int "iArraySize"]),
  decl (Proto.mk BOOL "PI_qCTO" [.mk int "ID", .mk (ptr (const int)) "piTriggerOutputIds", .mk (ptr (const int)) "piTriggerParameterArray", .mk (ptr double) "pdValueArray", .mk int "iArraySize"]),
  decl (Proto.mk BOOL "PI_qCTOString" [.mk int "ID", .mk (ptr (const int)) "piTriggerOutputIds", .mk (ptr (const int)) "piTriggerParameterArray", .mk (ptr char) "szValueArray", .mk int "iArraySize", .mk int "iBufferSize"]),
  decl (Proto.mk BOOL "PI_TRO" [.mk int "ID", .mk (ptr (const int)) "piTriggerOutputIds", .mk (ptr (const BOOL)) "pbTriggerState", .mk int "iArraySize"]),
  decl (Proto.mk BOOL "PI_qTRO" [.mk int "ID", .mk (ptr (const int)) "piTriggerOutputIds", .mk (ptr BOOL) "pbTriggerState", .mk int "iArraySize"]),
  decl (Proto.mk BOOL "PI_TRI" [.mk int "ID", .mk (ptr (const int)) "piTriggerInputIds", .mk (ptr (const BOOL)) "pbTriggerState", .mk int "iArraySize"]),
  decl (Proto.mk BOOL "PI_qTRI" [.mk int "ID", .mk (ptr (const int)) "piTriggerInputIds", .mk (ptr BOOL) "pbTriggerState", .mk int "iArraySize"]),
  decl (Proto.mk BOOL "PI_CTI" [.mk int "ID", .mk (ptr (const int)) "piTriggerInputIds", .mk (ptr (const int)) "piTriggerParameterArray", .mk (ptr (const char)) "szValueArray", .mk int "iArraySize"]),
  decl (Proto.mk BOOL "PI_qCTI" [.mk int "ID", .mk (ptr (const int)) "piTriggerInputIds", .mk (ptr (const int)) "piTriggerParameterArray", .mk (ptr char) "szValueArray", .mk int "iArraySize", .mk int "iBufferSize"])]

/-- Section "Record table commands." of PI_GCS2_DLL.h: the prototypes of lines 426 to 437. -/
def recordTableCommands : List Item := [
  decl (Proto.mk BOOL "PI_qHDR" [.mk int "ID", .mk (ptr char) "szBuffer", .mk int "iBufferSize"]),
  decl (Proto.mk BOOL "PI_qTNR" [.mk int "ID", .mk (ptr int) "piNumberOfRecordCannels"]),
  decl (Proto.mk BOOL "PI_DRC" [.mk int "ID", .mk (ptr (const int)) "piRecordTableIdsArray", .mk (ptr (const char)) "szRecordSourceIds", .mk (ptr (const int)) "piRecordOptionArray"]),
  decl (Proto.mk BOOL "PI_qDRC" [.mk int "ID", .mk (ptr (const int)) "piRecordTableIdsArray", .mk (ptr char) "szRecordSourceIds", .mk (ptr int) "piRecordOptionArray", .mk int "iRecordSourceIdsBufferSize", .mk int "iRecordOptionArraySize"]),
  decl (Proto.mk BOOL "PI_qDRR_SYNC" [.mk int "ID", .mk int "iRecordTablelId", .mk int "iOffsetOfFirstPointInRecordTable", .mk int "iNumberOfValues", .mk (ptr double) "pdValueArray"]),
  decl (Proto.mk BOOL "PI_qDRR" [.mk int "ID", .mk (ptr (const int)) "piRecTableIdIdsArray", .mk int "iNumberOfRecTables", .mk int "iOffsetOfFirstPointInRecordTable", .mk int "iNumberOfValues", .mk (ptr (ptr double)) "pdValueArray", .mk (ptr char) "szGcsArrayHeader", .mk int "iGcsArrayHeaderMaxSize"]),
  decl (Proto.mk BOOL "PI_DRT" [.mk int "ID", .mk (ptr (const int)) "piRecordChannelIdsArray", .mk (ptr (const int)) "piTriggerSourceArray", .mk (ptr (const char)) "szValues", .mk int "iArraySize"]),
  decl (Proto.mk BOOL "PI_qDRT" [.mk int "ID", .mk (ptr (const int)) "piRecordChannelIdsArray", .mk (ptr int) "piTriggerSourceArray", .mk (ptr char) "szValues", .mk int "iArraySize", .mk int "iValueBufferLength"]),
  decl (Proto.mk BOOL "PI_RTR" [.mk int "ID", .mk int "piReportTableRate"]),
  decl (Proto.mk BOOL "PI_qRTR" [.mk int "ID", .mk (ptr int) "piReportTableRate"]),
  decl (Proto.mk BOOL "PI_WGR" [.mk int "ID"]),
  decl (Proto.mk BOOL "PI_qDRL" [.mk int "ID", .mk (ptr (const int)) "piRecordChannelIdsArray", .mk (ptr int) "piNuberOfRecordedValuesArray", .mk int "iArraySize"])]

/-- Section "System Response commands" of PI_GCS2_DLL.h: the prototypes of lines 441 to 444. -/
def systemResponseCommands : List Item := [
  decl (Proto.mk BOOL "PI_qGFL" [.mk int "ID", .mk (ptr int) "piNumberOfRecordedFrequencyMeasurements"]),
  decl (Proto.mk BOOL "PI_qGFR" [.mk int "ID", .mk (ptr (const int)) "piTableIdsArray", .mk int "iNumberOfTables", .mk int "iOffsetOfFirstPointInTable", .mk int "iNumberOfValues", .mk (ptr (ptr double)) "pdValueArray", .mk (ptr char) "szGcsArrayHeader", .mk int "iGcsArrayHeaderMaxSize"]),
  decl (Proto.mk BOOL "PI_WFR" [.mk int "ID", .mk (ptr (const char)) "szAxis", .mk double "dPos", .mk int "iSource", .mk double "dAmpl", .mk double "dLowFrq", .mk double "dHighFrq", .mk int "iSweepSteps", .mk int "iSweepMode", .mk double "dVelOffset"]),
  decl (Proto.mk BOOL "PI_qWFR" [.mk int "ID", .mk (ptr char) "szBuffer", .mk int "iBufferSize"])]

/-- Section "Piezo-Channel commands." of PI_GCS2_DLL.h: the prototypes of lines 449 to 457. -/
def piezoChannelCommands : List Item := [
  decl (Proto.mk BOOL "PI_VMA" [.mk int "ID", .mk (ptr (const int)) "piPiezoChannelsArray", .mk (ptr (const double)) "pdValueArray", .mk int "iArraySize"]),
  decl (Proto.mk BOOL "PI_qVMA" [.mk int "ID", .mk (ptr (const int)) "piPiezoChannelsArray", .mk (ptr double) "pdValueArray", .mk int "iArraySize"]),
  decl (Proto.mk BOOL "PI_VMI" [.mk int "ID", .mk (ptr (const int)) "piPiezoChannelsArray", .mk (ptr (const double)) "pdValueArray", .mk int "iArraySize"]),
  decl (Proto.mk BOOL "PI_qVMI" [.mk int "ID", .mk (ptr (const int)) "piPiezoChannelsArray", .mk (ptr double) "pdValueArray", .mk int "iArraySize"]),
  decl (Proto.mk BOOL "PI_VOL" [.mk int "ID", .mk (ptr (const int)) "piPiezoChannelsArray", .mk (ptr (const double)) "pdValueArray", .mk int "iArraySize"]),
  decl (Proto.mk BOOL "PI_qVOL" [.mk int "ID", .mk (ptr (const int)) "piPiezoChannelsArray", .mk (ptr double) "pdValueArray", .mk int "iArraySize"]),
  decl (Proto.mk BOOL "PI_qTPC" [.mk int "ID", .mk (ptr int) "piNumberOfPiezoChannels"]),
  decl (Proto.mk BOOL "PI_ONL" [.mk int "ID", .mk (ptr (const int)) "iPiezoCannels", .mk (ptr (const int)) "piValueArray", .mk int "iArraySize"]),
  decl (Proto.mk BOOL "PI_qONL" [.mk int "ID", .mk (ptr (const int)) "iPiezoCannels", .mk (ptr int) "piValueArray", .mk int "iArraySize"])]

/-- Section "Sensor-Channel commands." of PI_GCS2_DLL.h: the prototypes of lines 462 to 468. -/
def sensorChannelCommands : List Item := [
  decl (Proto.mk BOOL "PI_qTAD" [.mk int "ID", .mk (ptr (const int)) "piSensorsChannelsArray", .mk (ptr int) "piValueArray", .mk int "iArraySize"]),
  decl (Proto.mk BOOL "PI_qTNS" [.mk int "ID", .mk (ptr (const int)) "piSensorsChannelsArray", .mk (ptr double) "pdValueArray", .mk int "iArraySize"]),
  decl (Proto.mk BOOL "PI_TSP" [.mk int "ID", .mk (ptr (const int)) "piSensorsChannelsArray", .mk (ptr (const double)) "pdValueArray", .mk int "iArraySize"]),
  decl (Proto.mk BOOL "PI_qTSP" [.mk int "ID", .mk (ptr (const int)) "piSensorsChannelsArray", .mk (ptr double) "pdValueArray", .mk int "iArraySize"]),
  decl (Proto.mk BOOL "PI_SCN" [.mk int "ID", .mk (ptr (const int)) "piSensorsChannelsArray", .mk (ptr (const int)) "piValueArray", .mk int "iArraySize"]),
  decl (Proto.mk BOOL "PI_qSCN" [.mk int "ID", .mk (ptr (const int)) "piSensorsChannelsArray", .mk (ptr int) "piValueArray", .mk int "iArraySize"]),
  decl (Proto.mk BOOL "PI_qTSC" [.mk int "ID", .mk (ptr int) "piNumberOfSensorChannels"])]

/-- Section "PIEZOWALK(R)-Channel commands." of PI_GCS2_DLL.h: the prototypes of lines 473 to 502. -/
def piezowalkChannelCommands : List Item := [
  decl (Proto.mk BOOL "PI_APG" [.mk int "ID", .mk (ptr (const int)) "piPIEZOWALKChannelsArray", .mk int "iArraySize"]),
  decl (Proto.mk BOOL "PI_qAPG" [.mk int "ID", .mk (ptr (const int)) "piPIEZOWALKChannelsArray", .mk (ptr int) "piValueArray", .mk int "iArraySize"]),
  decl (Proto.mk BOOL "PI_OAC" [.mk int "ID", .mk (ptr (const int)) "piPIEZOWALKChannelsArray", .mk (ptr (const double)) "pdValueArray", .mk int "iArraySize"]),
  decl (Proto.mk BOOL "PI_qOAC" [.mk int "ID", .mk (ptr (const int)) "piPIEZOWALKChannelsArray", .mk (ptr double) "pdValueArray", .mk int "iArraySize"]),
  decl (Proto.mk BOOL "PI_OAD" [.mk int "ID", .mk (ptr (const int)) "piPIEZOWALKChannelsArray", .mk (ptr (const double)) "pdValueArray", .mk int "iArraySize"]),
  decl (Proto.mk BOOL "PI_qOAD" [.mk int "ID", .mk (ptr (const int)) "piPIEZOWALKChannelsArray", .mk (ptr double) "pdValueArray", .mk int "iArraySize"]),
  decl (Proto.mk BOOL "PI_ODC" [.mk int "ID", .mk (ptr (const int)) "piPIEZOWALKChannelsArray", .mk (ptr (const double)) "pdValueArray", .mk int "iArraySize"]),
  decl (Proto.mk BOOL "PI_qODC" [.mk int "ID", .mk (ptr (const int)) "piPIEZOWALKChannelsArray", .mk (ptr double) "pdValueArray", .mk int "iArraySize"]),
  decl (Proto.mk BOOL "PI_OCD" [.mk int "ID", .mk (ptr (const int)) "piPIEZOWALKChannelsArray", .mk (ptr (const double)) "pdValueArray", .mk int "iArraySize"]),
  decl (Proto.mk BOOL "PI_qOCD" [.mk int "ID", .mk (ptr (const int)) "piPIEZOWALKChannelsArray", .mk (ptr double) "pdValueArray", .mk int "iArraySize"]),
  decl (Proto.mk BOOL "PI_OSM" [.mk int "ID", .mk (ptr (const int)) "piPIEZOWALKChannelsArray", .mk (ptr (const int)) "piValueArray", .mk int "iArraySize"]),
  decl (Proto.mk BOOL "PI_qOSM" [.mk int "ID", .mk (ptr (const int)) "piPIEZOWALKChannelsArray", .mk (ptr int) "piValueArray", .mk int "iArraySize"]),
  decl (Proto.mk BOOL "PI_OSMf" [.mk int "ID", .mk (ptr (const int)) "piPIEZOWALKChannelsArray", .mk (ptr (const double)) "pdValueArray", .mk int "iArraySize"]),
  decl (Proto.mk BOOL "PI_qOSMf" [.mk int "ID", .mk (ptr (const int)) "piPIEZOWALKChannelsArray", .mk (ptr double) "pdValueArray", .mk int "iArraySize"]),
  decl (Proto.mk BOOL "PI_OSMstringIDs" [.mk int "ID", .mk (ptr (const char)) "szAxisOrChannelIds", .mk (ptr (const double)) "pdValueArray"]),
  decl (Proto.mk BOOL "PI_qOSMstringIDs" [.mk int "ID", .mk (ptr (const char)) "szAxisOrChannelIds", .mk (ptr double) "pdValueArray"]),
  decl (Proto.mk BOOL "PI_OVL" [.mk int "ID", .mk (ptr (const int)) "piPIEZOWALKChannelsArray", .mk (ptr (const double)) "pdValueArray", .mk int "iArraySize"]),
  decl (Proto.mk BOOL "PI_qOVL" [.mk int "ID", .mk (ptr (const int)) "piPIEZOWALKChannelsArray", .mk (ptr double) "pdValueArray", .mk int "iArraySize"]),
  decl (Proto.mk BOOL "PI_qOSN" [.mk int "ID", .mk (ptr (const int)) "piPIEZOWALKChannelsArray", .mk (ptr int) "piValueArray", .mk int "iArraySize"]),
  decl (Proto.mk BOOL "PI_qOSNstringIDs" [.mk int "ID", .mk (ptr (const char)) "szAxisOrChannelIds", .mk (ptr int) "piValueArray"]),
  decl (Proto.mk BOOL "PI_SSA" [.mk int "ID", .mk (ptr (const int)) "piPIEZOWALKChannelsArray", .mk (ptr (const double)) "pdValueArray", .mk int "iArraySize"]),
  decl (Proto.mk BOOL "PI_qSSA" [.mk int "ID", .mk (ptr (const int)) "piPIEZOWALKChannelsArray", .mk (ptr double) "pdValueArray", .mk int "iArraySize"]),
  decl (Proto.mk BOOL "PI_RNP" [.mk int "ID", .mk (ptr (const int)) "piPIEZOWALKChannelsArray", .mk (ptr (const double)) "pdValueArray", .mk int "iArraySize"]),
  decl (Proto.mk BOOL "PI_PGS" [.mk int "ID", .mk (ptr (const int)) "piPIEZOWALKChannelsArray", .mk int "iArraySize"]),
  decl (Proto.mk BOOL "PI_qTAC" [.mk int "ID", .mk (ptr int) "pnNrChannels"]),
  decl (Proto.mk BOOL "PI_qTAV" [.mk int "ID", .mk (ptr (const int)) "piChannelsArray", .mk (ptr double) "pdValueArray", .mk int "iArraySize"]),
  decl (Proto.mk BOOL "PI_OMA" [.mk int "ID", .mk (ptr (const char)) "szAxes", .mk (ptr (const double)) "pdValueArray"]),
  decl (Proto.mk BOOL "PI_qOMA" [.mk int "ID", .mk (ptr (const char)) "szAxes", .mk (ptr double) "pdValueArray"]),
  decl (Proto.mk BOOL "PI_OMR" [.mk int "ID", .mk (ptr (const char)) "szAxes", .mk (ptr (const double)) "pdValueArray"])]

/-- Section "Joystick" of PI_GCS2_DLL.h: the prototypes of lines 506 to 514. -/
def joystick : List Item := [
  decl (Proto.mk BOOL "PI_qJAS" [.mk int "ID", .mk (ptr (const int)) "iJoystickIDsArray", .mk (ptr (const int)) "iAxesIDsArray", .mk (ptr double) "pdValueArray", .mk int "iArraySize"]),
  decl (Proto.mk BOOL "PI_JAX" [.mk int "ID", .mk int "iJoystickID", .mk int "iAxesID", .mk (ptr (const char)) "szAxesBuffer"]),
  decl (Proto.mk BOOL "PI_qJAX" [.mk int "ID", .mk (ptr (const int)) "iJoystickIDsArray", .mk (ptr (const int)) "iAxesIDsArray", .mk int "iArraySize", .mk (ptr char) "szAxesBuffer", .mk int "iBufferSize"]),
  decl (Proto.mk BOOL "PI_qJBS" [.mk int "ID", .mk (ptr (const int)) "iJoystickIDsArray", .mk (ptr (const int)) "iButtonIDsArray", .mk (ptr BOOL) "pbValueArray", .mk int "iArraySize"]),
  decl (Proto.mk BOOL "PI_JDT" [.mk int "ID", .mk (ptr (const int)) "iJoystickIDsArray", .mk (ptr (const int)) "iAxisIDsArray", .mk (ptr (const int)) "piValueArray", .mk int "iArraySize"]),
  decl (Proto.mk BOOL "PI_JLT" [.mk int "ID", .mk int "iJoystickID", .mk int "iAxisID", .mk int "iStartAdress", .mk (ptr (const double)) "pdValueArray", .mk int "iArraySize"]),
  decl (Proto.mk BOOL "PI_qJLT" [.mk int "ID", .mk (ptr (const int)) "iJoystickIDsArray", .mk (ptr (const int)) "iAxisIDsArray", .mk int "iNumberOfTables", .mk int "iOffsetOfFirstPointInTable", .mk int "iNumberOfValues", .mk (ptr (ptr double)) "pdValueArray", .mk (ptr char) "szGcsArrayHeader", .mk int "iGcsArrayHeaderMaxSize"]),
  decl (Proto.mk BOOL "PI_JON" [.mk int "ID", .mk (ptr (const int)) "iJoystickIDsArray", .mk (ptr (const BOOL)) "pbValueArray", .mk int "iArraySize"]),
  decl (Proto.mk BOOL "PI_qJON" [.mk int "ID", .mk (ptr (const int)) "iJoystickIDsArray", .mk (ptr BOOL) "pbValueArray", .mk int "iArraySize"])]

/-- Section "fast scan commands" of PI_GCS2_DLL.h: the prototypes of lines 518 to 541. -/
def fastScanCommands : List Item := [
  decl (Proto.mk BOOL "PI_AAP" [.mk int "ID", .mk (ptr (const char)) "szAxis1", .mk double "dLength1", .mk (ptr (const char)) "szAxis2", .mk double "dLength2", .mk double "dAlignStep", .mk int "iNrRepeatedPositions", .mk int "iAnalogInput"]),
  decl (Proto.mk BOOL "PI_FIO" [.mk int "ID", .mk (ptr (const char)) "szAxis1", .mk double "dLength1", .mk (ptr (const char)) "szAxis2", .mk double "dLength2", .mk double "dThreshold", .mk double "dLinearStep", .mk double "dAngleScan", .mk int "iAnalogInput"]),
  decl (Proto.mk BOOL "PI_FLM" [.mk int "ID", .mk (ptr (const char)) "szAxis", .mk double "dLength", .mk double "dThreshold", .mk int "iAnalogInput", .mk int "iDirection"]),
  decl (Proto.mk BOOL "PI_FLS" [.mk int "ID", .mk (ptr (const char)) "szAxis", .mk double "dLength", .mk double "dThreshold", .mk int "iAnalogInput", .mk int "iDirection"]),
  decl (Proto.mk BOOL "PI_FSA" [.mk int "ID", .mk (ptr (const char)) "szAxis1", .mk double "dLength1", .mk (ptr (const char)) "szAxis2", .mk double "dLength2", .mk double "dThreshold", .mk double "dDistance", .mk double "dAlignStep", .mk int "iAnalogInput"]),
  decl (Proto.mk BOOL "PI_FSC" [.mk int "ID", .mk (ptr (const char)) "szAxis1", .mk double "dLength1", .mk (ptr (const char)) "szAxis2", .mk double "dLength2", .mk double "dThreshold", .mk double "dDistance", .mk int "iAnalogInput"]),
  decl (Proto.mk BOOL "PI_FSM" [.mk int "ID", .mk (ptr (const char)) "szAxis1", .mk double "dLength1", .mk (ptr (const char)) "szAxis2", .mk double "dLength2", .mk double "dThreshold", .mk double "dDistance", .mk int "iAnalogInput"]),
  decl (Proto.mk BOOL "PI_qFSS" [.mk int "ID", .mk (ptr int) "piResult"]),
  decl (Proto.mk BOOL "PI_FGC" [.mk int "ID", .mk (ptr (const char)) "szProcessIds", .mk (ptr (const double)) "pdScanAxisCenterValueArray", .mk (ptr (const double)) "pdStepAxisCenterValueArray"]),
  decl (Proto.mk BOOL "PI_qFGC" [.mk int "ID", .mk (ptr (const char)) "szProcessIds", .mk (ptr double) "pdScanAxisCenterValueArray", .mk (ptr double) "pdStepAxisCenterValueArray"]),
  decl (Proto.mk BOOL "PI_FRC" [.mk int "ID", .mk (ptr (const char)) "szProcessIdBase", .mk (ptr (const char)) "szProcessIdsCoupled"]),
  decl (Proto.mk BOOL "PI_qFRC" [.mk int "ID", .mk (ptr (const char)) "szProcessIdsBase", .mk (ptr char) "szBuffer", .mk int "iBufferSize"]),
  decl (Proto.mk BOOL "PI_qTCI" [.mk int "ID", .mk (ptr (const int)) "piFastAlignmentInputIdsArray", .mk (ptr double) "pdCalculatedInputValueArray", .mk int "iArraySize"]),
  decl (Proto.mk BOOL "PI_SIC" [.mk int "ID", .mk int "iFastAlignmentInputId", .mk int "iCalcType", .mk (ptr (const double)) "pdParameters", .mk int "iNumberOfParameters"]),
  decl (Proto.mk BOOL "PI_qSIC" [.mk int "ID", .mk (ptr (const int)) "piFastAlignmentInputIdsArray", .mk int "iNumberOfInputIds", .mk (ptr char) "szBuffer", .mk int "iBufferSize"]),
  decl (Proto.mk BOOL "PI_FDR" [.mk int "ID", .mk (ptr (const char)) "szScanRoutineName", .mk (ptr (const char)) "szScanAxis", .mk (const double) "dScanAxisRange", .mk (ptr (const char)) "szStepAxis", .mk (const double) "dStepAxisRange", .mk (ptr (const char)) "szParameters"]),
  decl (Proto.mk BOOL "PI_FDG" [.mk int "ID", .mk (ptr (const char)) "szScanRoutineName", .mk (ptr (const char)) "szScanAxis", .mk (ptr (const char)) "szStepAxis", .mk (ptr (const char)) "szParameters"]),
  decl (Proto.mk BOOL "PI_FRS" [.mk int "ID", .mk (ptr (const char)) "szScanRoutineNames"]),
  decl (Proto.mk BOOL "PI_FRP" [.mk int "ID", .mk (ptr (const char)) "szScanRoutineNames", .mk (ptr (const int)) "piOptionsArray"]),
  decl (Proto.mk BOOL "PI_qFRP" [.mk int "ID", .mk (ptr (const char)) "szScanRoutineNames", .mk (ptr int) "piOptionsArray"]),
  decl (Proto.mk BOOL "PI_qFRR" [.mk int "ID", .mk (ptr (const char)) "szScanRoutineNames", .mk int "iResultId", .mk (ptr char) "szResult", .mk int "iBufferSize"]),
  decl (Proto.mk BOOL "PI_qFRRArray" [.mk int "ID", .mk (ptr (const char)) "szScanRoutineNames", .mk (ptr (const int)) "iResultIds", .mk (ptr char) "szResult", .mk int "iBufferSize"]),
  decl (Proto.mk BOOL "PI_qFRH" [.mk int "ID", .mk (ptr char) "szBuffer", .mk int "iBufferSize"])]

/-- Section "optical boards (hexapod)" of PI_GCS2_DLL.h: the prototypes of lines 545 to 550. -/
def opticalBoards : List Item := [
  decl (Proto.mk BOOL "PI_SGA" [.mk int "ID", .mk (ptr (const int)) "piAnalogChannelIds", .mk (ptr (const int)) "piGainValues", .mk int "iArraySize"]),
  decl (Proto.mk BOOL "PI_qSGA" [.mk int "ID", .mk (ptr (const int)) "piAnalogChannelIds", .mk (ptr int) "piGainValues", .mk int "iArraySize"]),
  decl (Proto.mk BOOL "PI_NAV" [.mk int "ID", .mk (ptr (const int)) "piAnalogChannelIds", .mk (ptr (const int)) "piNrReadingsValues", .mk int "iArraySize"]),
  decl (Proto.mk BOOL "PI_qNAV" [.mk int "ID", .mk (ptr (const int)) "piAnalogChannelIds", .mk (ptr int) "piNrReadingsValues", .mk int "iArraySize"]),
  decl (Proto.mk BOOL "PI_GetDynamicMoveBufferSize" [.mk int "ID", .mk (ptr int) "iSize"])]

/-- Section "PIShift" of PI_GCS2_DLL.h: the prototypes of lines 554 to 559. -/
def piShift : List Item := [
  decl (Proto.mk BOOL "PI_qCOV" [.mk int "ID", .mk (ptr (const int)) "piChannelsArray", .mk (ptr double) "pdValueArray", .mk int "iArraySize"]),
  decl (Proto.mk BOOL "PI_MOD" [.mk int "ID", .mk (ptr (const char)) "szItems", .mk (ptr (const unsigned_int)) "iModeArray", .mk (ptr (const char)) "szValues"]),
  decl (Proto.mk BOOL "PI_qMOD" [.mk int "ID", .mk (ptr (const char)) "szItems", .mk (ptr (const unsigned_int)) "iModeArray", .mk (ptr char) "szValues", .mk int "iMaxValuesSize"]),
  decl (Proto.mk BOOL "PI_qDIA" [.mk int "ID", .mk (ptr (const unsigned_int)) "iIDArray", .mk (ptr char) "szValues", .mk int "iBufferSize", .mk int "iArraySize"]),
  decl (Proto.mk BOOL "PI_qHDI" [.mk int "ID", .mk (ptr char) "szBuffer", .mk int "iBufferSize"])]

/-- Section "HID" of PI_GCS2_DLL.h: the prototypes of lines 563 to 576. -/
def hid : List Item := [
  decl (Proto.mk BOOL "PI_qHIS" [.mk int "ID", .mk (ptr char) "szBuffer", .mk int "iBufferSize"]),
  decl (Proto.mk BOOL "PI_HIS" [.mk int "ID", .mk (ptr (const int)) "iDeviceIDsArray", .mk (ptr (const int)) "iItemIDsArray", .mk (ptr (const int)) "iPropertyIDArray", .mk (ptr (const char)) "szValues", .mk int "iArraySize"]),
  decl (Proto.mk BOOL "PI_qHIE" [.mk int "ID", .mk (ptr (const int)) "iDeviceIDsArray", .mk (ptr (const int)) "iAxesIDsArray", .mk (ptr double) "pdValueArray", .mk int "iArraySize"]),
  decl (Proto.mk BOOL "PI_qHIB" [.mk int "ID", .mk (ptr (const int)) "iDeviceIDsArray", .mk (ptr (const int)) "iButtonIDsArray", .mk (ptr int) "pbValueArray", .mk int "iArraySize"]),
  decl (Proto.mk BOOL "PI_HIL" [.mk int "ID", .mk (ptr (const int)) "iDeviceIDsArray", .mk (ptr (const int)) "iLED_IDsArray", .mk (ptr (const int)) "pnValueArray", .mk int "iArraySize"]),
  decl (Proto.mk BOOL "PI_qHIL" [.mk int "ID", .mk (ptr (const int)) "iDeviceIDsArray", .mk (ptr (const int)) "iLED_IDsArray", .mk (ptr int) "pnValueArray", .mk int "iArraySize"]),
  decl (Proto.mk BOOL "PI_HIN" [.mk int "ID", .mk (ptr (const char)) "szAxes", .mk (ptr (const BOOL)) "pbValueArray"]),
  decl (Proto.mk BOOL "PI_qHIN" [.mk int "ID", .mk (ptr (const char)) "szAxes", .mk (ptr BOOL) "pbValueArray"]),
  decl (Proto.mk BOOL "PI_HIA" [.mk int "ID", .mk (ptr (const char)) "szAxes", .mk (ptr (const int)) "iFunctionArray", .mk (ptr (const int)) "iDeviceIDsArray", .mk (ptr (const int)) "iAxesIDsArray"]),
  decl (Proto.mk BOOL "PI_qHIA" [.mk int "ID", .mk (ptr (const char)) "szAxes", .mk (ptr (const int)) "iFunctionArray", .mk (ptr int) "iDeviceIDsArray", .mk (ptr int) "iAxesIDsArray"]),
  decl (Proto.mk BOOL "PI_HDT" [.mk int "ID", .mk (ptr (const int)) "iDeviceIDsArray", .mk (ptr (const int)) "iAxisIDsArray", .mk (ptr (const int)) "piValueArray", .mk int "iArraySize"]),
  decl (Proto.mk BOOL "PI_qHDT" [.mk int "ID", .mk (ptr (const int)) "iDeviceIDsArray", .mk (ptr (const int)) "iAxisIDsArray", .mk (ptr int) "piValueArray", .mk int "iArraySize"]),
  decl (Proto.mk BOOL "PI_HIT" [.mk int "ID", .mk (ptr (const int)) "piTableIdsArray", .mk (ptr (const int)) "piPointNumberArray", .mk (ptr (const double)) "pdValueArray", .mk int "iArraySize"]),
  decl (Proto.mk BOOL "PI_qHIT" [.mk int "ID", .mk (ptr (const int)) "piTableIdsArray", .mk int "iNumberOfTables", .mk int "iOffsetOfFirstPointInTable", .mk int "iNumberOfValues", .mk (ptr (ptr double)) "pdValueArray", .mk (ptr char) "szGcsArrayHeader", .mk int "iGcsArrayHeaderMaxSize"])]

/-- Untitled section opened by the separator on line 578 of PI_GCS2_DLL.h: the prototypes of lines 579 to 579. -/
def untitled578 : List Item := [
  decl (Proto.mk BOOL "PI_qMAN" [.mk int "ID", .mk (ptr (const char)) "szCommand", .mk (ptr char) "szBuffer", .mk int "iBufferSize"])]

/-- Untitled section opened by the separator on line 581 of PI_GCS2_DLL.h: the prototypes of lines 582 to 601. -/
def untitled581 : List Item := [
  decl (Proto.mk BOOL "PI_KSF" [.mk int "ID", .mk (ptr (const char)) "szNameOfCoordSystem"]),
  decl (Proto.mk BOOL "PI_KEN" [.mk int "ID", .mk (ptr (const char)) "szNameOfCoordSystem"]),
  decl (Proto.mk BOOL "PI_KRM" [.mk int "ID", .mk (ptr (const char)) "szNameOfCoordSystem"]),
  decl (Proto.mk BOOL "PI_KLF" [.mk int "ID", .mk (ptr (const char)) "szNameOfCoordSystem"]),
  decl (Proto.mk BOOL "PI_KSD" [.mk int "ID", .mk (ptr (const char)) "szNameOfCoordSystem", .mk (ptr (const char)) "szAxes", .mk (ptr (const double)) "pdValueArray"]),
  decl (Proto.mk BOOL "PI_KST" [.mk int "ID", .mk (ptr (const char)) "szNameOfCoordSystem", .mk (ptr (const char)) "szAxes", .mk (ptr (const double)) "pdValueArray"]),
  decl (Proto.mk BOOL "PI_KSW" [.mk int "ID", .mk (ptr (const char)) "szNameOfCoordSystem", .mk (ptr (const char)) "szAxes", .mk (ptr (const double)) "pdValueArray"]),
  decl (Proto.mk BOOL "PI_KLD" [.mk int "ID", .mk (ptr (const char)) "szNameOfCoordSystem", .mk (ptr (const char)) "szAxes", .mk (ptr (const double)) "pdValueArray"]),
  decl (Proto.mk BOOL "PI_KSB" [.mk int "ID", .mk (ptr (const char)) "szNameOfCoordSystem", .mk (ptr (const char)) "szAxes", .mk (ptr (const double)) "pdValueArray"]),
  decl (Proto.mk BOOL "PI_MRT" [.mk int "ID", .mk (ptr (const char)) "szAxes", .mk (ptr (const double)) "pdValueArray"]),
  decl (Proto.mk BOOL "PI_MRW" [.mk int "ID", .mk (ptr (const char)) "szAxes", .mk (ptr (const double)) "pdValueArray"]),
  decl (Proto.mk BOOL "PI_qKLT" [.mk int "ID", .mk (ptr (const char)) "szStartCoordSystem", .mk (ptr (const char)) "szEndCoordSystem", .mk (ptr char) "buffer", .mk int "bufsize"]),
  decl (Proto.mk BOOL "PI_qKEN" [.mk int "ID", .mk (ptr (const char)) "szNamesOfCoordSystems", .mk (ptr char) "buffer", .mk int "bufsize"]),
  decl (Proto.mk BOOL "PI_qKET" [.mk int "ID", .mk (ptr (const char)) "szTypes", .mk (ptr char) "buffer", .mk int "bufsize"]),
  decl (Proto.mk BOOL "PI_qKLS" [.mk int "ID", .mk (ptr (const char)) "szNameOfCoordSystem", .mk (ptr (const char)) "szItem1", .mk (ptr (const char)) "szItem2", .mk (ptr char) "buffer", .mk int "bufsize"]),
  decl (Proto.mk BOOL "PI_KLN" [.mk int "ID", .mk (ptr (const char)) "szNameOfChild", .mk (ptr (const char)) "szNameOfParent"]),
  decl (Proto.mk BOOL "PI_qKLN" [.mk int "ID", .mk (ptr (const char)) "szNamesOfCoordSystems", .mk (ptr char) "buffer", .mk int "bufsize"]),
  decl (Proto.mk BOOL "PI_qTRA" [.mk int "ID", .mk (ptr (const char)) "szAxes", .mk (ptr (const double)) "pdComponents", .mk (ptr double) "pdValueArray"]),
  decl (Proto.mk BOOL "PI_qKLC" [.mk int "ID", .mk (ptr (const char)) "szNameOfCoordSystem1", .mk (ptr (const char)) "szNameOfCoordSystem2", .mk (ptr (const char)) "szItem1", .mk (ptr (const char)) "szItem2", .mk (ptr char) "buffer", .mk int "bufsize"]),
  decl (Proto.mk BOOL "PI_KCP" [.mk int "ID", .mk (ptr (const char)) "szSource", .mk (ptr (const char)) "szDestination"])]

/-- Section "Trajectory" of PI_GCS2_DLL.h: the prototypes of lines 606 to 612. -/
def trajectory : List Item := [
  decl (Proto.mk BOOL "PI_TGA" [.mk int "ID", .mk (ptr (const int)) "piTrajectoriesArray", .mk (ptr (const double)) "pdValarray", .mk int "iArraySize"]),
  decl (Proto.mk BOOL "PI_TGC" [.mk int "ID", .mk (ptr (const int)) "piTrajectoriesArray", .mk int "iArraySize"]),
  decl (Proto.mk BOOL "PI_TGF" [.mk int "ID", .mk (ptr (const int)) "piTrajectoriesArray", .mk int "iArraySize"]),
  decl (Proto.mk BOOL "PI_TGS" [.mk int "ID", .mk (ptr (const int)) "piTrajectoriesArray", .mk int "iArraySize"]),
  decl (Proto.mk BOOL "PI_qTGL" [.mk int "ID", .mk (ptr (const int)) "piTrajectoriesArray", .mk (ptr int) "iTrajectorySizesArray", .mk int "iArraySize"]),
  decl (Proto.mk BOOL "PI_TGT" [.mk int "ID", .mk int "iTrajectoryTiming"]),
  decl (Proto.mk BOOL "PI_qTGT" [.mk int "ID", .mk (ptr int) "iTrajectoryTiming"])]

/-- Section "Surface scan" of PI_GCS2_DLL.h: the prototypes of lines 616 to 618. -/
def surfaceScan : List Item := [
  decl (Proto.mk BOOL "PI_FSF" [.mk int "ID", .mk (ptr (const char)) "szAxis", .mk double "forceValue1", .mk double "positionOffset", .mk BOOL "useForceValue2", .mk double "forceValue2"]),
  decl (Proto.mk BOOL "PI_qFSF" [.mk int "ID", .mk (ptr (const char)) "szAxes", .mk (ptr double) "pForceValue1Array", .mk (ptr double) "pPositionOffsetArray", .mk (ptr double) "pForceValue2Array"]),
  decl (Proto.mk BOOL "PI_qFSR" [.mk int "ID", .mk (ptr (const char)) "szAxes", .mk (ptr BOOL) "pbValueArray"])]

/-- Section "Spezial" of PI_GCS2_DLL.h: the prototypes of lines 622 to 631. -/
def spezial : List Item := [
  decl (Proto.mk BOOL "PI_GetSupportedParameters" [.mk int "ID", .mk (ptr int) "piParameterIdArray", .mk (ptr int) "piCommandLevelArray", .mk (ptr int) "piMemoryLocationArray", .mk (ptr int) "piDataTypeArray", .mk (ptr int) "piNumberOfItems", .mk (const int) "iiBufferSize", .mk (ptr char) "szParameterName", .mk (const int) "iMaxParameterNameSize"]),
  decl (Proto.mk BOOL "PI_GetSupportedControllers" [.mk (ptr char) "szBuffer", .mk int "iBufferSize"]),
  decl (Proto.mk int "PI_GetAsyncBufferIndex" [.mk int "ID"]),
  decl (Proto.mk BOOL "PI_GetAsyncBuffer" [.mk int "ID", .mk (ptr (ptr double)) "pdValueArray"]),
  decl (Proto.mk BOOL "PI_AddStage" [.mk int "ID", .mk (ptr (const char)) "szAxes"]),
  decl (Proto.mk BOOL "PI_RemoveStage" [.mk int "ID", .mk (ptr (const char)) "szStageName"]),
  decl (Proto.mk BOOL "PI_OpenUserStagesEditDialog" [.mk int "ID"]),
  decl (Proto.mk BOOL "PI_OpenPiStagesEditDialog" [.mk int "ID"])]

/-- Section "for internal use" of PI_GCS2_DLL.h: the prototypes of lines 636 to 637. -/
def internalUse : List Item := [
  decl (Proto.mk BOOL "PI_DisableSingleStagesDatFiles" [.mk int "ID", .mk BOOL "bDisable"]),
  decl (Proto.mk BOOL "PI_DisableUserStagesDatFiles" [.mk int "ID", .mk BOOL "bDisable"])]

/-- The declaration part of PI_GCS2_DLL.h (lines 105 to 637), section by section. -/
def items : List Item :=
  commFunctions ++ general ++ macroCommands ++ stringCommands ++ limits ++
    waveCommands ++ triggerCommands ++ recordTableCommands ++ systemResponseCommands ++
    piezoChannelCommands ++ sensorChannelCommands ++ piezowalkChannelCommands ++
    joystick ++ fastScanCommands ++ opticalBoards ++ piShift ++ hid ++ untitled578 ++
    untitled581 ++ trajectory ++ surfaceScan ++ spezial ++ internalUse

/-- The functions PI_GCS2_DLL.h declares when WIN32 is defined (`win32 = true`)
or undefined (`win32 = false`), in source order. -/
def declared (win32 : Bool) : List Proto :=
  declaredOf win32 items

/-- The sections from "general" through "Surface scan" (lines 151 to 618): the
GCS command functions, from PI_qERR through PI_qFSR. -/
def gcsCommandItems : List Item :=
  general ++ macroCommands ++ stringCommands ++ limits ++ waveCommands ++
    triggerCommands ++ recordTableCommands ++ systemResponseCommands ++
    piezoChannelCommands ++ sensorChannelCommands ++ piezowalkChannelCommands ++
    joystick ++ fastScanCommands ++ opticalBoards ++ piShift ++ hid ++ untitled578 ++
    untitled581 ++ trajectory ++ surfaceScan

/-- The GCS command functions declared for a given WIN32 setting. -/
def gcsCommands (win32 : Bool) : List Proto :=
  declaredOf win32 gcsCommandItems

end PI_GCS2_DLL

/-! ## PI_GCS2_DLL_PF.h -/

namespace PI_GCS2_DLL_PF

open GCS2 GCS2.CType GCS2.Item

/-- Lines 20 to 25: the block that defines `PI_FUNC_DECL`. -/
def funcDeclBlock : Directive :=
  .ifDefined "WIN32"
    (.seq (.undefine "PI_FUNC_DECL") (.define "PI_FUNC_DECL" [.ident "WINAPI"]))
    (.define "PI_FUNC_DECL" [])

/-- The replacement list of `PI_FUNC_DECL` after the block has been read in the
macro table `env`; `none` would mean the macro is left undefined. -/
def PI_FUNC_DECL (env : MacroEnv) : Option (List Tok) :=
  funcDeclBlock.run env "PI_FUNC_DECL"

/-! Curve Controll PI_BIT_WGO_XXX -/

def PI_BIT_WGO_START_DEFAULT : Nat := 0x00000001
def PI_BIT_WGO_START_EXTERN_TRIGGER : Nat := 0x00000002
def PI_BIT_WGO_WITH_DDL_INITIALISATION : Nat := 0x00000040
def PI_BIT_WGO_WITH_DDL : Nat := 0x00000080
def PI_BIT_WGO_START_AT_ENDPOSITION : Nat := 0x00000100
def PI_BIT_WGO_SINGLE_RUN_DDL_TEST : Nat := 0x00000200
def PI_BIT_WGO_EXTERN_WAVE_GENERATOR : Nat := 0x00000400
def PI_BIT_WGO_SAVE_BIT_1 : Nat := 0x00100000
def PI_BIT_WGO_SAVE_BIT_2 : Nat := 0x00200000
def PI_BIT_WGO_SAVE_BIT_3 : Nat := 0x00400000

/-! Wave-Trigger PI_BIT_TRG_XXX -/

def PI_BIT_TRG_LINE_1 : Nat := 0x0001
def PI_BIT_TRG_LINE_2 : Nat := 0x0002
def PI_BIT_TRG_LINE_3 : Nat := 0x0003
def PI_BIT_TRG_LINE_4 : Nat := 0x0008
def PI_BIT_TRG_ALL_CURVE_POINTS : Nat := 0x0100

/-! Data Record Configuration PI_DRC_XXX -/

def PI_DRC_DEFAULT : Nat := 0
def PI_DRC_AXIS_TARGET_POS : Nat := 1
def PI_DRC_AXIS_ACTUAL_POS : Nat := 2
def PI_DRC_AXIS_POS_ERROR : Nat := 3
def PI_DRC_AXIS_DDL_DATA : Nat := 4
def PI_DRC_AXIS_DRIVING_VOL : Nat := 5
def PI_DRC_PIEZO_MODEL_VOL : Nat := 6
def PI_DRC_PIEZO_VOL : Nat := 7
def PI_DRC_SENSOR_POS : Nat := 8

/-! P(arameter)I(nfo)F(lag)_M(emory)T(ype)_XX -/

def PI_PIF_MT_RAM : Nat := 0x00000001
def PI_PIF_MT_EPROM : Nat := 0x00000002
def PI_PIF_MT_ALL : Nat := PI_PIF_MT_RAM ||| PI_PIF_MT_EPROM

/-! P(arameter)I(nfo)F(lag)_D(ata)T(ype)_XX -/

def PI_PIF_DT_INT : Nat := 1
def PI_PIF_DT_FLOAT : Nat := 2
def PI_PIF_DT_CHAR : Nat := 3

/-- The `PI_BIT_*`, `PI_DRC_*` and `PI_PIF_*` macros the header defines, in
source order, each with its value. -/
def constants : List (String × Nat) := [
  ("PI_BIT_WGO_START_DEFAULT", PI_BIT_WGO_START_DEFAULT),
  ("PI_BIT_WGO_START_EXTERN_TRIGGER", PI_BIT_WGO_START_EXTERN_TRIGGER),
  ("PI_BIT_WGO_WITH_DDL_INITIALISATION", PI_BIT_WGO_WITH_DDL_INITIALISATION),
  ("PI_BIT_WGO_WITH_DDL", PI_BIT_WGO_WITH_DDL),
  ("PI_BIT_WGO_START_AT_ENDPOSITION", PI_BIT_WGO_START_AT_ENDPOSITION),
  ("PI_BIT_WGO_SINGLE_RUN_DDL_TEST", PI_BIT_WGO_SINGLE_RUN_DDL_TEST),
  ("PI_BIT_WGO_EXTERN_WAVE_GENERATOR", PI_BIT_WGO_EXTERN_WAVE_GENERATOR),
  ("PI_BIT_WGO_SAVE_BIT_1", PI_BIT_WGO_SAVE_BIT_1),
  ("PI_BIT_WGO_SAVE_BIT_2", PI_BIT_WGO_SAVE_BIT_2),
  ("PI_BIT_WGO_SAVE_BIT_3", PI_BIT_WGO_SAVE_BIT_3),
  ("PI_BIT_TRG_LINE_1", PI_BIT_TRG_LINE_1),
  ("PI_BIT_TRG_LINE_2", PI_BIT_TRG_LINE_2),
  ("PI_BIT_TRG_LINE_3", PI_BIT_TRG_LINE_3),
  ("PI_BIT_TRG_LINE_4", PI_BIT_TRG_LINE_4),
  ("PI_BIT_TRG_ALL_CURVE_POINTS", PI_BIT_TRG_ALL_CURVE_POINTS),
  ("PI_DRC_DEFAULT", PI_DRC_DEFAULT),
  ("PI_DRC_AXIS_TARGET_POS", PI_DRC_AXIS_TARGET_POS),
  ("PI_DRC_AXIS_ACTUAL_POS", PI_DRC_AXIS_ACTUAL_POS),
  ("PI_DRC_AXIS_POS_ERROR", PI_DRC_AXIS_POS_ERROR),
  ("PI_DRC_AXIS_DDL_DATA", PI_DRC_AXIS_DDL_DATA),
  ("PI_DRC_AXIS_DRIVING_VOL", PI_DRC_AXIS_DRIVING_VOL),
  ("PI_DRC_PIEZO_MODEL_VOL", PI_DRC_PIEZO_MODEL_VOL),
  ("PI_DRC_PIEZO_VOL", PI_DRC_PIEZO_VOL),
  ("PI_DRC_SENSOR_POS", PI_DRC_SENSOR_POS),
  ("PI_PIF_MT_RAM", PI_PIF_MT_RAM),
  ("PI_PIF_MT_EPROM", PI_PIF_MT_EPROM),
  ("PI_PIF_MT_ALL", PI_PIF_MT_ALL),
  ("PI_PIF_DT_INT", PI_PIF_DT_INT),
  ("PI_PIF_DT_FLOAT", PI_PIF_DT_FLOAT),
  ("PI_PIF_DT_CHAR", PI_PIF_DT_CHAR)]

/-- Section "DLL initialization and comm functions" of PI_GCS2_DLL_PF.h: the aliases of lines 98 to 130. -/
def commFunctions : List Item := [
  decl (Proto.mk int "PFPI_InterfaceSetupDlg" [.mk (ptr (const char)) "szRegKeyName"]),
  decl (Proto.mk int "PFPI_ConnectRS232" [.mk int "nPortNr", .mk int "iBaudRate"]),
  ifndefWIN32 [
    Proto.mk int "PFPI_ConnectRS232ByDevName" [.mk (ptr (const char)) "szDevName", .mk int "BaudRate"]],
  decl (Proto.mk int "PFPI_OpenRS232DaisyChain" [.mk int "iPortNumber", .mk int "iBaudRate", .mk (ptr int) "pNumberOfConnectedDaisyChainDevices", .mk (ptr char) "szDeviceIDNs", .mk int "iBufferSize"]),
  decl (Proto.mk int "PFPI_ConnectDaisyChainDevice" [.mk int "iPortId", .mk int "iDeviceNumber"]),
  decl (Proto.mk void "PFPI_CloseDaisyChain" [.mk int "iPortId"]),
  decl (Proto.mk int "PFPI_ConnectNIgpib" [.mk int "nBoard", .mk int "nDevAddr"]),
  decl (Proto.mk int "PFPI_ConnectTCPIP" [.mk (ptr (const char)) "szHostname", .mk int "port"]),
  decl (Proto.mk int "PFPI_EnableTCPIPScan" [.mk int "iMask"]),
  decl (Proto.mk int "PFPI_EnumerateTCPIPDevices" [.mk (ptr char) "szBuffer", .mk int "iBufferSize", .mk (ptr (const char)) "szFilter"]),
  decl (Proto.mk int "PFPI_ConnectTCPIPByDescription" [.mk (ptr (const char)) "szDescription"]),
  decl (Proto.mk int "PFPI_OpenTCPIPDaisyChain" [.mk (ptr (const char)) "szHostname", .mk int "port", .mk (ptr int) "pNumberOfConnectedDaisyChainDevices", .mk (ptr char) "szDeviceIDNs", .mk int "iBufferSize"]),
  decl (Proto.mk int "PFPI_EnumerateUSB" [.mk (ptr char) "szBuffer", .mk int "iBufferSize", .mk (ptr (const char)) "szFilter"]),
  decl (Proto.mk int "PFPI_ConnectUSB" [.mk (ptr (const char)) "szDescription"]),
  decl (Proto.mk int "PFPI_ConnectUSBWithBaudRate" [.mk (ptr (const char)) "szDescription", .mk int "iBaudRate"]),
  decl (Proto.mk int "PFPI_OpenUSBDaisyChain" [.mk (ptr (const char)) "szDescription", .mk (ptr int) "pNumberOfConnectedDaisyChainDevices", .mk (ptr char) "szDeviceIDNs", .mk int "iBufferSize"]),
  decl (Proto.mk BOOL "PFPI_IsConnected" [.mk int "ID"]),
  decl (Proto.mk void "PFPI_CloseConnection" [.mk int "ID"]),
  decl (Proto.mk int "PFPI_GetError" [.mk int "ID"]),
  decl (Proto.mk BOOL "PFPI_SetErrorCheck" [.mk int "ID", .mk BOOL "bErrorCheck"]),
  decl (Proto.mk BOOL "PFPI_TranslateError" [.mk int "errNr", .mk (ptr char) "szBuffer", .mk int "iBufferSize"]),
  decl (Proto.mk int "PFPI_SetTimeout" [.mk int "ID", .mk int "timeoutInMS"]),
  decl (Proto.mk int "PFPI_SetDaisyChainScanMaxDeviceID" [.mk int "maxID"]),
  decl (Proto.mk BOOL "PFPI_EnableReconnect" [.mk int "ID", .mk BOOL "bEnable"]),
  decl (Proto.mk int "PFPI_SetNrTimeoutsBeforeClose" [.mk int "ID", .mk int "nrTimeoutsBeforeClose"])]

/-- Section "general" of PI_GCS2_DLL_PF.h: the aliases of lines 135 to 286. -/
def general : List Item := [
  decl (Proto.mk BOOL "PFPI_qERR" [.mk int "ID", .mk (ptr int) "pnError"]),
  decl (Proto.mk BOOL "PFPI_qIDN" [.mk int "ID", .mk (ptr char) "szBuffer", .mk int "iBufferSize"]),
  decl (Proto.mk BOOL "PFPI_INI" [.mk int "ID", .mk (ptr (const char)) "szAxes"]),
  decl (Proto.mk BOOL "PFPI_qHLP" [.mk int "ID", .mk (ptr char) "szBuffer", .mk int "iBufferSize"]),
  decl (Proto.mk BOOL "PFPI_qHPA" [.mk int "ID", .mk (ptr char) "szBuffer", .mk int "iBufferSize"]),
  decl (Proto.mk BOOL "PFPI_qHPV" [.mk int "ID", .mk (ptr char) "szBuffer", .mk int "iBufferSize"]),
  decl (Proto.mk BOOL "PFPI_qCSV" [.mk int "ID", .mk (ptr double) "pdCommandSyntaxVersion"]),
  decl (Proto.mk BOOL "PFPI_qOVF" [.mk int "ID", .mk (ptr (const char)) "szAxes", .mk (ptr BOOL) "piValueArray"]),
  decl (Proto.mk BOOL "PFPI_RBT" [.mk int "ID"]),
  decl (Proto.mk BOOL "PFPI_REP" [.mk int "ID"]),
  decl (Proto.mk BOOL "PFPI_BDR" [.mk int "ID", .mk int "iBaudRate"]),
  decl (Proto.mk BOOL "PFPI_qBDR" [.mk int "ID", .mk (ptr int) "iBaudRate"]),
  decl (Proto.mk BOOL "PFPI_DBR" [.mk int "ID", .mk int "iBaudRate"]),
  decl (Proto.mk BOOL "PFPI_qDBR" [.mk int "ID", .mk (ptr int) "iBaudRate"]),
  decl (Proto.mk BOOL "PFPI_qVER" [.mk int "ID", .mk (ptr char) "szBuffer", .mk int "iBufferSize"]),
  decl (Proto.mk BOOL "PFPI_qSSN" [.mk int "ID", .mk (ptr char) "szSerialNumber", .mk int "iBufferSize"]),
  decl (Proto.mk BOOL "PFPI_CCT" [.mk int "ID", .mk int "iCommandType"]),
  decl (Proto.mk BOOL "PFPI_qCCT" [.mk int "ID", .mk (ptr int) "iCommandType"]),
  decl (Proto.mk BOOL "PFPI_qTVI" [.mk int "ID", .mk (ptr char) "szBuffer", .mk int "iBufferSize"]),
  decl (Proto.mk BOOL "PFPI_IFC" [.mk int "ID", .mk (ptr (const char)) "szParameters", .mk (ptr (const char)) "szValues"]),
  decl (Proto.mk BOOL "PFPI_qIFC" [.mk int "ID", .mk (ptr (const char)) "szParameters", .mk (ptr char) "szBuffer", .mk int "iBufferSize"]),
  decl (Proto.mk BOOL "PFPI_IFS" [.mk int "ID", .mk (ptr (const char)) "szPassword", .mk (ptr (const char)) "szParameters", .mk (ptr (const char)) "szValues"]),
  decl (Proto.mk BOOL "PFPI_qIFS" [.mk int "ID", .mk (ptr (const char)) "szParameters", .mk (ptr char) "szBuffer", .mk int "iBufferSize"]),
  decl (Proto.mk BOOL "PFPI_qECO" [.mk int "ID", .mk (ptr (const char)) "szSendString", .mk (ptr char) "szValues", .mk int "iBufferSize"]),
  decl (Proto.mk BOOL "PFPI_MOV" [.mk int "ID", .mk (ptr (const char)) "szAxes", .mk (ptr (const double)) "pdValueArray"]),
  decl (Proto.mk BOOL "PFPI_qMOV" [.mk int "ID", .mk (ptr (const char)) "szAxes", .mk (ptr double) "pdValueArray"]),
  decl (Proto.mk BOOL "PFPI_MVR" [.mk int "ID", .mk (ptr (const char)) "szAxes", .mk (ptr (const double)) "pdValueArray"]),
  decl (Proto.mk BOOL "PFPI_MVE" [.mk int "ID", .mk (ptr (const char)) "szAxes", .mk (ptr (const double)) "pdValueArray"]),
  decl (Proto.mk BOOL "PFPI_POS" [.mk int "ID", .mk (ptr (const char)) "szAxes", .mk (ptr (const double)) "pdValueArray"]),
  decl (Proto.mk BOOL "PFPI_qPOS" [.mk int "ID", .mk (ptr (const char)) "szAxes", .mk (ptr double) "pdValueArray"]),
  decl (Proto.mk BOOL "PFPI_IsMoving" [.mk int "ID", .mk (ptr (const char)) "szAxes", .mk (ptr BOOL) "pbValueArray"]),
  decl (Proto.mk BOOL "PFPI_HLT" [.mk int "ID", .mk (ptr (const char)) "szAxes"]),
  decl (Proto.mk BOOL "PFPI_STP" [.mk int "ID"]),
  decl (Proto.mk BOOL "PFPI_StopAll" [.mk int "ID"]),
  decl (Proto.mk BOOL "PFPI_qONT" [.mk int "ID", .mk (ptr (const char)) "szAxes", .mk (ptr BOOL) "pbValueArray"]),
  decl (Proto.mk BOOL "PFPI_RTO" [.mk int "ID", .mk (ptr (const char)) "szAxes"]),
  decl (Proto.mk BOOL "PFPI_qRTO" [.mk int "ID", .mk (ptr (const char)) "szAxes", .mk (ptr int) "piValueArray"]),
  decl (Proto.mk BOOL "PFPI_ATZ" [.mk int "ID", .mk (ptr (const char)) "szAxes", .mk (ptr (const double)) "pdLowvoltageArray", .mk (ptr (const BOOL)) "pfUseDefaultArray"]),
  decl (Proto.mk BOOL "PFPI_qATZ" [.mk int "ID", .mk (ptr (const char)) "szAxes", .mk (ptr int) "piAtzResultArray"]),
  decl (Proto.mk BOOL "PFPI_AOS" [.mk int "ID", .mk (ptr (const char)) "szAxes", .mk (ptr (const double)) "pdValueArray"]),
  decl (Proto.mk BOOL "PFPI_qAOS" [.mk int "ID", .mk (ptr (const char)) "szAxes", .mk (ptr double) "pdValueArray"]),
  decl (Proto.mk BOOL "PFPI_HasPosChanged" [.mk int "ID", .mk (ptr (const char)) "szAxes", .mk (ptr BOOL) "pbValueArray"]),
  decl (Proto.mk BOOL "PFPI_GetErrorStatus" [.mk int "ID", .mk (ptr BOOL) "pbIsReferencedArray", .mk (ptr BOOL) "pbIsReferencing", .mk (ptr BOOL) "pbIsMovingArray", .mk (ptr BOOL) "pbIsMotionErrorArray"]),
  decl (Proto.mk BOOL "PFPI_SVA" [.mk int "ID", .mk (ptr (const char)) "szAxes", .mk (ptr (const double)) "pdValueArray"]),
  decl (Proto.mk BOOL "PFPI_qSVA" [.mk int "ID", .mk (ptr (const char)) "szAxes", .mk (ptr double) "pdValueArray"]),
  decl (Proto.mk BOOL "PFPI_SVR" [.mk int "ID", .mk (ptr (const char)) "szAxes", .mk (ptr (const double)) "pdValueArray"]),
  decl (Proto.mk BOOL "PFPI_DFH" [.mk int "ID", .mk (ptr (const char)) "szAxes"]),
  decl (Proto.mk BOOL "PFPI_qDFH" [.mk int "ID", .mk (ptr (const char)) "szAxes", .mk (ptr double) "pdValueArray"]),
  decl (Proto.mk BOOL "PFPI_GOH" [.mk int "ID", .mk (ptr (const char)) "szAxes"]),
  decl (Proto.mk BOOL "PFPI_qCST" [.mk int "ID", .mk (ptr (const char)) "szAxes", .mk (ptr char) "szNames", .mk int "iBufferSize"]),
  decl (Proto.mk BOOL "PFPI_CST" [.mk int "ID", .mk (ptr (const char)) "szAxes", .mk (ptr (const char)) "szNames"]),
  decl (Proto.mk BOOL "PFPI_qVST" [.mk int "ID", .mk (ptr char) "szBuffer", .mk int "iBufferSize"]),
  decl (Proto.mk BOOL "PFPI_qPUN" [.mk int "ID", .mk (ptr (const char)) "szAxes", .mk (ptr char) "szUnit", .mk int "iBufferSize"]),
  decl (Proto.mk BOOL "PFPI_SVO" [.mk int "ID", .mk (ptr (const char)) "szAxes", .mk (ptr (const BOOL)) "pbValueArray"]),
  decl (Proto.mk BOOL "PFPI_qSVO" [.mk int "ID", .mk (ptr (const char)) "szAxes", .mk (ptr BOOL) "pbValueArray"]),
  decl (Proto.mk BOOL "PFPI_SMO" [.mk int "ID", .mk (ptr (const char)) "szAxes", .mk (ptr (const int)) "piValueArray"]),
  decl (Proto.mk BOOL "PFPI_qSMO" [.mk int "ID", .mk (ptr (const char)) "szAxes", .mk (ptr int) "piValueArray"]),
  decl (Proto.mk BOOL "PFPI_DCO" [.mk int "ID", .mk (ptr (const char)) "szAxes", .mk (ptr (const BOOL)) "pbValueArray"]),
  decl (Proto.mk BOOL "PFPI_qDCO" [.mk int "ID", .mk (ptr (const char)) "szAxes", .mk (ptr BOOL) "pbValueArray"]),
  decl (Proto.mk BOOL "PFPI_BRA" [.mk int "ID", .mk (ptr (const char)) "szAxes", .mk (ptr (const BOOL)) "pbValueArray"]),
  decl (Proto.mk BOOL "PFPI_qBRA" [.mk int "ID", .mk (ptr (const char)) "szAxes", .mk (ptr BOOL) "pbValueArray"]),
  decl (Proto.mk BOOL "PFPI_RON" [.mk int "ID", .mk (ptr (const char)) "szAxes", .mk (ptr (const BOOL)) "pbValueArray"]),
  decl (Proto.mk BOOL "PFPI_qRON" [.mk int "ID", .mk (ptr (const char)) "szAxes", .mk (ptr BOOL) "pbValueArray"]),
  decl (Proto.mk BOOL "PFPI_VEL" [.mk int "ID", .mk (ptr (const char)) "szAxes", .mk (ptr (const double)) "pdValueArray"]),
  decl (Proto.mk BOOL "PFPI_qVEL" [.mk int "ID", .mk (ptr (const char)) "szAxes", .mk (ptr double) "pdValueArray"]),
  decl (Proto.mk BOOL "PFPI_JOG" [.mk int "ID", .mk (ptr (const char)) "szAxes", .mk (ptr (const double)) "pdValueArray"]),
  decl (Proto.mk BOOL "PFPI_qJOG" [.mk int "ID", .mk (ptr (const char)) "szAxes", .mk (ptr double) "pdValueArray"]),
  decl (Proto.mk BOOL "PFPI_qTCV" [.mk int "ID", .mk (ptr (const char)) "szAxes", .mk (ptr double) "pdValueArray"]),
  decl (Proto.mk BOOL "PFPI_VLS" [.mk int "ID", .mk double "dSystemVelocity"]),
  decl (Proto.mk BOOL "PFPI_qVLS" [.mk int "ID", .mk (ptr double) "pdSystemVelocity"]),
  decl (Proto.mk BOOL "PFPI_ACC" [.mk int "ID", .mk (ptr (const char)) "szAxes", .mk (ptr (const double)) "pdValueArray"]),
  decl (Proto.mk BOOL "PFPI_qACC" [.mk int "ID", .mk (ptr (const char)) "szAxes", .mk (ptr double) "pdValueArray"]),
  decl (Proto.mk BOOL "PFPI_DEC" [.mk int "ID", .mk (ptr (const char)) "szAxes", .mk (ptr (const double)) "pdValueArray"]),
  decl (Proto.mk BOOL "PFPI_qDEC" [.mk int "ID", .mk (ptr (const char)) "szAxes", .mk (ptr double) "pdValueArray"]),
  decl (Proto.mk BOOL "PFPI_VCO" [.mk int "ID", .mk (ptr (const char)) "szAxes", .mk (ptr (const BOOL)) "pbValueArray"]),
  decl (Proto.mk BOOL "PFPI_qVCO" [.mk int "ID", .mk (ptr (const char)) "szAxes", .mk (ptr BOOL) "pbValueArray"]),
  decl (Proto.mk BOOL "PFPI_SPA" [.mk int "ID", .mk (ptr (const char)) "szAxes", .mk (ptr (const unsigned_int)) "iParameterArray", .mk (ptr (const double)) "pdValueArray", .mk (ptr (const char)) "szStrings"]),
  decl (Proto.mk BOOL "PFPI_qSPA" [.mk int "ID", .mk (ptr (const char)) "szAxes", .mk (ptr unsigned_int) "iParameterArray", .mk (ptr double) "pdValueArray", .mk (ptr char) "szStrings", .mk int "iMaxNameSize"]),
  decl (Proto.mk BOOL "PFPI_SEP" [.mk int "ID", .mk (ptr (const char)) "szPassword", .mk (ptr (const char)) "szAxes", .mk (ptr (const unsigned_int)) "iParameterArray", .mk (ptr (const double)) "pdValueArray", .mk (ptr (const char)) "szStrings"]),
  decl (Proto.mk BOOL "PFPI_qSEP" [.mk int "ID", .mk (ptr (const char)) "szAxes", .mk (ptr unsigned_int) "iParameterArray", .mk (ptr double) "pdValueArray", .mk (ptr char) "szStrings", .mk int "iMaxNameSize"]),
  decl (Proto.mk BOOL "PFPI_WPA" [.mk int "ID", .mk (ptr (const char)) "szPassword", .mk (ptr (const char)) "szAxes", .mk (ptr (const unsigned_int)) "iParameterArray"]),
  decl (Proto.mk BOOL "PFPI_DPA" [.mk int "ID", .mk (ptr (const char)) "szPassword", .mk (ptr (const char)) "szAxes", .mk (ptr (const unsigned_int)) "iParameterArray"]),
  decl (Proto.mk BOOL "PFPI_TIM" [.mk int "ID", .mk double "dTimer"]),
  decl (Proto.mk BOOL "PFPI_qTIM" [.mk int "ID", .mk (ptr double) "pdTimer"]),
  decl (Proto.mk BOOL "PFPI_RPA" [.mk int "ID", .mk (ptr (const char)) "szAxes", .mk (ptr (const unsigned_int)) "iParameterArray"]),
  decl (Proto.mk BOOL "PFPI_SPA_String" [.mk int "ID", .mk (ptr (const char)) "szAxes", .mk (ptr (const unsigned_int)) "iParameterArray", .mk (ptr (const char)) "szStrings"]),
  decl (Proto.mk BOOL "PFPI_qSPA_String" [.mk int "ID", .mk (ptr (const char)) "szAxes", .mk (ptr (const unsigned_int)) "iParameterArray", .mk (ptr char) "szStrings", .mk int "iMaxNameSize"]),
  decl (Proto.mk BOOL "PFPI_SEP_String" [.mk int "ID", .mk (ptr (const char)) "szPassword", .mk (ptr (const char)) "szAxes", .mk (ptr (const unsigned_int)) "iParameterArray", .mk (ptr (const char)) "szStrings"]),
  decl (Proto.mk BOOL "PFPI_qSEP_String" [.mk int "ID", .mk (ptr (const char)) "szAxes", .mk (ptr unsigned_int) "iParameterArray", .mk (ptr char) "szStrings", .mk int "iMaxNameSize"]),
  decl (Proto.mk BOOL "PFPI_SPA_int64" [.mk int "ID", .mk (ptr (const char)) "szAxes", .mk (ptr (const unsigned_int)) "iParameterArray", .mk (ptr (const __int64)) "piValueArray"]),
  decl (Proto.mk BOOL "PFPI_qSPA_int64" [.mk int "ID", .mk (ptr (const char)) "szAxes", .mk (ptr unsigned_int) "iParameterArray", .mk (ptr __int64) "piValueArray"]),
  decl (Proto.mk BOOL "PFPI_SEP_int64" [.mk int "ID", .mk (ptr (const char)) "szPassword", .mk (ptr (const char)) "szAxes", .mk (ptr (const unsigned_int)) "iParameterArray", .mk (ptr (const __int64)) "piValueArray"]),
  decl (Proto.mk BOOL "PFPI_qSEP_int64" [.mk int "ID", .mk (ptr (const char)) "szAxes", .mk (ptr unsigned_int) "iParameterArray", .mk (ptr __int64) "piValueArray"]),
  decl (Proto.mk BOOL "PFPI_STE" [.mk int "ID", .mk (ptr (const char)) "szAxes", .mk (ptr (const double)) "dOffsetArray"]),
  decl (Proto.mk BOOL "PFPI_qSTE" [.mk int "ID", .mk (ptr (const char)) "szAxes", .mk (ptr double) "pdValueArray"]),
  decl (Proto.mk BOOL "PFPI_IMP" [.mk int "ID", .mk (ptr (const char)) "szAxes", .mk (ptr (const double)) "pdImpulseSize"]),
  decl (Proto.mk BOOL "PFPI_IMP_PulseWidth" [.mk int "ID", .mk char "cAxis", .mk double "dOffset", .mk int "iPulseWidth"]),
  decl (Proto.mk BOOL "PFPI_qIMP" [.mk int "ID", .mk (ptr (const char)) "szAxes", .mk (ptr double) "pdValueArray"]),
  decl (Proto.mk BOOL "PFPI_SAI" [.mk int "ID", .mk (ptr (const char)) "szOldAxes", .mk (ptr (const char)) "szNewAxes"]),
  decl (Proto.mk BOOL "PFPI_qSAI" [.mk int "ID", .mk (ptr char) "szAxes", .mk int "iBufferSize"]),
  decl (Proto.mk BOOL "PFPI_qSAI_ALL" [.mk int "ID", .mk (ptr char) "szAxes", .mk int "iBufferSize"]),
  decl (Proto.mk BOOL "PFPI_CCL" [.mk int "ID", .mk int "iComandLevel", .mk (ptr (const char)) "szPassWord"]),
  decl (Proto.mk BOOL "PFPI_qCCL" [.mk int "ID", .mk (ptr int) "piComandLevel"]),
  decl (Proto.mk BOOL "PFPI_AVG" [.mk int "ID", .mk int "iAverrageTime"]),
  decl (Proto.mk BOOL "PFPI_qAVG" [.mk int "ID", .mk (ptr int) "iAverrageTime"]),
  decl (Proto.mk BOOL "PFPI_qHAR" [.mk int "ID", .mk (ptr (const char)) "szAxes", .mk (ptr BOOL) "pbValueArray"]),
  decl (Proto.mk BOOL "PFPI_qLIM" [.mk int "ID", .mk (ptr (const char)) "szAxes", .mk (ptr BOOL) "pbValueArray"]),
  decl (Proto.mk BOOL "PFPI_qTRS" [.mk int "ID", .mk (ptr (const char)) "szAxes", .mk (ptr BOOL) "pbValueArray"]),
  decl (Proto.mk BOOL "PFPI_FNL" [.mk int "ID", .mk (ptr (const char)) "szAxes"]),
  decl (Proto.mk BOOL "PFPI_FPL" [.mk int "ID", .mk (ptr (const char)) "szAxes"]),
  decl (Proto.mk BOOL "PFPI_FRF" [.mk int "ID", .mk (ptr (const char)) "szAxes"]),
  decl (Proto.mk BOOL "PFPI_FED" [.mk int "ID", .mk (ptr (const char)) "szAxes", .mk (ptr (const int)) "piEdgeArray", .mk (ptr (const int)) "piParamArray"]),
  decl (Proto.mk BOOL "PFPI_qFRF" [.mk int "ID", .mk (ptr (const char)) "szAxes", .mk (ptr BOOL) "pbValueArray"]),
  decl (Proto.mk BOOL "PFPI_DIO" [.mk int "ID", .mk (ptr (const int)) "piChannelsArray", .mk (ptr (const BOOL)) "pbValueArray", .mk int "iArraySize"]),
  decl (Proto.mk BOOL "PFPI_qDIO" [.mk int "ID", .mk (ptr (const int)) "piChannelsArray", .mk (ptr BOOL) "pbValueArray", .mk int "iArraySize"]),
  decl (Proto.mk BOOL "PFPI_qTIO" [.mk int "ID", .mk (ptr int) "piInputNr", .mk (ptr int) "piOutputNr"]),
  decl (Proto.mk BOOL "PFPI_IsControllerReady" [.mk int "ID", .mk (ptr int) "piControllerReady"]),
  decl (Proto.mk BOOL "PFPI_qSRG" [.mk int "ID", .mk (ptr (const char)) "szAxes", .mk (ptr (const int)) "iRegisterArray", .mk (ptr int) "iValArray"]),
  decl (Proto.mk BOOL "PFPI_ATC" [.mk int "ID", .mk (ptr (const int)) "piChannels", .mk (ptr (const int)) "piValueArray", .mk int "iArraySize"]),
  decl (Proto.mk BOOL "PFPI_qATC" [.mk int "ID", .mk (ptr (const int)) "piChannels", .mk (ptr int) "piValueArray", .mk int "iArraySize"]),
  decl (Proto.mk BOOL "PFPI_qATS" [.mk int "ID", .mk (ptr (const int)) "piChannels", .mk (ptr (const int)) "piOptions", .mk (ptr int) "piValueArray", .mk int "iArraySize"]),
  decl (Proto.mk BOOL "PFPI_SPI" [.mk int "ID", .mk (ptr (const char)) "szAxes", .mk (ptr (const double)) "pdValueArray"]),
  decl (Proto.mk BOOL "PFPI_qSPI" [.mk int "ID", .mk (ptr (const char)) "szAxes", .mk (ptr double) "pdValueArray"]),
  decl (Proto.mk BOOL "PFPI_SCT" [.mk int "ID", .mk double "dCycleTime"]),
  decl (Proto.mk BOOL "PFPI_qSCT" [.mk int "ID", .mk (ptr double) "pdCycleTime"]),
  decl (Proto.mk BOOL "PFPI_SST" [.mk int "ID", .mk (ptr (const char)) "szAxes", .mk (ptr (const double)) "pdValueArray"]),
  decl (Proto.mk BOOL "PFPI_qSST" [.mk int "ID", .mk (ptr (const char)) "szAxes", .mk (ptr double) "pdValueArray"])]

/-- Section "Macro commande" of PI_GCS2_DLL_PF.h: the aliases of lines 290 to 311. -/
def macroCommands : List Item := [
  decl (Proto.mk BOOL "PFPI_IsRunningMacro" [.mk int "ID", .mk (ptr BOOL) "pbRunningMacro"]),
  decl (Proto.mk BOOL "PFPI_MAC_BEG" [.mk int "ID", .mk (ptr (const char)) "szMacroName"]),
  decl (Proto.mk BOOL "PFPI_MAC_START" [.mk int "ID", .mk (ptr (const char)) "szMacroName"]),
  decl (Proto.mk BOOL "PFPI_MAC_NSTART" [.mk int "ID", .mk (ptr (const char)) "szMacroName", .mk int "nrRuns"]),
  decl (Proto.mk BOOL "PFPI_MAC_START_Args" [.mk int "ID", .mk (ptr (const char)) "szMacroName", .mk (ptr (const char)) "szArgs"]),
  decl (Proto.mk BOOL "PFPI_MAC_NSTART_Args" [.mk int "ID", .mk (ptr (const char)) "szMacroName", .mk int "nrRuns", .mk (ptr (const char)) "szArgs"]),
  decl (Proto.mk BOOL "PFPI_MAC_END" [.mk int "ID"]),
  decl (Proto.mk BOOL "PFPI_MAC_DEL" [.mk int "ID", .mk (ptr (const char)) "szMacroName"]),
  decl (Proto.mk BOOL "PFPI_MAC_DEF" [.mk int "ID", .mk (ptr (const char)) "szMacroName"]),
  decl (Proto.mk BOOL "PFPI_MAC_qDEF" [.mk int "ID", .mk (ptr char) "szBuffer", .mk int "iBufferSize"]),
  decl (Proto.mk BOOL "PFPI_MAC_qERR" [.mk int "ID", .mk (ptr char) "szBuffer", .mk int "iBufferSize"]),
  decl (Proto.mk BOOL "PFPI_MAC_qFREE" [.mk int "ID", .mk (ptr int) "iFreeSpace"]),
  decl (Proto.mk BOOL "PFPI_qMAC" [.mk int "ID", .mk (ptr (const char)) "szMacroName", .mk (ptr char) "szBuffer", .mk int "iBufferSize"]),
  decl (Proto.mk BOOL "PFPI_qRMC" [.mk int "ID", .mk (ptr char) "szBuffer", .mk int "iBufferSize"]),
  decl (Proto.mk BOOL "PFPI_DEL" [.mk int "ID", .mk int "nMilliSeconds"]),
  decl (Proto.mk BOOL "PFPI_WAC" [.mk int "ID", .mk (ptr (const char)) "szCondition"]),
  decl (Proto.mk BOOL "PFPI_MEX" [.mk int "ID", .mk (ptr (const char)) "szCondition"]),
  decl (Proto.mk BOOL "PFPI_VAR" [.mk int "ID", .mk (ptr (const char)) "szVariables", .mk (ptr (const char)) "szValues"]),
  decl (Proto.mk BOOL "PFPI_qVAR" [.mk int "ID", .mk (ptr (const char)) "szVariables", .mk (ptr char) "szValues", .mk int "iBufferSize"])]

/-- Section "String commands." of PI_GCS2_DLL_PF.h: the aliases of lines 315 to 317. -/
def stringCommands : List Item := [
  decl (Proto.mk BOOL "PFPI_GcsCommandset" [.mk int "ID", .mk (ptr (const char)) "szCommand"]),
  decl (Proto.mk BOOL "PFPI_GcsGetAnswer" [.mk int "ID", .mk (ptr char) "szAnswer", .mk int "iBufferSize"]),
  decl (Proto.mk BOOL "PFPI_GcsGetAnswerSize" [.mk int "ID", .mk (ptr int) "iAnswerSize"])]

/-- Section "limits" of PI_GCS2_DLL_PF.h: the aliases of lines 322 to 330. -/
def limits : List Item := [
  decl (Proto.mk BOOL "PFPI_qTMN" [.mk int "ID", .mk (ptr (const char)) "szAxes", .mk (ptr double) "pdValueArray"]),
  decl (Proto.mk BOOL "PFPI_qTMX" [.mk int "ID", .mk (ptr (const char)) "szAxes", .mk (ptr double) "pdValueArray"]),
  decl (Proto.mk BOOL "PFPI_NLM" [.mk int "ID", .mk (ptr (const char)) "szAxes", .mk (ptr (const double)) "pdValueArray"]),
  decl (Proto.mk BOOL "PFPI_qNLM" [.mk int "ID", .mk (ptr (const char)) "szAxes", .mk (ptr double) "pdValueArray"]),
  decl (Proto.mk BOOL "PFPI_PLM" [.mk int "ID", .mk (ptr (const char)) "szAxes", .mk (ptr (const double)) "pdValueArray"]),
  decl (Proto.mk BOOL "PFPI_qPLM" [.mk int "ID", .mk (ptr (const char)) "szAxes", .mk (ptr double) "pdValueArray"]),
  decl (Proto.mk BOOL "PFPI_SSL" [.mk int "ID", .mk (ptr (const char)) "szAxes", .mk (ptr (const BOOL)) "pbValueArray"]),
  decl (Proto.mk BOOL "PFPI_qSSL" [.mk int "ID", .mk (ptr (const char)) "szAxes", .mk (ptr BOOL) "pbValueArray"]),
  decl (Proto.mk BOOL "PFPI_qVMO" [.mk int "ID", .mk (ptr (const char)) "szAxes", .mk (ptr (const double)) "pdValarray", .mk (ptr BOOL) "pbMovePossible"])]

/-- Section "Wave commands." of PI_GCS2_DLL_PF.h: the aliases of lines 335 to 362. -/
def waveCommands : List Item := [
  decl (Proto.mk BOOL "PFPI_IsGeneratorRunning" [.mk int "ID", .mk (ptr (const int)) "piWaveGeneratorIds", .mk (ptr BOOL) "pbValueArray", .mk int "iArraySize"]),
  decl (Proto.mk BOOL "PFPI_qTWG" [.mk int "ID", .mk (ptr int) "piWaveGenerators"]),
  decl (Proto.mk BOOL "PFPI_WAV_SIN_P" [.mk int "ID", .mk int "iWaveTableId", .mk int "iOffsetOfFirstPointInWaveTable", .mk int "iNumberOfPoints", .mk int "iAddAppendWave", .mk int "iCenterPointOfWave", .mk double "dAmplitudeOfWave", .mk double "dOffsetOfWave", .mk int "iSegmentLength"]),
  decl (Proto.mk BOOL "PFPI_WAV_LIN" [.mk int "ID", .mk int "iWaveTableId", .mk int "iOffsetOfFirstPointInWaveTable", .mk int "iNumberOfPoints", .mk int "iAddAppendWave", .mk int "iNumberOfSpeedUpDownPointsInWave", .mk double "dAmplitudeOfWave", .mk double "dOffsetOfWave", .mk int "iSegmentLength"]),
  decl (Proto.mk BOOL "PFPI_WAV_RAMP" [.mk int "ID", .mk int "iWaveTableId", .mk int "iOffsetOfFirstPointInWaveTable", .mk int "iNumberOfPoints", .mk int "iAddAppendWave", .mk int "iCenterPointOfWave", .mk int "iNumberOfSpeedUpDownPointsInWave", .mk double "dAmplitudeOfWave", .mk double "dOffsetOfWave", .mk int "iSegmentLength"]),
  decl (Proto.mk BOOL "PFPI_WAV_PNT" [.mk int "ID", .mk int "iWaveTableId", .mk int "iOffsetOfFirstPointInWaveTable", .mk int "iNumberOfPoints", .mk int "iAddAppendWave", .mk (ptr (const double)) "pdWavePoints"]),
  decl (Proto.mk BOOL "PFPI_qWAV" [.mk int "ID", .mk (ptr (const int)) "piWaveTableIdsArray", .mk (ptr (const int)) "piParamereIdsArray", .mk (ptr double) "pdValueArray", .mk int "iArraySize"]),
  decl (Proto.mk BOOL "PFPI_WGO" [.mk int "ID", .mk (ptr (const int)) "piWaveGeneratorIdsArray", .mk (ptr (const int)) "iStartModArray", .mk int "iArraySize"]),
  decl (Proto.mk BOOL "PFPI_qWGO" [.mk int "ID", .mk (ptr (const int)) "piWaveGeneratorIdsArray", .mk (ptr int) "piValueArray", .mk int "iArraySize"]),
  decl (Proto.mk BOOL "PFPI_WGC" [.mk int "ID", .mk (ptr (const int)) "piWaveGeneratorIdsArray", .mk (ptr (const int)) "piNumberOfCyclesArray", .mk int "iArraySize"]),
  decl (Proto.mk BOOL "PFPI_qWGC" [.mk int "ID", .mk (ptr (const int)) "piWaveGeneratorIdsArray", .mk (ptr int) "piValueArray", .mk int "iArraySize"]),
  decl (Proto.mk BOOL "PFPI_WSL" [.mk int "ID", .mk (ptr (const int)) "piWaveGeneratorIdsArray", .mk (ptr (const int)) "piWaveTableIdsArray", .mk int "iArraySize"]),
  decl (Proto.mk BOOL "PFPI_qWSL" [.mk int "ID", .mk (ptr (const int)) "piWaveGeneratorIdsArray", .mk (ptr int) "piWaveTableIdsArray", .mk int "iArraySize"]),
  decl (Proto.mk BOOL "PFPI_DTC" [.mk int "ID", .mk (ptr (const int)) "piDdlTableIdsArray", .mk int "iArraySize"]),
  decl (Proto.mk BOOL "PFPI_qDTL" [.mk int "ID", .mk (ptr (const int)) "piDdlTableIdsArray", .mk (ptr int) "piValueArray", .mk int "iArraySize"]),
  decl (Proto.mk BOOL "PFPI_WCL" [.mk int "ID", .mk (ptr (const int)) "piWaveTableIdsArray", .mk int "iArraySize"]),
  decl (Proto.mk BOOL "PFPI_qTLT" [.mk int "ID", .mk (ptr int) "piNumberOfDdlTables"]),
  decl (Proto.mk BOOL "PFPI_qGWD_SYNC" [.mk int "ID", .mk int "iWaveTableId", .mk int "iOffsetOfFirstPointInWaveTable", .mk int "iNumberOfValues", .mk (ptr double) "pdValueArray"]),
  decl (Proto.mk BOOL "PFPI_qGWD" [.mk int "ID", .mk (ptr (const int)) "iWaveTableIdsArray", .mk int "iNumberOfWaveTables", .mk int "iOffset", .mk int "nrValues", .mk (ptr (ptr double)) "pdValarray", .mk (ptr char) "szGcsArrayHeader", .mk int "iGcsArrayHeaderMaxSize"]),
  decl (Proto.mk BOOL "PFPI_WOS" [.mk int "ID", .mk (ptr (const int)) "iWaveTableIdsArray", .mk (ptr (const double)) "pdValueArray", .mk int "iArraySize"]),
  decl (Proto.mk BOOL "PFPI_qWOS" [.mk int "ID", .mk (ptr (const int)) "iWaveTableIdsArray", .mk (ptr double) "pdValueArray", .mk int "iArraySize"]),
  decl (Proto.mk BOOL "PFPI_WTR" [.mk int "ID", .mk (ptr (const int)) "piWaveGeneratorIdsArray", .mk (ptr (const int)) "piTableRateArray", .mk (ptr (const int)) "piInterpolationTypeArray", .mk int "iArraySize"]),
  decl (Proto.mk BOOL "PFPI_qWTR" [.mk int "ID", .mk (ptr (const int)) "piWaveGeneratorIdsArray", .mk (ptr int) "piTableRateArray", .mk (ptr int) "piInterpolationTypeArray", .mk int "iArraySize"]),
  decl (Proto.mk BOOL "PFPI_DDL" [.mk int "ID", .mk int "iDdlTableId", .mk int "iOffsetOfFirstPointInDdlTable", .mk int "iNumberOfValues", .mk (ptr (const double)) "pdValueArray"]),
  decl (Proto.mk BOOL "PFPI_qDDL_SYNC" [.mk int "ID", .mk int "iDdlTableId", .mk int "iOffsetOfFirstPointInDdlTable", .mk int "iNumberOfValues", .mk (ptr double) "pdValueArray"]),
  decl (Proto.mk BOOL "PFPI_qDDL" [.mk int "ID", .mk (ptr (const int)) "iDdlTableIdsArray", .mk int "iNumberOfDdlTables", .mk int "iOffset", .mk int "nrValues", .mk (ptr (ptr double)) "pdValarray", .mk (ptr char) "szGcsArrayHeader", .mk int "iGcsArrayHeaderMaxSize"]),
  decl (Proto.mk BOOL "PFPI_DPO" [.mk int "ID", .mk (ptr (const char)) "szAxes"]),
  decl (Proto.mk BOOL "PFPI_qWMS" [.mk int "ID", .mk (ptr (const int)) "piWaveTableIds", .mk (ptr int) "iWaveTableMaximumSize", .mk int "iArraySize"])]

/-- Section "Trigger commands." of PI_GCS2_DLL_PF.h: the aliases of lines 368 to 376. -/
def triggerCommands : List Item := [
  decl (Proto.mk BOOL "PFPI_TWC" [.mk int "ID"]),
  decl (Proto.mk BOOL "PFPI_TWS" [.mk int "ID", .mk (ptr (const int)) "piTriggerChannelIdsArray", .mk (ptr (const int)) "piPointNumberArray", .mk (ptr (const int)) "piSwitchArray", .mk int "iArraySize"]),
  decl (Proto.mk BOOL "PFPI_qTWS" [.mk int "ID", .mk (ptr (const int)) "iTriggerChannelIdsArray", .mk int "iNumberOfTriggerChannels", .mk int "iOffset", .mk int "nrValues", .mk (ptr (ptr double)) "pdValarray", .mk (ptr char) "szGcsArrayHeader", .mk int "iGcsArrayHeaderMaxSize"]),
  decl (Proto.mk BOOL "PFPI_CTO" [.mk int "ID", .mk (ptr (const int)) "piTriggerOutputIdsArray", .mk (ptr (const int)) "piTriggerParameterArray", .mk (ptr (const double)) "pdValueArray", .mk int "iArraySize"]),
  decl (Proto.mk BOOL "PFPI_CTOString" [.mk int "ID", .mk (ptr (const int)) "piTriggerOutputIdsArray", .mk (ptr (const int)) "piTriggerParameterArray", .mk (ptr (const char)) "szValueArray", .mk int "iArraySize"]),
  decl (Proto.mk BOOL "PFPI_qCTO" [.mk int "ID", .mk (ptr (const int)) "piTriggerOutputIdsArray", .mk (ptr (const int)) "piTriggerParameterArray", .mk (ptr double) "pdValueArray", .mk int "iArraySize"]),
  decl (Proto.mk BOOL "PFPI_qCTOString" [.mk int "ID", .mk (ptr (const int)) "piTriggerOutputIdsArray", .mk (ptr (const int)) "piTriggerParameterArray", .mk (ptr char) "szValueArray", .mk int "iArraySize", .mk int "maxBufLen"]),
  decl (Proto.mk BOOL "PFPI_TRO" [.mk int "ID", .mk (ptr (const int)) "piTriggerChannelIds", .mk (ptr (const BOOL)) "pbTriggerChannelEnabel", .mk int "iArraySize"]),
  decl (Proto.mk BOOL "PFPI_qTRO" [.mk int "ID", .mk (ptr (const int)) "piTriggerChannelIds", .mk (ptr BOOL) "pbTriggerChannelEnabel", .mk int "iArraySize"])]

/-- Section "Record tabel commands." of PI_GCS2_DLL_PF.h: the aliases of lines 381 to 392. -/
def recordTableCommands : List Item := [
  decl (Proto.mk BOOL "PFPI_qHDR" [.mk int "ID", .mk (ptr char) "szBuffer", .mk int "iBufferSize"]),
  decl (Proto.mk BOOL "PFPI_qTNR" [.mk int "ID", .mk (ptr int) "piNumberOfRecordCannels"]),
  decl (Proto.mk BOOL "PFPI_DRC" [.mk int "ID", .mk (ptr (const int)) "piRecordTableIdsArray", .mk (ptr (const char)) "szRecordSourceIds", .mk (ptr (const int)) "piRecordOptionArray"]),
  decl (Proto.mk BOOL "PFPI_qDRC" [.mk int "ID", .mk (ptr (const int)) "piRecordTableIdsArray", .mk (ptr char) "szRecordSourceIds", .mk (ptr int) "piRecordOptionArray", .mk int "iRecordSourceIdsBufferSize", .mk int "iRecordOptionArraySize"]),
  decl (Proto.mk BOOL "PFPI_qDRR_SYNC" [.mk int "ID", .mk int "iRecordTablelId", .mk int "iOffsetOfFirstPointInRecordTable", .mk int "iNumberOfValues", .mk (ptr double) "pdValueArray"]),
  decl (Proto.mk BOOL "PFPI_qDRR" [.mk int "ID", .mk (ptr (const int)) "piRecTableIdIdsArray", .mk int "iNumberOfRecChannels", .mk int "iOffsetOfFirstPointInRecordTable", .mk int "iNumberOfValues", .mk (ptr (ptr double)) "pdValueArray", .mk (ptr char) "szGcsArrayHeader", .mk int "iGcsArrayHeaderMaxSize"]),
  decl (Proto.mk BOOL "PFPI_DRT" [.mk int "ID", .mk (ptr (const int)) "piRecordChannelIdsArray", .mk (ptr (const int)) "piTriggerSourceArray", .mk (ptr (const char)) "szValues", .mk int "iArraySize"]),
  decl (Proto.mk BOOL "PFPI_qDRT" [.mk int "ID", .mk (ptr (const int)) "piRecordChannelIdsArray", .mk (ptr int) "piTriggerSourceArray", .mk (ptr char) "szValues", .mk int "iArraySize", .mk int "iValueBufferLength"]),
  decl (Proto.mk BOOL "PFPI_RTR" [.mk int "ID", .mk int "piReportTableRate"]),
  decl (Proto.mk BOOL "PFPI_qRTR" [.mk int "ID", .mk (ptr int) "piReportTableRate"]),
  decl (Proto.mk BOOL "PFPI_WGR" [.mk int "ID"]),
  decl (Proto.mk BOOL "PFPI_qDRL" [.mk int "ID", .mk (ptr (const int)) "piRecordChannelIdsArray", .mk (ptr int) "piNuberOfRecordedValuesArray", .mk int "iArraySize"])]

/-- Section "Piezo-Channel commands." of PI_GCS2_DLL_PF.h: the aliases of lines 397 to 405. -/
def piezoChannelCommands : List Item := [
  decl (Proto.mk BOOL "PFPI_VMA" [.mk int "ID", .mk (ptr (const int)) "piPiezoChannelsArray", .mk (ptr (const double)) "pdValueArray", .mk int "iArraySize"]),
  decl (Proto.mk BOOL "PFPI_qVMA" [.mk int "ID", .mk (ptr (const int)) "piPiezoChannelsArray", .mk (ptr double) "pdValueArray", .mk int "iArraySize"]),
  decl (Proto.mk BOOL "PFPI_VMI" [.mk int "ID", .mk (ptr (const int)) "piPiezoChannelsArray", .mk (ptr (const double)) "pdValueArray", .mk int "iArraySize"]),
  decl (Proto.mk BOOL "PFPI_qVMI" [.mk int "ID", .mk (ptr (const int)) "piPiezoChannelsArray", .mk (ptr double) "pdValueArray", .mk int "iArraySize"]),
  decl (Proto.mk BOOL "PFPI_VOL" [.mk int "ID", .mk (ptr (const int)) "piPiezoChannelsArray", .mk (ptr (const double)) "pdValueArray", .mk int "iArraySize"]),
  decl (Proto.mk BOOL "PFPI_qVOL" [.mk int "ID", .mk (ptr (const int)) "piPiezoChannelsArray", .mk (ptr double) "pdValueArray", .mk int "iArraySize"]),
  decl (Proto.mk BOOL "PFPI_qTPC" [.mk int "ID", .mk (ptr int) "piNumberOfPiezoChannels"]),
  decl (Proto.mk BOOL "PFPI_ONL" [.mk int "ID", .mk (ptr (const int)) "iPiezoCannels", .mk (ptr (const int)) "piValueArray", .mk int "iArraySize"]),
  decl (Proto.mk BOOL "PFPI_qONL" [.mk int "ID", .mk (ptr (const int)) "iPiezoCannels", .mk (ptr int) "piValueArray", .mk int "iArraySize"])]

/-- Section "Sensor-Channel commands." of PI_GCS2_DLL_PF.h: the aliases of lines 410 to 415. -/
def sensorChannelCommands : List Item := [
  decl (Proto.mk BOOL "PFPI_qTAD" [.mk int "ID", .mk (ptr (const int)) "piSensorsChannelsArray", .mk (ptr int) "piValueArray", .mk int "iArraySize"]),
  decl (Proto.mk BOOL "PFPI_qTNS" [.mk int "ID", .mk (ptr (const int)) "piSensorsChannelsArray", .mk (ptr double) "pdValueArray", .mk int "iArraySize"]),
  decl (Proto.mk BOOL "PFPI_qTSP" [.mk int "ID", .mk (ptr (const int)) "piSensorsChannelsArray", .mk (ptr double) "pdValueArray", .mk int "iArraySize"]),
  decl (Proto.mk BOOL "PFPI_SCN" [.mk int "ID", .mk (ptr (const int)) "piSensorsChannelsArray", .mk (ptr (const int)) "piValueArray", .mk int "iArraySize"]),
  decl (Proto.mk BOOL "PFPI_qSCN" [.mk int "ID", .mk (ptr (const int)) "piSensorsChannelsArray", .mk (ptr int) "piValueArray", .mk int "iArraySize"]),
  decl (Proto.mk BOOL "PFPI_qTSC" [.mk int "ID", .mk (ptr int) "piNumberOfSensorChannels"])]

/-- Section "PIEZOWALK(R)-Channel commands." of PI_GCS2_DLL_PF.h: the aliases of lines 420 to 446. -/
def piezowalkChannelCommands : List Item := [
  decl (Proto.mk BOOL "PFPI_APG" [.mk int "ID", .mk (ptr (const int)) "piPIEZOWALKChannelsArray", .mk int "iArraySize"]),
  decl (Proto.mk BOOL "PFPI_qAPG" [.mk int "ID", .mk (ptr (const int)) "piPIEZOWALKChannelsArray", .mk (ptr int) "piValueArray", .mk int "iArraySize"]),
  decl (Proto.mk BOOL "PFPI_OAC" [.mk int "ID", .mk (ptr (const int)) "piPIEZOWALKChannelsArray", .mk (ptr (const double)) "pdValueArray", .mk int "iArraySize"]),
  decl (Proto.mk BOOL "PFPI_qOAC" [.mk int "ID", .mk (ptr (const int)) "piPIEZOWALKChannelsArray", .mk (ptr double) "pdValueArray", .mk int "iArraySize"]),
  decl (Proto.mk BOOL "PFPI_OAD" [.mk int "ID", .mk (ptr (const int)) "piPIEZOWALKChannelsArray", .mk (ptr (const double)) "pdValueArray", .mk int "iArraySize"]),
  decl (Proto.mk BOOL "PFPI_qOAD" [.mk int "ID", .mk (ptr (const int)) "piPIEZOWALKChannelsArray", .mk (ptr double) "pdValueArray", .mk int "iArraySize"]),
  decl (Proto.mk BOOL "PFPI_ODC" [.mk int "ID", .mk (ptr (const int)) "piPIEZOWALKChannelsArray", .mk (ptr (const double)) "pdValueArray", .mk int "iArraySize"]),
  decl (Proto.mk BOOL "PFPI_qODC" [.mk int "ID", .mk (ptr (const int)) "piPIEZOWALKChannelsArray", .mk (ptr double) "pdValueArray", .mk int "iArraySize"]),
  decl (Proto.mk BOOL "PFPI_OCD" [.mk int "ID", .mk (ptr (const int)) "piPIEZOWALKChannelsArray", .mk (ptr (const double)) "pdValueArray", .mk int "iArraySize"]),
  decl (Proto.mk BOOL "PFPI_qOCD" [.mk int "ID", .mk (ptr (const int)) "piPIEZOWALKChannelsArray", .mk (ptr double) "pdValueArray", .mk int "iArraySize"]),
  decl (Proto.mk BOOL "PFPI_OSM" [.mk int "ID", .mk (ptr (const int)) "piPIEZOWALKChannelsArray", .mk (ptr (const int)) "piValueArray", .mk int "iArraySize"]),
  decl (Proto.mk BOOL "PFPI_qOSM" [.mk int "ID", .mk (ptr (const int)) "piPIEZOWALKChannelsArray", .mk (ptr int) "piValueArray", .mk int "iArraySize"]),
  decl (Proto.mk BOOL "PFPI_OSMf" [.mk int "ID", .mk (ptr (const int)) "piPIEZOWALKChannelsArray", .mk (ptr (const double)) "pdValueArray", .mk int "iArraySize"]),
  decl (Proto.mk BOOL "PFPI_qOSMf" [.mk int "ID", .mk (ptr (const int)) "piPIEZOWALKChannelsArray", .mk (ptr double) "pdValueArray", .mk int "iArraySize"]),
  decl (Proto.mk BOOL "PFPI_OVL" [.mk int "ID", .mk (ptr (const int)) "piPIEZOWALKChannelsArray", .mk (ptr (const double)) "pdValueArray", .mk int "iArraySize"]),
  decl (Proto.mk BOOL "PFPI_qOVL" [.mk int "ID", .mk (ptr (const int)) "piPIEZOWALKChannelsArray", .mk (ptr double) "pdValueArray", .mk int "iArraySize"]),
  decl (Proto.mk BOOL "PFPI_qOSN" [.mk int "ID", .mk (ptr (const int)) "piPIEZOWALKChannelsArray", .mk (ptr int) "piValueArray", .mk int "iArraySize"]),
  decl (Proto.mk BOOL "PFPI_SSA" [.mk int "ID", .mk (ptr (const int)) "piPIEZOWALKChannelsArray", .mk (ptr (const double)) "pdValueArray", .mk int "iArraySize"]),
  decl (Proto.mk BOOL "PFPI_qSSA" [.mk int "ID", .mk (ptr (const int)) "piPIEZOWALKChannelsArray", .mk (ptr double) "pdValueArray", .mk int "iArraySize"]),
  decl (Proto.mk BOOL "PFPI_RNP" [.mk int "ID", .mk (ptr (const int)) "piPIEZOWALKChannelsArray", .mk (ptr (const double)) "pdValueArray", .mk int "iArraySize"]),
  decl (Proto.mk BOOL "PFPI_PGS" [.mk int "ID", .mk (ptr (const int)) "piPIEZOWALKChannelsArray", .mk int "iArraySize"]),
  decl (Proto.mk BOOL "PFPI_qTAC" [.mk int "ID", .mk (ptr int) "pnNrChannels"]),
  decl (Proto.mk BOOL "PFPI_qTAV" [.mk int "ID", .mk (ptr (const int)) "piChannelsArray", .mk (ptr double) "pdValueArray", .mk int "iArraySize"]),
  decl (Proto.mk BOOL "PFPI_OMA" [.mk int "ID", .mk (ptr (const char)) "szAxes", .mk (ptr (const double)) "pdValueArray"]),
  decl (Proto.mk BOOL "PFPI_qOMA" [.mk int "ID", .mk (ptr (const char)) "szAxes", .mk (ptr double) "pdValueArray"]),
  decl (Proto.mk BOOL "PFPI_OMR" [.mk int "ID", .mk (ptr (const char)) "szAxes", .mk (ptr (const double)) "pdValueArray"])]

/-- Section "Joystick" of PI_GCS2_DLL_PF.h: the aliases of lines 450 to 458. -/
def joystick : List Item := [
  decl (Proto.mk BOOL "PFPI_qJAS" [.mk int "ID", .mk (ptr (const int)) "iJoystickIDsArray", .mk (ptr (const int)) "iAxesIDsArray", .mk (ptr double) "pdValueArray", .mk int "iArraySize"]),
  decl (Proto.mk BOOL "PFPI_JAX" [.mk int "ID", .mk int "iJoystickID", .mk int "iAxesID", .mk (ptr (const char)) "szAxesBuffer"]),
  decl (Proto.mk BOOL "PFPI_qJAX" [.mk int "ID", .mk (ptr (const int)) "iJoystickIDsArray", .mk (ptr (const int)) "iAxesIDsArray", .mk int "iArraySize", .mk (ptr char) "szAxesBuffer", .mk int "iBufferSize"]),
  decl (Proto.mk BOOL "PFPI_qJBS" [.mk int "ID", .mk (ptr (const int)) "iJoystickIDsArray", .mk (ptr (const int)) "iButtonIDsArray", .mk (ptr BOOL) "pbValueArray", .mk int "iArraySize"]),
  decl (Proto.mk BOOL "PFPI_JDT" [.mk int "ID", .mk (ptr (const int)) "iJoystickIDsArray", .mk (ptr (const int)) "iAxisIDsArray", .mk (ptr (const int)) "piValueArray", .mk int "iArraySize"]),
  decl (Proto.mk BOOL "PFPI_JLT" [.mk int "ID", .mk int "iJoystickID", .mk int "iAxisID", .mk int "iStartAdress", .mk (ptr (const double)) "pdValueArray", .mk int "iArraySize"]),
  decl (Proto.mk BOOL "PFPI_qJLT" [.mk int "ID", .mk (ptr (const int)) "iJoystickIDsArray", .mk (ptr (const int)) "iAxisIDsArray", .mk int "iNumberOfTables", .mk int "iOffsetOfFirstPointInTable", .mk int "iNumberOfValues", .mk (ptr (ptr double)) "pdValueArray", .mk (ptr char) "szGcsArrayHeader", .mk int "iGcsArrayHeaderMaxSize"]),
  decl (Proto.mk BOOL "PFPI_JON" [.mk int "ID", .mk (ptr (const int)) "iJoystickIDsArray", .mk (ptr (const BOOL)) "pbValueArray", .mk int "iArraySize"]),
  decl (Proto.mk BOOL "PFPI_qJON" [.mk int "ID", .mk (ptr (const int)) "iJoystickIDsArray", .mk (ptr BOOL) "pbValueArray", .mk int "iArraySize"])]

/-- Section "fast scan commands" of PI_GCS2_DLL_PF.h: the aliases of lines 462 to 469. -/
def fastScanCommands : List Item := [
  decl (Proto.mk BOOL "PFPI_AAP" [.mk int "ID", .mk (ptr (const char)) "szAxis1", .mk double "dLength1", .mk (ptr (const char)) "szAxis2", .mk double "dLength2", .mk double "dAlignStep", .mk int "iNrRepeatedPositions", .mk int "iAnalogInput"]),
  decl (Proto.mk BOOL "PFPI_FIO" [.mk int "ID", .mk (ptr (const char)) "szAxis1", .mk double "dLength1", .mk (ptr (const char)) "szAxis2", .mk double "dLength2", .mk double "dThreshold", .mk double "dLinearStep", .mk double "dAngleScan", .mk int "iAnalogInput"]),
  decl (Proto.mk BOOL "PFPI_FLM" [.mk int "ID", .mk (ptr (const char)) "szAxis", .mk double "dLength", .mk double "dThreshold", .mk int "iAnalogInput", .mk int "iDirection"]),
  decl (Proto.mk BOOL "PFPI_FLS" [.mk int "ID", .mk (ptr (const char)) "szAxis", .mk double "dLength", .mk double "dThreshold", .mk int "iAnalogInput", .mk int "iDirection"]),
  decl (Proto.mk BOOL "PFPI_FSA" [.mk int "ID", .mk (ptr (const char)) "szAxis1", .mk double "dLength1", .mk (ptr (const char)) "szAxis2", .mk double "dLength2", .mk double "dThreshold", .mk double "dDistance", .mk double "dAlignStep", .mk int "iAnalogInput"]),
  decl (Proto.mk BOOL "PFPI_FSC" [.mk int "ID", .mk (ptr (const char)) "szAxis1", .mk double "dLength1", .mk (ptr (const char)) "szAxis2", .mk double "dLength2", .mk double "dThreshold", .mk double "dDistance", .mk int "iAnalogInput"]),
  decl (Proto.mk BOOL "PFPI_FSM" [.mk int "ID", .mk (ptr (const char)) "szAxis1", .mk double "dLength1", .mk (ptr (const char)) "szAxis2", .mk double "dLength2", .mk double "dThreshold", .mk double "dDistance", .mk int "iAnalogInput"]),
  decl (Proto.mk BOOL "PFPI_qFSS" [.mk int "ID", .mk (ptr int) "piResult"])]

/-- Section "optical boards (hexapod)" of PI_GCS2_DLL_PF.h: the aliases of lines 473 to 478. -/
def opticalBoards : List Item := [
  decl (Proto.mk BOOL "PFPI_SGA" [.mk int "ID", .mk (ptr (const int)) "piAnalogChannelIds", .mk (ptr (const int)) "piGainValues", .mk int "iArraySize"]),
  decl (Proto.mk BOOL "PFPI_qSGA" [.mk int "ID", .mk (ptr (const int)) "piAnalogChannelIds", .mk (ptr int) "piGainValues", .mk int "iArraySize"]),
  decl (Proto.mk BOOL "PFPI_NAV" [.mk int "ID", .mk (ptr (const int)) "piAnalogChannelIds", .mk (ptr (const int)) "piNrReadingsValues", .mk int "iArraySize"]),
  decl (Proto.mk BOOL "PFPI_qNAV" [.mk int "ID", .mk (ptr (const int)) "piAnalogChannelIds", .mk (ptr int) "piNrReadingsValues", .mk int "iArraySize"]),
  decl (Proto.mk BOOL "PFPI_GetDynamicMoveBufferSize" [.mk int "ID", .mk (ptr int) "iSize"])]

/-- Section "PIShift" of PI_GCS2_DLL_PF.h: the aliases of lines 482 to 487. -/
def piShift : List Item := [
  decl (Proto.mk BOOL "PFPI_qCOV" [.mk int "ID", .mk (ptr (const int)) "piChannelsArray", .mk (ptr double) "pdValueArray", .mk int "iArraySize"]),
  decl (Proto.mk BOOL "PFPI_MOD" [.mk int "ID", .mk (ptr (const char)) "szItems", .mk (ptr (const unsigned_int)) "iModeArray", .mk (ptr (const char)) "szValues"]),
  decl (Proto.mk BOOL "PFPI_qMOD" [.mk int "ID", .mk (ptr (const char)) "szItems", .mk (ptr (const unsigned_int)) "iModeArray", .mk (ptr char) "szValues", .mk int "iMaxValuesSize"]),
  decl (Proto.mk BOOL "PFPI_qDIA" [.mk int "ID", .mk (ptr (const unsigned_int)) "iIDArray", .mk (ptr char) "szValues", .mk int "iBufferSize", .mk int "iArraySize"]),
  decl (Proto.mk BOOL "PFPI_qHDI" [.mk int "ID", .mk (ptr char) "szBuffer", .mk int "iBufferSize"])]

/-- Section "HID" of PI_GCS2_DLL_PF.h: the aliases of lines 491 to 504. -/
def hid : List Item := [
  decl (Proto.mk BOOL "PFPI_qHIS" [.mk int "ID", .mk (ptr char) "szBuffer", .mk int "iBufferSize"]),
  decl (Proto.mk BOOL "PFPI_HIS" [.mk int "ID", .mk (ptr (const int)) "iDeviceIDsArray", .mk (ptr (const int)) "iItemIDsArray", .mk (ptr (const int)) "iPropertyIDArray", .mk (ptr (const char)) "szValues", .mk int "iArraySize"]),
  decl (Proto.mk BOOL "PFPI_qHIE" [.mk int "ID", .mk (ptr (const int)) "iDeviceIDsArray", .mk (ptr (const int)) "iAxesIDsArray", .mk (ptr double) "pdValueArray", .mk int "iArraySize"]),
  decl (Proto.mk BOOL "PFPI_qHIB" [.mk int "ID", .mk (ptr (const int)) "iDeviceIDsArray", .mk (ptr (const int)) "iButtonIDsArray", .mk (ptr int) "pbValueArray", .mk int "iArraySize"]),
  decl (Proto.mk BOOL "PFPI_HIL" [.mk int "ID", .mk (ptr (const int)) "iDeviceIDsArray", .mk (ptr (const int)) "iLED_IDsArray", .mk (ptr (const int)) "pnValueArray", .mk int "iArraySize"]),
  decl (Proto.mk BOOL "PFPI_qHIL" [.mk int "ID", .mk (ptr (const int)) "iDeviceIDsArray", .mk (ptr (const int)) "iLED_IDsArray", .mk (ptr int) "pnValueArray", .mk int "iArraySize"]),
  decl (Proto.mk BOOL "PFPI_HIN" [.mk int "ID", .mk (ptr (const char)) "szAxes", .mk (ptr (const BOOL)) "pbValueArray"]),
  decl (Proto.mk BOOL "PFPI_qHIN" [.mk int "ID", .mk (ptr (const char)) "szAxes", .mk (ptr BOOL) "pbValueArray"]),
  decl (Proto.mk BOOL "PFPI_HIA" [.mk int "ID", .mk (ptr (const char)) "szAxes", .mk (ptr (const int)) "iFunctionArray", .mk (ptr (const int)) "iDeviceIDsArray", .mk (ptr (const int)) "iAxesIDsArray"]),
  decl (Proto.mk BOOL "PFPI_qHIA" [.mk int "ID", .mk (ptr (const char)) "szAxes", .mk (ptr (const int)) "iFunctionArray", .mk (ptr int) "iDeviceIDsArray", .mk (ptr int) "iAxesIDsArray"]),
  decl (Proto.mk BOOL "PFPI_HDT" [.mk int "ID", .mk (ptr (const int)) "iDeviceIDsArray", .mk (ptr (const int)) "iAxisIDsArray", .mk (ptr (const int)) "piValueArray", .mk int "iArraySize"]),
  decl (Proto.mk BOOL "PFPI_qHDT" [.mk int "ID", .mk (ptr (const int)) "iDeviceIDsArray", .mk (ptr (const int)) "iAxisIDsArray", .mk (ptr int) "piValueArray", .mk int "iArraySize"]),
  decl (Proto.mk BOOL "PFPI_HIT" [.mk int "ID", .mk (ptr (const int)) "piTableIdsArray", .mk (ptr (const int)) "piPointNumberArray", .mk (ptr (const double)) "pdValueArray", .mk int "iArraySize"]),
  decl (Proto.mk BOOL "PFPI_qHIT" [.mk int "ID", .mk (ptr (const int)) "piTableIdsArray", .mk int "iNumberOfTables", .mk int "iOffsetOfFirstPointInTable", .mk int "iNumberOfValues", .mk (ptr (ptr double)) "pdValueArray", .mk (ptr char) "szGcsArrayHeader", .mk int "iGcsArrayHeaderMaxSize"])]

/-- Untitled section opened by the separator on line 506 of PI_GCS2_DLL_PF.h: the aliases of lines 507 to 507. -/
def untitled506 : List Item := [
  decl (Proto.mk BOOL "PFPI_qMAN" [.mk int "ID", .mk (ptr (const char)) "szCommand", .mk (ptr char) "szBuffer", .mk int "iBufferSize"])]

/-- Section "Spezial" of PI_GCS2_DLL_PF.h: the aliases of lines 512 to 522. -/
def spezial : List Item := [
  decl (Proto.mk BOOL "PFPI_GetSupportedFunctions" [.mk int "ID", .mk (ptr int) "piCommandLevelArray", .mk (const int) "iiBufferSize", .mk (ptr char) "szFunctionNames", .mk (const int) "iMaxFunctioNamesLength"]),
  decl (Proto.mk BOOL "PFPI_GetSupportedParameters" [.mk int "ID", .mk (ptr int) "piParameterIdArray", .mk (ptr int) "piCommandLevelArray", .mk (ptr int) "piMemoryLocationArray", .mk (ptr int) "piDataTypeArray", .mk (ptr int) "piNumberOfItems", .mk (const int) "iiBufferSize", .mk (ptr char) "szParameterName", .mk (const int) "iMaxParameterNameSize"]),
  decl (Proto.mk BOOL "PFPI_GetSupportedControllers" [.mk (ptr char) "szBuffer", .mk int "iBufferSize"]),
  decl (Proto.mk int "PFPI_GetAsyncBufferIndex" [.mk int "ID"]),
  decl (Proto.mk BOOL "PFPI_GetAsyncBuffer" [.mk int "ID", .mk (ptr (ptr double)) "pdValueArray"]),
  decl (Proto.mk BOOL "PFPI_AddStage" [.mk int "ID", .mk (ptr (const char)) "szAxes"]),
  decl (Proto.mk BOOL "PFPI_RemoveStage" [.mk int "ID", .mk (ptr (const char)) "szStageName"]),
  decl (Proto.mk BOOL "PFPI_OpenUserStagesEditDialog" [.mk int "ID"]),
  decl (Proto.mk BOOL "PFPI_OpenPiStagesEditDialog" [.mk int "ID"])]

/-- Section "for internal use" of PI_GCS2_DLL_PF.h: the aliases of lines 527 to 528. -/
def internalUse : List Item := [
  decl (Proto.mk BOOL "PFPI_DisableSingleStagesDatFiles" [.mk int "ID", .mk BOOL "bDisable"]),
  decl (Proto.mk BOOL "PFPI_DisableUserStagesDatFiles" [.mk int "ID", .mk BOOL "bDisable"])]

/-- The declaration part of PI_GCS2_DLL_PF.h (lines 96 to 528), section by section. -/
def items : List Item :=
  commFunctions ++ general ++ macroCommands ++ stringCommands ++ limits ++
    waveCommands ++ triggerCommands ++ recordTableCommands ++ piezoChannelCommands ++
    sensorChannelCommands ++ piezowalkChannelCommands ++ joystick ++ fastScanCommands ++
    opticalBoards ++ piShift ++ hid ++ untitled506 ++ spezial ++ internalUse

/-- The aliases PI_GCS2_DLL_PF.h declares when WIN32 is defined (`win32 = true`)
or undefined (`win32 = false`), in source order. -/
def declared (win32 : Bool) : List Proto :=
  declaredOf win32 items

end PI_GCS2_DLL_PF

/-! ## Flag lists -/

namespace PI_GCS2_DLL

/-- The ten wave-generator start-mode constants `PI_BIT_WGO_*` of PI_GCS2_DLL.h
(lines 64 to 73), in source order. -/
def wgoFlags : List Nat :=
  [PI_BIT_WGO_START_DEFAULT, PI_BIT_WGO_START_EXTERN_TRIGGER,
    PI_BIT_WGO_WITH_DDL_INITIALISATION, PI_BIT_WGO_WITH_DDL,
    PI_BIT_WGO_START_AT_ENDPOSITION, PI_BIT_WGO_SINGLE_RUN_DDL_TEST,
    PI_BIT_WGO_EXTERN_WAVE_GENERATOR, PI_BIT_WGO_SAVE_BIT_1, PI_BIT_WGO_SAVE_BIT_2,
    PI_BIT_WGO_SAVE_BIT_3]

/-- The four wave-trigger line constants of PI_GCS2_DLL.h (lines 76 to 79). -/
def trgLines : List Nat :=
  [PI_BIT_TRG_LINE_1, PI_BIT_TRG_LINE_2, PI_BIT_TRG_LINE_3, PI_BIT_TRG_LINE_4]

end PI_GCS2_DLL

namespace PI_GCS2_DLL_PF

/-- The ten wave-generator start-mode constants `PI_BIT_WGO_*` of
PI_GCS2_DLL_PF.h (lines 55 to 64), in source order. -/
def wgoFlags : List Nat :=
  [PI_BIT_WGO_START_DEFAULT, PI_BIT_WGO_START_EXTERN_TRIGGER,
    PI_BIT_WGO_WITH_DDL_INITIALISATION, PI_BIT_WGO_WITH_DDL,
    PI_BIT_WGO_START_AT_ENDPOSITION, PI_BIT_WGO_SINGLE_RUN_DDL_TEST,
    PI_BIT_WGO_EXTERN_WAVE_GENERATOR, PI_BIT_WGO_SAVE_BIT_1, PI_BIT_WGO_SAVE_BIT_2,
    PI_BIT_WGO_SAVE_BIT_3]

/-- The four wave-trigger line constants of PI_GCS2_DLL_PF.h (lines 67 to 70). -/
def trgLines : List Nat :=
  [PI_BIT_TRG_LINE_1, PI_BIT_TRG_LINE_2, PI_BIT_TRG_LINE_3, PI_BIT_TRG_LINE_4]

end PI_GCS2_DLL_PF

/-! ## Code tables and name keys -/

namespace PI_GCS2_DLL

/-- The `PI_DRC_*` macros of PI_GCS2_DLL.h (lines 83 to 91) with their values,
in source order. -/
def drcCodes : List (String × Nat) :=
  constants.filter (fun e => GCS2.startsWith "PI_DRC_" e.1)

/-- The `PI_PIF_DT_*` macros of PI_GCS2_DLL.h (lines 100 to 102) with their
values, in source order. -/
def dataTypeCodes : List (String × Nat) :=
  constants.filter (fun e => GCS2.startsWith "PI_PIF_DT_" e.1)

end PI_GCS2_DLL

namespace PI_GCS2_DLL_PF

/-- The `PI_DRC_*` macros of PI_GCS2_DLL_PF.h (lines 74 to 82) with their
values, in source order. -/
def drcCodes : List (String × Nat) :=
  constants.filter (fun e => GCS2.startsWith "PI_DRC_" e.1)

/-- The `PI_PIF_DT_*` macros of PI_GCS2_DLL_PF.h (lines 91 to 93) with their
values, in source order. -/
def dataTypeCodes : List (String × Nat) :=
  constants.filter (fun e => GCS2.startsWith "PI_PIF_DT_" e.1)

end PI_GCS2_DLL_PF

namespace GCS2

/-- A number read off the characters of a name (base 256 over the character
codes); names with different keys are different names. -/
def nameKey (s : String) : Nat :=
  s.toList.foldl (fun acc c => acc * 256 + c.toNat) 0

/-- Whether the numbers of a list are pairwise different. -/
def allDistinct : List Nat → Bool
  | [] => true
  | k :: rest => !(rest.elem k) && allDistinct rest

/-- Whether the numbers of a list are pairwise different, checked residue class
by residue class modulo `m` (equal numbers fall in the same class). -/
def distinctByResidue (m : Nat) (l : List Nat) : Bool :=
  (List.range m).all (fun r => allDistinct (l.filter (fun k => k % m == r)))

/-- The declarations of `l` whose name is not in `names`. -/
def withoutNames (names : List String) (l : List Proto) : List Proto :=
  l.filter (fun p => decide (p.name ∉ names))

end GCS2

namespace GCS2

/-! ## Bitwise OR of flag lists -/

theorem or_eq_zero_iff (a b : Nat) : a ||| b = 0 ↔ a = 0 ∧ b = 0 := by
  constructor
  · intro h
    have key : ∀ i, (a.testBit i || b.testBit i) = false := by
      intro i
      rw [← Nat.testBit_or, h, Nat.zero_testBit]
    constructor
    · apply Nat.eq_of_testBit_eq
      intro i
      have := key i
      simp only [Bool.or_eq_false_iff] at this
      rw [this.1, Nat.zero_testBit]
    · apply Nat.eq_of_testBit_eq
      intro i
      have := key i
      simp only [Bool.or_eq_false_iff] at this
      rw [this.2, Nat.zero_testBit]
  · rintro ⟨rfl, rfl⟩
    rfl

theorem or_and_ne_zero_iff (a b c : Nat) :
    (a ||| b) &&& c ≠ 0 ↔ a &&& c ≠ 0 ∨ b &&& c ≠ 0 := by
  rw [Nat.and_comm (a ||| b) c, Nat.and_or_distrib_left, Nat.and_comm c a, Nat.and_comm c b,
    Ne, or_eq_zero_iff]
  tauto

/-- In a list of flags where two members overlap only when they are equal, a
member belongs to a sub-list exactly when its bit survives in the OR of the
sub-list. -/
theorem mem_iff_orAll_and_ne_zero (l : List Nat)
    (hl : ∀ a ∈ l, ∀ b ∈ l, (a &&& b ≠ 0 ↔ a = b)) :
    ∀ S : List Nat, S ⊆ l → ∀ c ∈ l, (c ∈ S ↔ orAll S &&& c ≠ 0) := by
  intro S
  induction S with
  | nil => intro _ c _; simp [orAll]
  | cons a S ih =>
    intro hS c hc
    have ha : a ∈ l := hS (List.mem_cons_self a S)
    have hS2 : S ⊆ l := fun x hx => hS (List.mem_cons_of_mem a hx)
    rw [orAll, or_and_ne_zero_iff, List.mem_cons, hl a ha c hc, ← ih hS2 c hc]
    constructor
    · rintro (h | h)
      · exact Or.inl h.symm
      · exact Or.inr h
    · rintro (h | h)
      · exact Or.inl h.symm
      · exact Or.inr h

/-- The OR of a sub-list of such a flag list determines which flags are in it. -/
theorem orAll_determines (l : List Nat)
    (hl : ∀ a ∈ l, ∀ b ∈ l, (a &&& b ≠ 0 ↔ a = b))
    (S T : List Nat) (hS : S ⊆ l) (hT : T ⊆ l) (h : orAll S = orAll T) :
    ∀ c, c ∈ S ↔ c ∈ T := by
  intro c
  constructor
  · intro hc
    have hcl := hS hc
    rw [mem_iff_orAll_and_ne_zero l hl T hT c hcl, ← h,
      ← mem_iff_orAll_and_ne_zero l hl S hS c hcl]
    exact hc
  · intro hc
    have hcl := hT hc
    rw [mem_iff_orAll_and_ne_zero l hl S hS c hcl, h,
      ← mem_iff_orAll_and_ne_zero l hl T hT c hcl]
    exact hc

theorem three_ne_two_pow (k : Nat) : 3 ≠ 2 ^ k := by
  cases k with
  | zero => decide
  | succ n => rw [pow_succ]; omega

/-- In a table whose keys are pairwise different a key has one value. -/
theorem nodup_keys_unique {α : Type} (l : List (String × α))
    (h : (l.map Prod.fst).Nodup) (n : String) (v w : α)
    (hv : (n, v) ∈ l) (hw : (n, w) ∈ l) : v = w := by
  induction l with
  | nil => cases hv
  | cons x l ih =>
    rw [List.map_cons, List.nodup_cons] at h
    rw [List.mem_cons] at hv hw
    rcases hv with hv | hv <;> rcases hw with hw | hw
    · rw [← hv] at hw
      exact (Prod.mk.inj hw).2.symm ▸ rfl
    · exact absurd (List.mem_map.mpr ⟨(n, w), hw, by rw [← hv]⟩) h.1
    · exact absurd (List.mem_map.mpr ⟨(n, v), hv, by rw [← hw]⟩) h.1
    · exact ih h.2 hv hw

/-! ## Declarations -/

theorem lookup_name {n : String} {l : List Proto} {f : Proto}
    (h : lookup n l = some f) : f.name = n := by
  induction l with
  | nil => simp [lookup] at h
  | cons p rest ih =>
    unfold lookup at h
    split at h
    · rename_i hp
      cases h
      exact hp
    · exact ih h

theorem lookup_mem {n : String} {l : List Proto} {f : Proto}
    (h : lookup n l = some f) : f ∈ l := by
  induction l with
  | nil => simp [lookup] at h
  | cons p rest ih =>
    unfold lookup at h
    split at h
    · cases h
      exact List.mem_cons_self _ _
    · exact List.mem_cons_of_mem _ (ih h)

theorem hasMatchingPrototype_spec {protos : List Proto} {a : Proto}
    (h : hasMatchingPrototype protos a = true) :
    ∃ n f, aliasTarget a.name = some n ∧ lookup n protos = some f ∧ f ∈ protos ∧
      f.name = n ∧ f.ret = a.ret ∧ f.paramTypes = a.paramTypes := by
  unfold hasMatchingPrototype at h
  split at h
  · cases h
  · rename_i n hn
    split at h
    · cases h
    · rename_i f hf
      simp only [Bool.and_eq_true, decide_eq_true_eq] at h
      exact ⟨n, f, hn, hf, lookup_mem hf, lookup_name hf, h.1, h.2⟩

theorem scanFor_spec {n : String} {a : Proto} {ps ps2 : List Proto}
    (h : scanFor n a ps = some ps2) :
    (∃ f ∈ ps, f.name = n ∧ f.ret = a.ret ∧ f.paramTypes = a.paramTypes) ∧
      ∀ f ∈ ps2, f ∈ ps := by
  induction ps with
  | nil => simp [scanFor] at h
  | cons p rest ih =>
    unfold scanFor at h
    split at h
    · rename_i hp
      cases h
      exact ⟨⟨p, List.mem_cons_self _ _, hp⟩, fun f hf => List.mem_cons_of_mem _ hf⟩
    · obtain ⟨⟨f, hf, hprop⟩, hsub⟩ := ih h
      exact ⟨⟨f, List.mem_cons_of_mem _ hf, hprop⟩,
        fun g hg => List.mem_cons_of_mem _ (hsub g hg)⟩

theorem matchForward_spec (skip : String) (all : List Proto) :
    ∀ (aliases ps : List Proto), (∀ f ∈ ps, f ∈ all) →
      matchForward skip all aliases ps = true →
      ∀ a ∈ aliases, a.name ≠ skip →
        ∃ n f, aliasTarget a.name = some n ∧ f ∈ all ∧ f.name = n ∧
          f.ret = a.ret ∧ f.paramTypes = a.paramTypes := by
  intro aliases
  induction aliases with
  | nil => intro _ _ _ a ha; cases ha
  | cons b rest ih =>
    intro ps hps h a ha hne
    unfold matchForward at h
    split at h
    · rename_i hb
      rcases List.mem_cons.mp ha with rfl | ha2
      · exact absurd hb hne
      · exact ih ps hps h a ha2 hne
    · split at h
      · rename_i ps2 hscan
        obtain ⟨n, hn, hs⟩ := Option.bind_eq_some.mp hscan
        obtain ⟨⟨f, hf, hprop⟩, hsub⟩ := scanFor_spec hs
        rcases List.mem_cons.mp ha with rfl | ha2
        · exact ⟨n, f, hn, hps f hf, hprop⟩
        · exact ih ps2 (fun g hg => hps g (hsub g hg)) h a ha2 hne
      · rw [Bool.and_eq_true] at h
        rcases List.mem_cons.mp ha with rfl | ha2
        · obtain ⟨n, f, hn, _, hf, hrest⟩ := hasMatchingPrototype_spec h.1
          exact ⟨n, f, hn, hf, hrest⟩
        · exact ih ps hps h.2 a ha2 hne

/-- Claim C1, evaluated on the code: for either WIN32 setting PI_GCS2_DLL_PF.h
declares the alias `PFPI_GetSupportedFunctions` while PI_GCS2_DLL.h declares no
function `PI_GetSupportedFunctions`; every other alias `PFPI_<name>` has a
function `PI_<name>` in PI_GCS2_DLL.h with the same return type and the same
parameter types in the same order. -/
theorem C1_alias_GetSupportedFunctions_unmatched (win32 : Bool) :
    (∃ a ∈ PI_GCS2_DLL_PF.declared win32, a.name = "PFPI_GetSupportedFunctions" ∧
      aliasTarget a.name = some "PI_GetSupportedFunctions") ∧
    (∀ f ∈ PI_GCS2_DLL.declared win32, f.name ≠ "PI_GetSupportedFunctions") ∧
    (∀ a ∈ PI_GCS2_DLL_PF.declared win32, a.name ≠ "PFPI_GetSupportedFunctions" →
      ∃ n f, aliasTarget a.name = some n ∧ f ∈ PI_GCS2_DLL.declared win32 ∧ f.name = n ∧
        f.ret = a.ret ∧ f.paramTypes = a.paramTypes) := by
  have h1 : ∀ w : Bool, ∃ a ∈ PI_GCS2_DLL_PF.declared w,
      a.name = "PFPI_GetSupportedFunctions" ∧
      aliasTarget a.name = some "PI_GetSupportedFunctions" := by
    intro w
    refine ⟨Proto.mk .BOOL "PFPI_GetSupportedFunctions"
      [.mk .int "ID", .mk (.ptr .int) "piCommandLevelArray", .mk (.const .int) "iiBufferSize",
        .mk (.ptr .char) "szFunctionNames", .mk (.const .int) "iMaxFunctioNamesLength"],
      ?_, rfl, by decide!⟩
    cases w <;> decide!
  have h2 : ∀ w : Bool, ∀ f ∈ PI_GCS2_DLL.declared w,
      f.name ≠ "PI_GetSupportedFunctions" := by decide!
  have h3 : ∀ w : Bool, matchForward "PFPI_GetSupportedFunctions" (PI_GCS2_DLL.declared w)
      (PI_GCS2_DLL_PF.declared w) (PI_GCS2_DLL.declared w) = true := by decide!
  exact ⟨h1 win32, h2 win32,
    matchForward_spec _ _ _ _ (fun _ hf => hf) (h3 win32)⟩

/-- Claim C2: in both headers, for either WIN32 setting, every declaration
returns `int`, `BOOL` or `void`, and every parameter type is one of the six
scalars (`int`, `unsigned int`, `BOOL`, `double`, `char`, `__int64`), a pointer
to a possibly-const such scalar, or `double**`.  The parameter type is the one in
the function type: the top-level `const` of the eight by-value `const int` and
`const double` parameters is dropped.  In particular no parameter is a `void*`;
structs, function pointers and variadic lists do not occur at all (the type
grammar needed no constructor for them). -/
theorem C2_return_and_parameter_types (win32 : Bool) (p : Proto)
    (hp : p ∈ PI_GCS2_DLL.declared win32 ∨ p ∈ PI_GCS2_DLL_PF.declared win32) :
    p.ret.isIntBoolVoid = true ∧
    (∀ t ∈ p.signatureParamTypes, t.isStatedParamType = true) ∧
    (∀ q ∈ p.params, q.type.unqualified.isStatedParamType = true) := by
  have hD : ∀ w : Bool, ∀ p ∈ PI_GCS2_DLL.declared w,
      p.ret.isIntBoolVoid = true ∧
      ∀ t ∈ p.signatureParamTypes, t.isStatedParamType = true := by
    decide!
  have hP : ∀ w : Bool, ∀ p ∈ PI_GCS2_DLL_PF.declared w,
      p.ret.isIntBoolVoid = true ∧
      ∀ t ∈ p.signatureParamTypes, t.isStatedParamType = true := by
    decide!
  have h : p.ret.isIntBoolVoid = true ∧
      ∀ t ∈ p.signatureParamTypes, t.isStatedParamType = true := by
    rcases hp with hp | hp
    · exact hD win32 p hp
    · exact hP win32 p hp
  exact ⟨h.1, h.2, fun q hq => h.2 _ (List.mem_map.mpr ⟨q, hq, rfl⟩)⟩

/-- Witness for C2 at `PI_FDR` (PI_GCS2_DLL.h line 534), which takes two
`const double` parameters by value: in its function type they are `double`. -/
theorem C2_return_and_parameter_types_witness :
    Proto.mk .BOOL "PI_FDR" [.mk .int "ID", .mk (.ptr (.const .char)) "szScanRoutineName",
        .mk (.ptr (.const .char)) "szScanAxis", .mk (.const .double) "dScanAxisRange",
        .mk (.ptr (.const .char)) "szStepAxis", .mk (.const .double) "dStepAxisRange",
        .mk (.ptr (.const .char)) "szParameters"] ∈ PI_GCS2_DLL.declared true ∧
    (Proto.mk .BOOL "PI_FDR" [.mk .int "ID", .mk (.ptr (.const .char)) "szScanRoutineName",
        .mk (.ptr (.const .char)) "szScanAxis", .mk (.const .double) "dScanAxisRange",
        .mk (.ptr (.const .char)) "szStepAxis", .mk (.const .double) "dStepAxisRange",
        .mk (.ptr (.const .char)) "szParameters"]).signatureParamTypes
      = [.int, .ptr (.const .char), .ptr (.const .char), .double, .ptr (.const .char),
        .double, .ptr (.const .char)] ∧
    CType.BOOL.isIntBoolVoid = true ∧
    ∀ t ∈ [CType.int, .ptr (.const .char), .ptr (.const .char), .double,
        .ptr (.const .char), .double, .ptr (.const .char)], t.isStatedParamType = true :=
  ⟨by decide!, by decide,
    (C2_return_and_parameter_types true
      (Proto.mk .BOOL "PI_FDR" [.mk .int "ID", .mk (.ptr (.const .char)) "szScanRoutineName",
        .mk (.ptr (.const .char)) "szScanAxis", .mk (.const .double) "dScanAxisRange",
        .mk (.ptr (.const .char)) "szStepAxis", .mk (.const .double) "dStepAxisRange",
        .mk (.ptr (.const .char)) "szParameters"])
      (Or.inl (by decide!))).1,
    (C2_return_and_parameter_types true
      (Proto.mk .BOOL "PI_FDR" [.mk .int "ID", .mk (.ptr (.const .char)) "szScanRoutineName",
        .mk (.ptr (.const .char)) "szScanAxis", .mk (.const .double) "dScanAxisRange",
        .mk (.ptr (.const .char)) "szStepAxis", .mk (.const .double) "dStepAxisRange",
        .mk (.ptr (.const .char)) "szParameters"])
      (Or.inl (by decide!))).2.1⟩

/-! ## Constants -/

/-- Claim C3, evaluated on the code: in both headers `PI_BIT_TRG_LINE_3` is
`0x0003`.  It is not a single-bit value, it shares a bit with `PI_BIT_TRG_LINE_1`
and with `PI_BIT_TRG_LINE_2`, and the OR of lines 1 and 2 equals the OR of line 3
alone, so the OR of a set of lines does not determine the set.  The other three
line constants are the single bits 1, 2 and 8. -/
theorem C3_trg_line_3_not_single_bit :
    PI_GCS2_DLL.PI_BIT_TRG_LINE_3 = 3 ∧ PI_GCS2_DLL_PF.PI_BIT_TRG_LINE_3 = 3 ∧
    (¬ ∃ k, PI_GCS2_DLL.PI_BIT_TRG_LINE_3 = 2 ^ k) ∧
    PI_GCS2_DLL.PI_BIT_TRG_LINE_1 &&& PI_GCS2_DLL.PI_BIT_TRG_LINE_3 = 1 ∧
    PI_GCS2_DLL.PI_BIT_TRG_LINE_2 &&& PI_GCS2_DLL.PI_BIT_TRG_LINE_3 = 2 ∧
    orAll [PI_GCS2_DLL.PI_BIT_TRG_LINE_1, PI_GCS2_DLL.PI_BIT_TRG_LINE_2]
      = orAll [PI_GCS2_DLL.PI_BIT_TRG_LINE_3] ∧
    PI_GCS2_DLL.PI_BIT_TRG_LINE_1 = 2 ^ 0 ∧ PI_GCS2_DLL.PI_BIT_TRG_LINE_2 = 2 ^ 1 ∧
    PI_GCS2_DLL.PI_BIT_TRG_LINE_4 = 2 ^ 3 ∧
    PI_GCS2_DLL_PF.trgLines = PI_GCS2_DLL.trgLines := by
  refine ⟨rfl, rfl, ?_, by decide, by decide, by decide, by decide, by decide, by decide,
    by decide⟩
  rintro ⟨k, hk⟩
  exact three_ne_two_pow k hk

/-- Claim C4: in both headers each of the ten `PI_BIT_WGO_*` constants is a
single bit below `2^32`, two distinct constants have bitwise AND 0, and for
sub-lists `S`, `T` of the ten constants equal ORs mean the same members. -/
theorem C4_wgo_bit_flags :
    BitFlagList PI_GCS2_DLL.wgoFlags ∧ PI_GCS2_DLL.wgoFlags.length = 10 ∧
    BitFlagList PI_GCS2_DLL_PF.wgoFlags ∧ PI_GCS2_DLL_PF.wgoFlags.length = 10 := by
  have hD : ∀ a ∈ PI_GCS2_DLL.wgoFlags, ∀ b ∈ PI_GCS2_DLL.wgoFlags,
      (a &&& b ≠ 0 ↔ a = b) := by decide
  have hP : ∀ a ∈ PI_GCS2_DLL_PF.wgoFlags, ∀ b ∈ PI_GCS2_DLL_PF.wgoFlags,
      (a &&& b ≠ 0 ↔ a = b) := by decide
  exact ⟨⟨by decide, by decide, by decide,
      fun S T hS hT h => orAll_determines _ hD S T hS hT h⟩, rfl,
    ⟨by decide, by decide, by decide,
      fun S T hS hT h => orAll_determines _ hP S T hS hT h⟩, rfl⟩

/-- Witness for C4: the sub-lists `[SAVE_BIT_1, START_DEFAULT]` and
`[START_DEFAULT, SAVE_BIT_1, START_DEFAULT]` have the same OR, `0x00100001`, and
the same members. -/
theorem C4_wgo_bit_flags_witness :
    orAll [PI_GCS2_DLL.PI_BIT_WGO_SAVE_BIT_1, PI_GCS2_DLL.PI_BIT_WGO_START_DEFAULT]
      = 0x00100001 ∧
    ∀ c, c ∈ [PI_GCS2_DLL.PI_BIT_WGO_SAVE_BIT_1, PI_GCS2_DLL.PI_BIT_WGO_START_DEFAULT] ↔
      c ∈ [PI_GCS2_DLL.PI_BIT_WGO_START_DEFAULT, PI_GCS2_DLL.PI_BIT_WGO_SAVE_BIT_1,
        PI_GCS2_DLL.PI_BIT_WGO_START_DEFAULT] :=
  ⟨by decide, C4_wgo_bit_flags.1.2.2.2 _ _ (by decide) (by decide) (by decide)⟩

/-- Claim C5: in both headers `PI_PIF_MT_ALL` is `PI_PIF_MT_RAM | PI_PIF_MT_EPROM`
and equals 3; RAM and EPROM are the distinct single bits 1 and 2 with bitwise
AND 0; and for every 32-bit value `m`, `m & PI_PIF_MT_ALL` is non-zero exactly
when `m` has the RAM bit or the EPROM bit set. -/
theorem C5_pif_mt_all (m : Nat) (hm : m < 2 ^ 32) :
    (PI_GCS2_DLL.PI_PIF_MT_ALL = PI_GCS2_DLL.PI_PIF_MT_RAM ||| PI_GCS2_DLL.PI_PIF_MT_EPROM ∧
      PI_GCS2_DLL.PI_PIF_MT_ALL = 3 ∧
      PI_GCS2_DLL.PI_PIF_MT_RAM = 2 ^ 0 ∧ PI_GCS2_DLL.PI_PIF_MT_EPROM = 2 ^ 1 ∧
      PI_GCS2_DLL.PI_PIF_MT_RAM ≠ PI_GCS2_DLL.PI_PIF_MT_EPROM ∧
      PI_GCS2_DLL.PI_PIF_MT_RAM &&& PI_GCS2_DLL.PI_PIF_MT_EPROM = 0 ∧
      (m &&& PI_GCS2_DLL.PI_PIF_MT_ALL ≠ 0 ↔
        m &&& PI_GCS2_DLL.PI_PIF_MT_RAM ≠ 0 ∨ m &&& PI_GCS2_DLL.PI_PIF_MT_EPROM ≠ 0)) ∧
    (PI_GCS2_DLL_PF.PI_PIF_MT_ALL
        = PI_GCS2_DLL_PF.PI_PIF_MT_RAM ||| PI_GCS2_DLL_PF.PI_PIF_MT_EPROM ∧
      PI_GCS2_DLL_PF.PI_PIF_MT_ALL = 3 ∧
      PI_GCS2_DLL_PF.PI_PIF_MT_RAM = 2 ^ 0 ∧ PI_GCS2_DLL_PF.PI_PIF_MT_EPROM = 2 ^ 1 ∧
      PI_GCS2_DLL_PF.PI_PIF_MT_RAM ≠ PI_GCS2_DLL_PF.PI_PIF_MT_EPROM ∧
      PI_GCS2_DLL_PF.PI_PIF_MT_RAM &&& PI_GCS2_DLL_PF.PI_PIF_MT_EPROM = 0 ∧
      (m &&& PI_GCS2_DLL_PF.PI_PIF_MT_ALL ≠ 0 ↔
        m &&& PI_GCS2_DLL_PF.PI_PIF_MT_RAM ≠ 0 ∨ m &&& PI_GCS2_DLL_PF.PI_PIF_MT_EPROM ≠ 0)) := by
  have _ := hm
  refine ⟨⟨rfl, by decide, by decide, by decide, by decide, by decide, ?_⟩,
    ⟨rfl, by decide, by decide, by decide, by decide, by decide, ?_⟩⟩
  · rw [PI_GCS2_DLL.PI_PIF_MT_ALL, Nat.and_or_distrib_left, Ne, or_eq_zero_iff]
    tauto
  · rw [PI_GCS2_DLL_PF.PI_PIF_MT_ALL, Nat.and_or_distrib_left, Ne, or_eq_zero_iff]
    tauto

/-- Witness for C5 at `m = 6` (EPROM bit set, RAM bit clear). -/
theorem C5_pif_mt_all_witness :
    (6 &&& PI_GCS2_DLL.PI_PIF_MT_ALL ≠ 0) ∧ (6 &&& PI_GCS2_DLL.PI_PIF_MT_RAM = 0) ∧
    (6 &&& PI_GCS2_DLL.PI_PIF_MT_EPROM ≠ 0) :=
  ⟨(C5_pif_mt_all 6 (by decide)).1.2.2.2.2.2.2.mpr (Or.inr (by decide)), by decide, by decide⟩

/-! ## GCS command and connection functions -/

/-- Claim C7: for either WIN32 setting, the declarations of the sections
"general" through "Surface scan" of PI_GCS2_DLL.h are the declarations from
`PI_qERR` through `PI_qFSR`, and each of them returns `BOOL` and has the first
parameter `int ID`. -/
theorem C7_gcs_commands_BOOL_ID (win32 : Bool) :
    PI_GCS2_DLL.gcsCommands win32
      = between "PI_qERR" "PI_qFSR" (PI_GCS2_DLL.declared win32) ∧
    (PI_GCS2_DLL.gcsCommands win32).length = 369 ∧
    ∀ p ∈ PI_GCS2_DLL.gcsCommands win32,
      p.ret = CType.BOOL ∧ p.params.head? = some (Param.mk CType.int "ID") := by
  cases win32 <;> decide!

/-- Witness for C7 at `PI_qFSR` (line 618), the last of the GCS commands. -/
theorem C7_gcs_commands_BOOL_ID_witness :
    (Proto.mk .BOOL "PI_qFSR" [.mk .int "ID", .mk (.ptr (.const .char)) "szAxes",
        .mk (.ptr .BOOL) "pbValueArray"]).ret = CType.BOOL ∧
    (Proto.mk .BOOL "PI_qFSR" [.mk .int "ID", .mk (.ptr (.const .char)) "szAxes",
        .mk (.ptr .BOOL) "pbValueArray"]).params.head? = some (Param.mk CType.int "ID") :=
  (C7_gcs_commands_BOOL_ID false).2.2 _ (by decide!)

/-- Claim C8: for either WIN32 setting, every function of PI_GCS2_DLL.h whose
name starts with `PI_Connect` or `PI_TryConnect`, or starts with `PI_Open` and
contains `DaisyChain`, returns `int`; and `PI_IsConnected`, `PI_CloseConnection`
and `PI_GetError` are declared with the first parameter `int ID`. -/
theorem C8_connection_ids_are_int (win32 : Bool) :
    (∀ p ∈ PI_GCS2_DLL.declared win32, isConnectionOpening p.name = true →
      p.ret = CType.int) ∧
    (∀ n ∈ ["PI_IsConnected", "PI_CloseConnection", "PI_GetError"],
      (lookup n (PI_GCS2_DLL.declared win32)).map (fun p => p.params.head?)
        = some (some (Param.mk CType.int "ID"))) := by
  cases win32 <;> decide!

/-- Witness for C8 at `PI_OpenUSBDaisyChain` (line 134). -/
theorem C8_connection_ids_are_int_witness :
    isConnectionOpening "PI_OpenUSBDaisyChain" = true ∧
    (Proto.mk .int "PI_OpenUSBDaisyChain" [.mk (.ptr (.const .char)) "szDescription",
        .mk (.ptr .int) "pNumberOfConnectedDaisyChainDevices",
        .mk (.ptr .char) "szDeviceIDNs", .mk .int "iBufferSize"]).ret = CType.int :=
  ⟨by decide!, (C8_connection_ids_are_int true).1 _ (by decide!) (by decide!)⟩

/-! ## The constants of the two headers -/

/-- Claim C9: the two headers define the same `PI_BIT_*`, `PI_DRC_*` and
`PI_PIF_*` macros, in the same order and with the same values; no name is
defined twice in a header, so a name has one value and it is the same in both
headers. -/
theorem C9_constants_agree :
    PI_GCS2_DLL.constants = PI_GCS2_DLL_PF.constants ∧
    (PI_GCS2_DLL.constants.map Prod.fst).Nodup ∧
    (PI_GCS2_DLL_PF.constants.map Prod.fst).Nodup ∧
    (∀ n, n ∈ PI_GCS2_DLL.constants.map Prod.fst ↔
      n ∈ PI_GCS2_DLL_PF.constants.map Prod.fst) ∧
    (∀ n v w, (n, v) ∈ PI_GCS2_DLL.constants → (n, w) ∈ PI_GCS2_DLL_PF.constants →
      v = w) := by
  have heq : PI_GCS2_DLL.constants = PI_GCS2_DLL_PF.constants := by decide
  have hnd : (PI_GCS2_DLL.constants.map Prod.fst).Nodup := by decide
  refine ⟨heq, hnd, heq ▸ hnd, fun n => by rw [heq], ?_⟩
  intro n v w hv hw
  rw [← heq] at hw
  exact nodup_keys_unique _ hnd n v w hv hw

/-! ## The calling-convention macro -/

/-- The replacement list PI_GCS2_DLL.h gives `PI_FUNC_DECL`, by build flags. -/
theorem dll_PI_FUNC_DECL_eq (env : MacroEnv) :
    PI_GCS2_DLL.PI_FUNC_DECL env =
      some (if env.isDefined "WIN32" then
          (if env.isDefined "PI_DLL_EXPORTS" then
            (if env.isDefined "UNKNOWN_GCS_DLL" then [Tok.ident "WINAPI"]
              else [.ident "__declspec", .lparen, .ident "dllexport", .rparen,
                .ident "WINAPI"])
            else [.ident "__declspec", .lparen, .ident "dllimport", .rparen,
              .ident "WINAPI"])
        else
          (if env.isDefined "PI_DLL_EXPORTS" then
            [.ident "__attribute__", .lparen, .lparen, .ident "visibility", .lparen,
              .strLit "default", .rparen, .rparen, .rparen]
            else [])) := by
  unfold PI_GCS2_DLL.PI_FUNC_DECL PI_GCS2_DLL.funcDeclBlock
  cases h1 : env "WIN32" <;> cases h2 : env "PI_DLL_EXPORTS" <;>
    cases h3 : env "UNKNOWN_GCS_DLL" <;>
    simp [Directive.run, MacroEnv.isDefined, h1, h2, h3]

/-- The replacement list PI_GCS2_DLL_PF.h gives `PI_FUNC_DECL`, by build flags. -/
theorem pf_PI_FUNC_DECL_eq (env : MacroEnv) :
    PI_GCS2_DLL_PF.PI_FUNC_DECL env =
      some (if env.isDefined "WIN32" then [Tok.ident "WINAPI"] else []) := by
  unfold PI_GCS2_DLL_PF.PI_FUNC_DECL PI_GCS2_DLL_PF.funcDeclBlock
  cases h1 : env "WIN32" <;> simp [Directive.run, MacroEnv.isDefined, h1]

/-- Claim C10: in both headers the replacement list of `PI_FUNC_DECL` is the
same for two macro tables that agree on WIN32, PI_DLL_EXPORTS and
UNKNOWN_GCS_DLL; with WIN32 defined it contains `WINAPI`; with WIN32 undefined
it contains neither `WINAPI` nor `__declspec`, and it is empty when
PI_DLL_EXPORTS is undefined as well. -/
theorem C10_PI_FUNC_DECL (env : MacroEnv) :
    (∀ env2 : MacroEnv, SameBuildFlags env env2 →
      PI_GCS2_DLL.PI_FUNC_DECL env2 = PI_GCS2_DLL.PI_FUNC_DECL env ∧
      PI_GCS2_DLL_PF.PI_FUNC_DECL env2 = PI_GCS2_DLL_PF.PI_FUNC_DECL env) ∧
    (env.isDefined "WIN32" = true →
      (∃ body, PI_GCS2_DLL.PI_FUNC_DECL env = some body ∧ Tok.ident "WINAPI" ∈ body) ∧
      (∃ body, PI_GCS2_DLL_PF.PI_FUNC_DECL env = some body ∧ Tok.ident "WINAPI" ∈ body)) ∧
    (env.isDefined "WIN32" = false →
      (∃ body, PI_GCS2_DLL.PI_FUNC_DECL env = some body ∧
        Tok.ident "WINAPI" ∉ body ∧ Tok.ident "__declspec" ∉ body ∧
        (env.isDefined "PI_DLL_EXPORTS" = false → body = [])) ∧
      (∃ body, PI_GCS2_DLL_PF.PI_FUNC_DECL env = some body ∧
        Tok.ident "WINAPI" ∉ body ∧ Tok.ident "__declspec" ∉ body ∧
        (env.isDefined "PI_DLL_EXPORTS" = false → body = []))) := by
  refine ⟨?_, ?_, ?_⟩
  · rintro env2 ⟨h1, h2, h3⟩
    rw [dll_PI_FUNC_DECL_eq, dll_PI_FUNC_DECL_eq, pf_PI_FUNC_DECL_eq, pf_PI_FUNC_DECL_eq,
      h1, h2, h3]
    exact ⟨rfl, rfl⟩
  · intro hw
    rw [dll_PI_FUNC_DECL_eq, pf_PI_FUNC_DECL_eq, hw]
    refine ⟨⟨_, rfl, ?_⟩, ⟨_, rfl, ?_⟩⟩
    · cases env.isDefined "PI_DLL_EXPORTS" <;> cases env.isDefined "UNKNOWN_GCS_DLL" <;>
        simp
    · simp
  · intro hw
    rw [dll_PI_FUNC_DECL_eq, pf_PI_FUNC_DECL_eq, hw]
    refine ⟨⟨_, rfl, ?_⟩, ⟨_, rfl, ?_⟩⟩
    · cases env.isDefined "PI_DLL_EXPORTS" <;> simp
    · simp

/-- Witness for C10 on a table that defines only WIN32 (as an empty macro). -/
theorem C10_PI_FUNC_DECL_witness :
    PI_GCS2_DLL.PI_FUNC_DECL (fun n => if n = "WIN32" then some [] else none)
      = some [.ident "__declspec", .lparen, .ident "dllimport", .rparen, .ident "WINAPI"] ∧
    ∃ body, PI_GCS2_DLL_PF.PI_FUNC_DECL (fun n => if n = "WIN32" then some [] else none)
      = some body ∧ Tok.ident "WINAPI" ∈ body :=
  ⟨by simp [dll_PI_FUNC_DECL_eq, MacroEnv.isDefined],
    ((C10_PI_FUNC_DECL (fun n => if n = "WIN32" then some [] else none)).2.1
      (by simp [MacroEnv.isDefined])).2⟩

/-! ## Dependence on WIN32 and distinct names -/

theorem allDistinct_nodup : ∀ l : List Nat, allDistinct l = true → l.Nodup := by
  intro l
  induction l with
  | nil => intro _; exact List.nodup_nil
  | cons k rest ih =>
    intro h
    unfold allDistinct at h
    rw [Bool.and_eq_true, Bool.not_eq_true', List.elem_eq_mem, decide_eq_false_iff_not] at h
    exact List.nodup_cons.mpr ⟨h.1, ih h.2⟩

theorem distinctByResidue_nodup (m : Nat) (hm : 0 < m) (l : List Nat)
    (h : distinctByResidue m l = true) : l.Nodup := by
  rw [List.nodup_iff_count_le_one]
  intro a
  unfold distinctByResidue at h
  rw [List.all_eq_true] at h
  have hr := allDistinct_nodup _ (h (a % m) (List.mem_range.mpr (Nat.mod_lt a hm)))
  rw [List.nodup_iff_count_le_one] at hr
  have hc := hr a
  rwa [List.count_filter (by simp)] at hc

/-- Names with pairwise different keys are pairwise different. -/
theorem names_nodup_of_keys (l : List Proto)
    (h : distinctByResidue 17 (l.map (fun p => nameKey p.name)) = true) :
    (l.map Proto.name).Nodup := by
  have h1 := distinctByResidue_nodup 17 (by decide) _ h
  have h2 : l.map (fun p => nameKey p.name) = (l.map Proto.name).map nameKey := by
    rw [List.map_map]; rfl
  rw [h2] at h1
  exact List.Nodup.of_map nameKey h1

theorem withoutNames_names_nodup (names : List String) (l : List Proto)
    (h : (l.map Proto.name).Nodup) : ((withoutNames names l).map Proto.name).Nodup :=
  List.Nodup.sublist ((List.filter_sublist l).map Proto.name) h

/-- In a list with pairwise different names, looking a declared name up gives
the declaration itself. -/
theorem lookup_of_mem : ∀ (l : List Proto), (l.map Proto.name).Nodup →
    ∀ p ∈ l, lookup p.name l = some p := by
  intro l
  induction l with
  | nil => intro _ p hp; cases hp
  | cons q rest ih =>
    intro hnd p hp
    rw [List.map_cons, List.nodup_cons] at hnd
    unfold lookup
    rcases List.mem_cons.mp hp with rfl | hp2
    · simp
    · have hne : q.name ≠ p.name := by
        intro heq
        exact hnd.1 (heq ▸ List.mem_map_of_mem Proto.name hp2)
      rw [if_neg hne]
      exact ih hnd.2 p hp2

/-- With WIN32 defined PI_GCS2_DLL.h declares what it declares without WIN32,
the two device-name functions left out. -/
theorem dll_declared_win32 :
    PI_GCS2_DLL.declared true
      = withoutNames ["PI_ConnectRS232ByDevName", "PI_OpenRS232DaisyChainByDevName"]
          (PI_GCS2_DLL.declared false) := by
  decide!

/-- With WIN32 defined PI_GCS2_DLL_PF.h declares what it declares without WIN32,
the device-name alias left out. -/
theorem pf_declared_win32 :
    PI_GCS2_DLL_PF.declared true
      = withoutNames ["PFPI_ConnectRS232ByDevName"] (PI_GCS2_DLL_PF.declared false) := by
  decide!

theorem dll_names_nodup (win32 : Bool) :
    ((PI_GCS2_DLL.declared win32).map Proto.name).Nodup := by
  have h : ((PI_GCS2_DLL.declared false).map Proto.name).Nodup :=
    names_nodup_of_keys _ (by decide!)
  cases win32 with
  | false => exact h
  | true => rw [dll_declared_win32]; exact withoutNames_names_nodup _ _ h

theorem pf_names_nodup (win32 : Bool) :
    ((PI_GCS2_DLL_PF.declared win32).map Proto.name).Nodup := by
  have h : ((PI_GCS2_DLL_PF.declared false).map Proto.name).Nodup :=
    names_nodup_of_keys _ (by decide!)
  cases win32 with
  | false => exact h
  | true => rw [pf_declared_win32]; exact withoutNames_names_nodup _ _ h

/-- Claim C11: a function is declared by PI_GCS2_DLL.h with WIN32 defined exactly
when it is declared with WIN32 undefined and is neither
`PI_ConnectRS232ByDevName` nor `PI_OpenRS232DaisyChainByDevName`; these two are
declared exactly when WIN32 is undefined.  Likewise for the aliases of
PI_GCS2_DLL_PF.h and `PFPI_ConnectRS232ByDevName`. -/
theorem C11_win32_only_device_name_functions :
    (∀ p : Proto, p ∈ PI_GCS2_DLL.declared true ↔
      p ∈ PI_GCS2_DLL.declared false ∧ p.name ≠ "PI_ConnectRS232ByDevName" ∧
        p.name ≠ "PI_OpenRS232DaisyChainByDevName") ∧
    (∀ n ∈ ["PI_ConnectRS232ByDevName", "PI_OpenRS232DaisyChainByDevName"],
      ∀ w : Bool, ((∃ p ∈ PI_GCS2_DLL.declared w, p.name = n) ↔ w = false)) ∧
    (∀ a : Proto, a ∈ PI_GCS2_DLL_PF.declared true ↔
      a ∈ PI_GCS2_DLL_PF.declared false ∧ a.name ≠ "PFPI_ConnectRS232ByDevName") ∧
    (∀ w : Bool, ((∃ a ∈ PI_GCS2_DLL_PF.declared w,
      a.name = "PFPI_ConnectRS232ByDevName") ↔ w = false)) := by
  have hD : ∀ p : Proto, p ∈ PI_GCS2_DLL.declared true ↔
      p ∈ PI_GCS2_DLL.declared false ∧ p.name ≠ "PI_ConnectRS232ByDevName" ∧
        p.name ≠ "PI_OpenRS232DaisyChainByDevName" := by
    intro p
    rw [dll_declared_win32, withoutNames, List.mem_filter]
    simp
  have hP : ∀ a : Proto, a ∈ PI_GCS2_DLL_PF.declared true ↔
      a ∈ PI_GCS2_DLL_PF.declared false ∧ a.name ≠ "PFPI_ConnectRS232ByDevName" := by
    intro a
    rw [pf_declared_win32, withoutNames, List.mem_filter]
    simp
  have e1 : ∃ p ∈ PI_GCS2_DLL.declared false, p.name = "PI_ConnectRS232ByDevName" :=
    ⟨Proto.mk .int "PI_ConnectRS232ByDevName"
      [.mk (.ptr (.const .char)) "szDevName", .mk .int "BaudRate"], by decide!, rfl⟩
  have e2 : ∃ p ∈ PI_GCS2_DLL.declared false,
      p.name = "PI_OpenRS232DaisyChainByDevName" :=
    ⟨Proto.mk .int "PI_OpenRS232DaisyChainByDevName"
      [.mk (.ptr (.const .char)) "szDevName", .mk .int "iBaudRate",
        .mk (.ptr .int) "pNumberOfConnectedDaisyChainDevices",
        .mk (.ptr .char) "szDeviceIDNs", .mk .int "iBufferSize"], by decide!, rfl⟩
  have e3 : ∃ a ∈ PI_GCS2_DLL_PF.declared false, a.name = "PFPI_ConnectRS232ByDevName" :=
    ⟨Proto.mk .int "PFPI_ConnectRS232ByDevName"
      [.mk (.ptr (.const .char)) "szDevName", .mk .int "BaudRate"], by decide!, rfl⟩
  refine ⟨hD, ?_, hP, ?_⟩
  · intro n hn w
    simp only [List.mem_cons, List.mem_singleton, List.not_mem_nil, or_false] at hn
    cases w with
    | false => rcases hn with rfl | rfl <;> simp [e1, e2]
    | true =>
      simp only [Bool.true_eq_false, iff_false, not_exists, not_and]
      intro p hp hname
      have := (hD p).mp hp
      rcases hn with rfl | rfl
      · exact this.2.1 hname
      · exact this.2.2 hname
  · intro w
    cases w with
    | false => simp [e3]
    | true =>
      simp only [Bool.true_eq_false, iff_false, not_exists, not_and]
      intro a ha hname
      exact ((hP a).mp ha).2 hname

/-- Claim C12: for either WIN32 setting the function names declared in
PI_GCS2_DLL.h are pairwise distinct and so are the alias names declared in
PI_GCS2_DLL_PF.h; two declarations of a header with the same name are the same
declaration, and looking a declared name up gives its one declaration. -/
theorem C12_names_declared_once (win32 : Bool) :
    ((PI_GCS2_DLL.declared win32).map Proto.name).Nodup ∧
    ((PI_GCS2_DLL_PF.declared win32).map Proto.name).Nodup ∧
    (∀ p ∈ PI_GCS2_DLL.declared win32, ∀ q ∈ PI_GCS2_DLL.declared win32,
      p.name = q.name → p = q) ∧
    (∀ p ∈ PI_GCS2_DLL_PF.declared win32, ∀ q ∈ PI_GCS2_DLL_PF.declared win32,
      p.name = q.name → p = q) ∧
    (∀ p ∈ PI_GCS2_DLL.declared win32,
      lookup p.name (PI_GCS2_DLL.declared win32) = some p) ∧
    (∀ p ∈ PI_GCS2_DLL_PF.declared win32,
      lookup p.name (PI_GCS2_DLL_PF.declared win32) = some p) :=
  ⟨dll_names_nodup win32, pf_names_nodup win32,
    fun _ hp _ hq h => List.inj_on_of_nodup_map (dll_names_nodup win32) hp hq h,
    fun _ hp _ hq h => List.inj_on_of_nodup_map (pf_names_nodup win32) hp hq h,
    lookup_of_mem _ (dll_names_nodup win32), lookup_of_mem _ (pf_names_nodup win32)⟩

/-- Witness for C11 at `PI_ConnectRS232` (declared under both settings) and
`PI_ConnectRS232ByDevName` (declared only without WIN32). -/
theorem C11_win32_only_device_name_functions_witness :
    Proto.mk .int "PI_ConnectRS232" [.mk .int "nPortNr", .mk .int "iBaudRate"]
      ∈ PI_GCS2_DLL.declared true ∧
    Proto.mk .int "PI_ConnectRS232ByDevName"
      [.mk (.ptr (.const .char)) "szDevName", .mk .int "BaudRate"]
      ∉ PI_GCS2_DLL.declared true :=
  ⟨(C11_win32_only_device_name_functions.1 _).mpr ⟨by decide!, by decide!, by decide!⟩,
    fun h => ((C11_win32_only_device_name_functions.1 _).mp h).2.1 rfl⟩

/-- Witness for C12 at `PI_CloseConnection` (PI_GCS2_DLL.h line 137). -/
theorem C12_names_declared_once_witness :
    lookup "PI_CloseConnection" (PI_GCS2_DLL.declared true)
      = some (Proto.mk .void "PI_CloseConnection" [.mk .int "ID"]) :=
  (C12_names_declared_once true).2.2.2.2.1
    (Proto.mk .void "PI_CloseConnection" [.mk .int "ID"]) (by decide!)

/-! ## Code tables -/

/-- In a table whose values are pairwise different a value has one name. -/
theorem nodup_values_unique (l : List (String × Nat))
    (h : (l.map Prod.snd).Nodup) (n m : String) (v : Nat)
    (hn : (n, v) ∈ l) (hm : (m, v) ∈ l) : n = m := by
  induction l with
  | nil => cases hn
  | cons x l ih =>
    rw [List.map_cons, List.nodup_cons] at h
    rw [List.mem_cons] at hn hm
    rcases hn with hn | hn <;> rcases hm with hm | hm
    · rw [← hn] at hm
      exact (Prod.mk.inj hm).1.symm
    · exact absurd (List.mem_map.mpr ⟨(m, v), hm, by rw [← hn]⟩) h.1
    · exact absurd (List.mem_map.mpr ⟨(n, v), hn, by rw [← hm]⟩) h.1
    · exact ih h.2 hn hm

/-- Claim C13: in both headers the nine `PI_DRC_*` codes are, in source order,
`PI_DRC_DEFAULT` = 0 through `PI_DRC_SENSOR_POS` = 8: the consecutive integers
0 to 8, pairwise distinct, and every value from 0 to 8 is the value of exactly
one of the nine names. -/
theorem C13_drc_codes_are_0_to_8 :
    [PI_GCS2_DLL.PI_DRC_DEFAULT, PI_GCS2_DLL.PI_DRC_AXIS_TARGET_POS,
      PI_GCS2_DLL.PI_DRC_AXIS_ACTUAL_POS, PI_GCS2_DLL.PI_DRC_AXIS_POS_ERROR,
      PI_GCS2_DLL.PI_DRC_AXIS_DDL_DATA, PI_GCS2_DLL.PI_DRC_AXIS_DRIVING_VOL,
      PI_GCS2_DLL.PI_DRC_PIEZO_MODEL_VOL, PI_GCS2_DLL.PI_DRC_PIEZO_VOL,
      PI_GCS2_DLL.PI_DRC_SENSOR_POS] = [0, 1, 2, 3, 4, 5, 6, 7, 8] ∧
    PI_GCS2_DLL.drcCodes =
      [("PI_DRC_DEFAULT", 0), ("PI_DRC_AXIS_TARGET_POS", 1), ("PI_DRC_AXIS_ACTUAL_POS", 2),
        ("PI_DRC_AXIS_POS_ERROR", 3), ("PI_DRC_AXIS_DDL_DATA", 4),
        ("PI_DRC_AXIS_DRIVING_VOL", 5), ("PI_DRC_PIEZO_MODEL_VOL", 6),
        ("PI_DRC_PIEZO_VOL", 7), ("PI_DRC_SENSOR_POS", 8)] ∧
    PI_GCS2_DLL_PF.drcCodes = PI_GCS2_DLL.drcCodes ∧
    PI_GCS2_DLL.drcCodes.map Prod.snd = List.range 9 ∧
    (PI_GCS2_DLL.drcCodes.map Prod.snd).Nodup ∧
    (∀ v, v ≤ 8 → ∃! n, (n, v) ∈ PI_GCS2_DLL.drcCodes) ∧
    (∀ v, v ≤ 8 → ∃! n, (n, v) ∈ PI_GCS2_DLL_PF.drcCodes) := by
  have hvals : PI_GCS2_DLL.drcCodes.map Prod.snd = List.range 9 := by decide!
  have hnd : (PI_GCS2_DLL.drcCodes.map Prod.snd).Nodup := hvals ▸ List.nodup_range 9
  have hpf : PI_GCS2_DLL_PF.drcCodes = PI_GCS2_DLL.drcCodes := by decide!
  have huniq : ∀ v, v ≤ 8 → ∃! n, (n, v) ∈ PI_GCS2_DLL.drcCodes := by
    intro v hv
    have hmem : v ∈ PI_GCS2_DLL.drcCodes.map Prod.snd := by
      rw [hvals, List.mem_range]; omega
    obtain ⟨⟨n, w⟩, hin, hw⟩ := List.mem_map.mp hmem
    have hw2 : w = v := hw
    subst hw2
    exact ⟨n, hin, fun m hm => nodup_values_unique _ hnd m n w hm hin⟩
  exact ⟨by decide, by decide!, hpf, hvals, hnd, huniq, hpf ▸ huniq⟩

/-- Witness for C13 at the value 4: its one name is `PI_DRC_AXIS_DDL_DATA`. -/
theorem C13_drc_codes_are_0_to_8_witness :
    ("PI_DRC_AXIS_DDL_DATA", 4) ∈ PI_GCS2_DLL.drcCodes ∧
    ∃! n, (n, 4) ∈ PI_GCS2_DLL.drcCodes :=
  ⟨by decide!, C13_drc_codes_are_0_to_8.2.2.2.2.2.1 4 (by decide)⟩

/-- Claim C14: in both headers `PI_PIF_DT_INT`, `PI_PIF_DT_FLOAT` and
`PI_PIF_DT_CHAR` are 1, 2 and 3: pairwise distinct and non-zero, so a code is
the value of at most one of the three names and 0 is the value of none. -/
theorem C14_data_type_codes (code : Nat) :
    PI_GCS2_DLL.dataTypeCodes
      = [("PI_PIF_DT_INT", 1), ("PI_PIF_DT_FLOAT", 2), ("PI_PIF_DT_CHAR", 3)] ∧
    PI_GCS2_DLL_PF.dataTypeCodes = PI_GCS2_DLL.dataTypeCodes ∧
    PI_GCS2_DLL.PI_PIF_DT_INT = 1 ∧ PI_GCS2_DLL.PI_PIF_DT_FLOAT = 2 ∧
    PI_GCS2_DLL.PI_PIF_DT_CHAR = 3 ∧
    [PI_GCS2_DLL.PI_PIF_DT_INT, PI_GCS2_DLL.PI_PIF_DT_FLOAT,
      PI_GCS2_DLL.PI_PIF_DT_CHAR].Nodup ∧
    (0 ∉ [PI_GCS2_DLL.PI_PIF_DT_INT, PI_GCS2_DLL.PI_PIF_DT_FLOAT,
      PI_GCS2_DLL.PI_PIF_DT_CHAR]) ∧
    (∀ n m, (n, code) ∈ PI_GCS2_DLL.dataTypeCodes → (m, code) ∈ PI_GCS2_DLL.dataTypeCodes →
      n = m) ∧
    (∀ n m, (n, code) ∈ PI_GCS2_DLL_PF.dataTypeCodes →
      (m, code) ∈ PI_GCS2_DLL_PF.dataTypeCodes → n = m) ∧
    (∀ n, (n, 0) ∉ PI_GCS2_DLL.dataTypeCodes) ∧
    (∀ n, (n, 0) ∉ PI_GCS2_DLL_PF.dataTypeCodes) := by
  have htab : PI_GCS2_DLL.dataTypeCodes
      = [("PI_PIF_DT_INT", 1), ("PI_PIF_DT_FLOAT", 2), ("PI_PIF_DT_CHAR", 3)] := by decide!
  have hpf : PI_GCS2_DLL_PF.dataTypeCodes = PI_GCS2_DLL.dataTypeCodes := by decide!
  have hnd : (PI_GCS2_DLL.dataTypeCodes.map Prod.snd).Nodup := by rw [htab]; decide
  have hzero : ∀ n, (n, 0) ∉ PI_GCS2_DLL.dataTypeCodes := by
    intro n hn
    have : (0 : Nat) ∈ PI_GCS2_DLL.dataTypeCodes.map Prod.snd :=
      List.mem_map.mpr ⟨(n, 0), hn, rfl⟩
    rw [htab] at this
    exact absurd this (by decide)
  have huniq : ∀ n m, (n, code) ∈ PI_GCS2_DLL.dataTypeCodes →
      (m, code) ∈ PI_GCS2_DLL.dataTypeCodes → n = m :=
    fun n m hn hm => nodup_values_unique _ hnd n m code hn hm
  exact ⟨htab, hpf, by decide, by decide, by decide, by decide, by decide, huniq,
    hpf ▸ huniq, hzero, hpf ▸ hzero⟩

/-- Witness for C14 at the code 2, the value of `PI_PIF_DT_FLOAT`. -/
theorem C14_data_type_codes_witness :
    ("PI_PIF_DT_FLOAT", 2) ∈ PI_GCS2_DLL.dataTypeCodes ∧
    ∀ m, (m, 2) ∈ PI_GCS2_DLL.dataTypeCodes → "PI_PIF_DT_FLOAT" = m :=
  ⟨by decide!, fun m hm => (C14_data_type_codes 2).2.2.2.2.2.2.2.1 _ m (by decide!) hm⟩

end GCS2
